import Mathlib

/-!
# Lights HAL: a shallow embedding

The definitions below follow `Lights.cpp`, `LightsFlash.cpp`, `LightsUtils.cpp`
(the AIDL lights service) and `lights.c` (the legacy HAL).

* C `int` / `int64_t` values are `Int`; where the source can overflow the
  wrap is explicit (`wrap64`).
* Device I/O, `pthread_create` and the pthread initialisation calls are
  nondeterministic: their outcomes are supplied by an oracle (`DeviceResult`,
  `SyncInit`, `Env`), and every I/O, lock and thread operation performed is
  recorded, in program order, in a list of `Event`s.
* Threads are ghost state of the scheduler that created them.
-/

namespace LightsHal

/-! ## Types of the AIDL interface -/

/-- The AIDL enum `LightType`, in declaration order. -/
inductive LightType
  | BACKLIGHT | KEYBOARD | BUTTONS | BATTERY | NOTIFICATIONS | ATTENTION
  | BLUETOOTH | WIFI | MICROPHONE
  deriving DecidableEq, Repr

/-- The AIDL enum `FlashMode`. -/
inductive FlashMode
  | NONE | TIMED | HARDWARE
  deriving DecidableEq, Repr

/-- The AIDL enum `BrightnessMode`. -/
inductive BrightnessMode
  | USER | SENSOR | LOW_PERSISTENCE
  deriving DecidableEq, Repr

/-- The AIDL parcelable `HwLight`. -/
structure HwLight where
  id : Int
  type : LightType
  ordinal : Int
  deriving DecidableEq, Repr

/-- The AIDL parcelable `HwLightState`; the three `int` fields are 32-bit in the
source, the range is a hypothesis where it matters. -/
structure HwLightState where
  color : Int
  flashMode : FlashMode
  flashOnMs : Int
  flashOffMs : Int
  brightnessMode : BrightnessMode
  deriving DecidableEq, Repr

/-- Value of a default-constructed `HwLightState`. -/
def HwLightState.default : HwLightState :=
  { color := 0, flashMode := FlashMode.NONE, flashOnMs := 0, flashOffMs := 0,
    brightnessMode := BrightnessMode.USER }

/-- The statuses `Lights::setLightState` builds: `ScopedAStatus::ok()` and
`fromExceptionCode` of the two exception codes it uses. -/
inductive ScopedAStatus
  | ok
  | EX_UNSUPPORTED_OPERATION
  | EX_TRANSACTION_FAILED
  deriving DecidableEq, Repr

/-- Modelled from the spec: the caller-facing outcome taxonomy of section 6
(Ok, NotFound, UnsupportedOperation, TransactionFailed), which is not a type of
the source. -/
inductive Outcome
  | Ok | NotFound | UnsupportedOperation | TransactionFailed
  deriving DecidableEq, Repr

/-- Reading of a binder status in the outcome taxonomy. -/
def ScopedAStatus.outcome : ScopedAStatus → Outcome
  | ScopedAStatus.ok => Outcome.Ok
  | ScopedAStatus.EX_UNSUPPORTED_OPERATION => Outcome.UnsupportedOperation
  | ScopedAStatus.EX_TRANSACTION_FAILED => Outcome.TransactionFailed

/-! ## Machine arithmetic -/

/-- Two's-complement bit pattern of a 32-bit C `int`. -/
def bits32 (c : Int) : Nat := (c % 2 ^ 32).toNat

/-- Value of a signed 64-bit integer after wrapping modulo `2^64`. -/
def wrap64 (x : Int) : Int := (x + 2 ^ 63) % 2 ^ 64 - 2 ^ 63

/-- The C cast `(int)` of a `long`. -/
def castInt (x : Int) : Int := (x + 2 ^ 31) % 2 ^ 32 - 2 ^ 31

/-- Constant `LLONG_MAX`. -/
def LLONG_MAX : Int := 2 ^ 63 - 1

/-- Constant `ONE_MS_IN_NS` of `Lights.cpp`, `LightsFlash.cpp` and `lights.c`. -/
def ONE_MS_IN_NS : Int := 1000000

/-- Constant `ONE_S_IN_NS` of `LightsFlash.cpp` and `lights.c`. -/
def ONE_S_IN_NS : Int := 1000000000

/-! ## Events and oracles -/

/-- What one call of the service does to the outside world, in program order. -/
inductive Event
  /-- A call of `pthread_mutex_lock(&config->writeMutex)` of the light with this index. -/
  | lockWrite (light : Nat)
  /-- A call of `pthread_mutex_unlock(&config->writeMutex)` of the light with this index. -/
  | unlockWrite (light : Nat)
  /-- Entry into `LightsUtils::setColorValue(led, color, trigger)`. -/
  | callSetColorValue (led : String) (color : Int) (trigger : Bool)
  /-- Entry into `LightsUtils::setBacklightValue(color)`. -/
  | callSetBacklightValue (color : Int)
  /-- An `open` of a device file and whether it succeeded. -/
  | openFile (path : String) (ok : Bool)
  /-- A `read` of a device file (after the open, which may have failed). -/
  | readFile (path : String)
  /-- A `write` of a string to a device file and whether it succeeded. -/
  | writeString (path : String) (data : String) (ok : Bool)
  /-- A `write` of a decimal number to a device file and whether it succeeded. -/
  | writeNumber (path : String) (value : Int) (ok : Bool)
  /-- A call of `pthread_mutex_lock(&mFlashSignalMutex)`. -/
  | lockFlash
  /-- A call of `pthread_mutex_unlock(&mFlashSignalMutex)`. -/
  | unlockFlash
  /-- A call of `pthread_cond_signal(&mFlashCond)`. -/
  | condSignal
  /-- A call of `pthread_join` on a thread handle. -/
  | join (thread : Nat)
  /-- A `pthread_create` call and its return value; `thread` is the handle
  stored on success. -/
  | create (thread : Nat) (ret : Int)
  /-- A call of `clock_gettime(CLOCK_MONOTONIC)` and whether it succeeded. -/
  | clockGettime (ok : Bool)
  /-- A call of `pthread_cond_timedwait` with the absolute time given and its return
  value. -/
  | condTimedwait (tv_sec : Int) (tv_nsec : Int) (ret : Int)
  deriving DecidableEq, Repr

/-- Outcome of reading `max_brightness`: the open, the read and the `strtol`
conversion of the (at most 8) bytes read. -/
inductive MaxRead
  /-- The `open` failed; the following `read` on the invalid descriptor fails too. -/
  | openFailed
  /-- The `open` succeeded, `read` returned a negative count. -/
  | readFailed
  /-- The bytes read do not end the number with NUL or a newline. -/
  | conversionError
  /-- The bytes read convert to this number. -/
  | value (v : Int)
  deriving DecidableEq, Repr

/-- Outcomes of the device I/O of one `setColorValue` / `setBacklightValue`
call (the trigger fields are not consulted for the backlight). -/
structure DeviceResult where
  maxRead : MaxRead
  openTrigger : Bool
  writeTrigger : Bool
  openBrightness : Bool
  writeBrightness : Bool
  deriving DecidableEq, Repr

/-- A device on which every operation succeeds and `max_brightness` reads 255. -/
def DeviceResult.good : DeviceResult :=
  { maxRead := MaxRead.value 255, openTrigger := true, writeTrigger := true,
    openBrightness := true, writeBrightness := true }

/-! ## LightsUtils -/

/-- Constant `LED_BLUE_NAME`. -/
def LED_BLUE_NAME : String := "blue:heartbeat"
/-- Constant `LED_HW_TRIGGER_ON`. -/
def LED_HW_TRIGGER_ON : String := "heartbeat"
/-- Constant `LED_HW_TRIGGER_OFF`. -/
def LED_HW_TRIGGER_OFF : String := "none"
/-- Constant `LED_TRIGGER` formatted with the led name. -/
def LED_TRIGGER (led : String) : String := "/sys/class/leds/" ++ led ++ "/trigger"
/-- Constant `LED_BRIGHTNESS` formatted with the led name. -/
def LED_BRIGHTNESS (led : String) : String := "/sys/class/leds/" ++ led ++ "/brightness"
/-- Constant `LED_MAX_BRIGHTNESS` formatted with the led name. -/
def LED_MAX_BRIGHTNESS (led : String) : String :=
  "/sys/class/leds/" ++ led ++ "/max_brightness"
/-- Constant `BACKLIGHT_BRIGHTNESS`. -/
def BACKLIGHT_BRIGHTNESS : String := "/sys/class/backlight/panel-lvds-backlight/brightness"
/-- Constant `BACKLIGHT_MAX_BRIGHTNESS`. -/
def BACKLIGHT_MAX_BRIGHTNESS : String :=
  "/sys/class/backlight/panel-lvds-backlight/max_brightness"

/-- Function `LightsUtils::getLedName`; `none` is the null pointer. -/
def getLedName : LightType → Option String
  | LightType.NOTIFICATIONS => some LED_BLUE_NAME
  | LightType.ATTENTION => some LED_BLUE_NAME
  | _ => none

/-- The value `max_brightness` holds after the read block of `setColorValue`
(lines 85-103) and `setBacklightValue` (lines 186-204): the initial value `dflt`
unless the read and the conversion both succeed. -/
def maxBrightnessAfterRead (dflt : Int) : MaxRead → Int
  | MaxRead.value v => v
  | _ => dflt

/-- The events of the read block: the open, then the read (attempted also after a
failed open). -/
def maxReadEvents (path : String) : MaxRead → List Event
  | MaxRead.openFailed => [Event.openFile path false, Event.readFile path]
  | _ => [Event.openFile path true, Event.readFile path]

/-- The block "calculate brightness depending on color level requested (RGB)",
textually the same in `setColorValue` (lines 106-114), `setBacklightValue`
(lines 207-215) and `set_color_value` of `lights.c` (lines 153-161). `color` is
the C `int` argument, the result is the `long int brightness`. -/
def computeBrightness (color : Int) (max_brightness : Int) : Int :=
  let color : Nat := bits32 color &&& 0x00FFFFFF
  if color > 1 then
    let brightness : Nat :=
      (77 * ((color >>> 16) &&& 0x00ff) + 150 * ((color >>> 8) &&& 0x00ff)
        + 29 * (color &&& 0x00ff)) >>> 8
    if (brightness : Int) > max_brightness then max_brightness else brightness
  else
    if color = 1 then max_brightness else 0

/-- Function `LightsUtils::setColorValue`: the return value and the I/O performed. -/
def setColorValue (led : String) (color : Int) (trigger : Bool) (dv : DeviceResult) :
    Int × List Event :=
  let max_brightness := maxBrightnessAfterRead 255 dv.maxRead
  let evMax := maxReadEvents (LED_MAX_BRIGHTNESS led) dv.maxRead
  let brightness := computeBrightness color max_brightness
  let evTrigger :=
    if dv.openTrigger then
      [Event.openFile (LED_TRIGGER led) true,
       Event.writeString (LED_TRIGGER led)
         (if trigger then LED_HW_TRIGGER_ON else LED_HW_TRIGGER_OFF) dv.writeTrigger]
    else [Event.openFile (LED_TRIGGER led) false]
  if !dv.openBrightness then
    (-1, evMax ++ evTrigger ++ [Event.openFile (LED_BRIGHTNESS led) false])
  else if !dv.writeBrightness then
    (-1, evMax ++ evTrigger ++ [Event.openFile (LED_BRIGHTNESS led) true,
      Event.writeNumber (LED_BRIGHTNESS led) (castInt brightness) false])
  else
    (0, evMax ++ evTrigger ++ [Event.openFile (LED_BRIGHTNESS led) true,
      Event.writeNumber (LED_BRIGHTNESS led) (castInt brightness) true])

/-- Function `LightsUtils::setBacklightValue`: the return value and the I/O performed. -/
def setBacklightValue (color : Int) (dv : DeviceResult) : Int × List Event :=
  let max_brightness := maxBrightnessAfterRead 1 dv.maxRead
  let evMax := maxReadEvents BACKLIGHT_MAX_BRIGHTNESS dv.maxRead
  let brightness := computeBrightness color max_brightness
  if !dv.openBrightness then
    (-1, evMax ++ [Event.openFile BACKLIGHT_BRIGHTNESS false])
  else if !dv.writeBrightness then
    (-1, evMax ++ [Event.openFile BACKLIGHT_BRIGHTNESS true,
      Event.writeNumber BACKLIGHT_BRIGHTNESS (castInt brightness) false])
  else
    (0, evMax ++ [Event.openFile BACKLIGHT_BRIGHTNESS true,
      Event.writeNumber BACKLIGHT_BRIGHTNESS (castInt brightness) true])

/-- The reference brightness in the words of the specification (section 4.1):
mask the colour to its low 24 bits; 0 and 1 are a binary flag; otherwise the
luminance of the three byte channels, clamped to the maximum. -/
def referenceBrightness (c : Nat) (m : Int) : Int :=
  let c' := c % 2 ^ 24
  let R := c' / 2 ^ 16 % 2 ^ 8
  let G := c' / 2 ^ 8 % 2 ^ 8
  let B := c' % 2 ^ 8
  if c' = 0 then 0
  else if c' = 1 then m
  else min (((77 * R + 150 * G + 29 * B) / 2 ^ 8 : Nat) : Int) m

/-! ## Validation of the flash durations -/

/-- Function `Lights::checkFlashParams`. The products are formed in `int64_t`; the division
is the truncating C division. -/
def checkFlashParams (state : HwLightState) : Int :=
  if state.flashOffMs < 0 ∨ state.flashOnMs < 0 then -1
  else if state.flashOffMs = 0 ∧ state.flashOnMs = 0 then -1
  else
    let ns := wrap64 (state.flashOffMs * ONE_MS_IN_NS)
    if Int.tdiv ns ONE_MS_IN_NS ≠ state.flashOffMs then -1
    else
      let ns := wrap64 (state.flashOnMs * ONE_MS_IN_NS)
      if Int.tdiv ns ONE_MS_IN_NS ≠ state.flashOnMs then -1
      else 0

/-- Constant `LIGHT_ERROR_INVALID_ARGS` of `lights_config.h`. -/
def LIGHT_ERROR_INVALID_ARGS : Int := -4

/-- Function `check_flash_state` of `lights.c`, on the two duration fields of the
`light_state_t`. -/
def check_flash_state (flashOnMS flashOffMS : Int) : Int :=
  if flashOffMS < 0 ∨ flashOnMS < 0 then LIGHT_ERROR_INVALID_ARGS
  else if flashOffMS = 0 ∧ flashOnMS = 0 then LIGHT_ERROR_INVALID_ARGS
  else
    let ns := wrap64 (flashOffMS * ONE_MS_IN_NS)
    if Int.tdiv ns ONE_MS_IN_NS ≠ flashOffMS then LIGHT_ERROR_INVALID_ARGS
    else
      let ns := wrap64 (flashOnMS * ONE_MS_IN_NS)
      if Int.tdiv ns ONE_MS_IN_NS ≠ flashOnMS then LIGHT_ERROR_INVALID_ARGS
      else 0

/-! ## LightsFlash: the flash scheduler of one light -/

/-- The enum `LightsFlashState` of `LightsFlash.h`. -/
inductive LightsFlashState
  | UNKNOWN | INITIALIZED | STARTED | STOPPED
  deriving DecidableEq, Repr

/-- Return values of the four pthread calls of `initLightSyncResources`. -/
structure SyncInit where
  condattrInit : Int
  condattrSetclock : Int
  condInit : Int
  mutexInit : Int
  deriving DecidableEq, Repr

/-- Function `LightsFlash::initLightSyncResources`: the first non-zero return value, else 0. -/
def initLightSyncResources (r : SyncInit) : Int :=
  if r.condattrInit ≠ 0 then r.condattrInit
  else if r.condattrSetclock ≠ 0 then r.condattrSetclock
  else if r.condInit ≠ 0 then r.condInit
  else if r.mutexInit ≠ 0 then r.mutexInit
  else 0

/-- The members of a `LightsFlash` object. `mFlashThread` is the handle stored by
the last successful `pthread_create` (handles are numbered from 1; 0 stands for
the handle never written). The last four fields are ghost state: what
`initLightSyncResources` returned in the constructor, how many threads this
object has created, which of them have not been joined yet, and which of them
are still executing `flashRoutine`. -/
structure LightsFlash where
  mState : LightsFlashState
  mHwLight : HwLight
  mHwLightState : HwLightState
  mFlashThread : Nat
  syncRet : Int
  created : Nat
  unjoined : List Nat
  running : List Nat
  deriving DecidableEq, Repr

/-- The constructor `LightsFlash::LightsFlash(HwLight)`: a failure of
`initLightSyncResources` is logged and nothing else. -/
def LightsFlash.new (light : HwLight) (sync : SyncInit) : LightsFlash :=
  { mState := LightsFlashState.UNKNOWN, mHwLight := light,
    mHwLightState := HwLightState.default, mFlashThread := 0,
    syncRet := initLightSyncResources sync, created := 0, unjoined := [], running := [] }

/-- Function `LightsFlash::setLightState`. -/
def LightsFlash.setLightState (self : LightsFlash) (state : HwLightState) : LightsFlash :=
  { self with mHwLightState := state, mState := LightsFlashState.INITIALIZED }

/-- Function `LightsFlash::start`; `createRet` is what `pthread_create` returns if it is
called. Yields the object, the return value and the events. -/
def LightsFlash.start (self : LightsFlash) (createRet : Int) :
    LightsFlash × Int × List Event :=
  if self.mState = LightsFlashState.INITIALIZED ∨ self.mState = LightsFlashState.STOPPED then
    if createRet = 0 then
      ({ self with
          mFlashThread := self.created + 1, created := self.created + 1,
          unjoined := (self.created + 1) :: self.unjoined,
          running := (self.created + 1) :: self.running,
          mState := LightsFlashState.STARTED },
        0, [Event.create (self.created + 1) 0])
    else (self, createRet, [Event.create (self.created + 1) createRet])
  else (self, 0, [])

/-- Function `LightsFlash::stop`. The join returns once the thread has left
`flashRoutine`, so the joined thread is neither unjoined nor running afterwards. -/
def LightsFlash.stop (self : LightsFlash) : LightsFlash × List Event :=
  if self.mState = LightsFlashState.STARTED then
    ({ self with
        mHwLightState := { self.mHwLightState with flashMode := FlashMode.NONE },
        unjoined := self.unjoined.filter (fun t => decide (t ≠ self.mFlashThread)),
        running := self.running.filter (fun t => decide (t ≠ self.mFlashThread)) },
      [Event.lockFlash, Event.condSignal, Event.unlockFlash, Event.join self.mFlashThread])
  else (self, [])

/-- A running flash loop leaves `flashRoutine` on its own (a write, clock or wait
error): the thread stops running and stays unjoined. -/
def LightsFlash.loopExit (self : LightsFlash) (thread : Nat) : LightsFlash :=
  { self with running := self.running.filter (fun t => decide (t ≠ thread)) }

/-! ## Lights: the registry -/

/-- The struct `HwLightConfig` of `Lights.h`; `lightsFlash = none` is the null
pointer. The `writeMutex` member is represented by the lock events. -/
structure HwLightConfig where
  hwLight : HwLight
  flashMode : FlashMode
  lightsFlash : Option LightsFlash
  deriving DecidableEq, Repr

/-- The state of a `Lights` object. -/
structure Lights where
  availableLights : List HwLightConfig
  deriving DecidableEq, Repr

/-- Function `Lights::addLight`. -/
def Lights.addLight (self : Lights) (type : LightType) (ordinal : Int) : Lights :=
  { availableLights := self.availableLights ++
      [{ hwLight := { id := self.availableLights.length, type := type, ordinal := ordinal },
         flashMode := FlashMode.NONE, lightsFlash := none }] }

/-- The constructor `Lights::Lights()`. -/
def Lights.new : Lights :=
  let s : Lights := { availableLights := [] }
  let s := s.addLight LightType.BACKLIGHT 0
  let s := s.addLight LightType.KEYBOARD 0
  let s := s.addLight LightType.BUTTONS 0
  let s := s.addLight LightType.BATTERY 0
  let s := s.addLight LightType.NOTIFICATIONS 0
  let s := s.addLight LightType.ATTENTION 0
  let s := s.addLight LightType.BLUETOOTH 0
  let s := s.addLight LightType.WIFI 0
  s.addLight LightType.MICROPHONE 0

/-- Function `Lights::getLights`: the lights are appended to the caller's vector. -/
def Lights.getLights (self : Lights) (lights : List HwLight) : List HwLight × ScopedAStatus :=
  (lights ++ self.availableLights.map (fun c => c.hwLight), ScopedAStatus.ok)

/-- The outcomes one `setLightState` call may consume: the device I/O of its
`setColorValue` / `setBacklightValue` call, the pthread initialisation results if
it constructs a `LightsFlash`, and the return value of `pthread_create` if
`start()` calls it. -/
structure Env where
  dev : DeviceResult
  sync : SyncInit
  createRet : Int
  deriving DecidableEq, Repr

/-- Lines 88-94 of `Lights::setLightState`: "destroy flashing thread". -/
def stopIfTimed (config : HwLightConfig) : HwLightConfig × List Event :=
  if config.flashMode = FlashMode.TIMED then
    match config.lightsFlash with
    | some lf =>
      ({ config with flashMode := FlashMode.NONE, lightsFlash := some lf.stop.1 }, lf.stop.2)
    | none => ({ config with flashMode := FlashMode.NONE }, [])
  else (config, [])

/-- Lines 107-109 of `Lights::setLightState`: the light's scheduler, constructed
if the light has none yet. -/
def schedulerOf (config : HwLightConfig) (sync : SyncInit) : LightsFlash :=
  match config.lightsFlash with
  | none => LightsFlash.new config.hwLight sync
  | some lf => lf

/-- Lines 70-128 of `Lights::setLightState`: what happens to `*config`, the light
with index `i`, between taking its write mutex and the return. Yields the new
configuration, the status returned and the events after the lock. -/
def setLightStateLocked (i : Nat) (config : HwLightConfig) (env : Env)
    (state : HwLightState) : HwLightConfig × ScopedAStatus × List Event :=
  if config.hwLight.type = LightType.BACKLIGHT then
    let r := setBacklightValue state.color env.dev
    (config,
      if r.1 < 0 then ScopedAStatus.EX_TRANSACTION_FAILED else ScopedAStatus.ok,
      Event.callSetBacklightValue state.color :: r.2 ++ [Event.unlockWrite i])
  else
    match getLedName config.hwLight.type with
    | none => (config, ScopedAStatus.ok, [Event.unlockWrite i])
    | some name =>
      let stopped := stopIfTimed config
      let config := stopped.1
      if state.flashMode ≠ FlashMode.TIMED then
        let r := setColorValue name state.color
          (decide (state.flashMode = FlashMode.HARDWARE)) env.dev
        let ev := stopped.2 ++
          Event.callSetColorValue name state.color
            (decide (state.flashMode = FlashMode.HARDWARE)) :: r.2
        if r.1 < 0 then
          (config, ScopedAStatus.EX_TRANSACTION_FAILED, ev ++ [Event.unlockWrite i])
        else (config, ScopedAStatus.ok, ev ++ [Event.unlockWrite i])
      else if checkFlashParams state = 0 then
        let started : LightsFlash × Int × List Event :=
          ((schedulerOf config env.sync).setLightState state).start env.createRet
        if started.2.1 ≠ 0 then
          ({ config with lightsFlash := some started.1, flashMode := FlashMode.NONE },
            ScopedAStatus.EX_TRANSACTION_FAILED,
            stopped.2 ++ started.2.2 ++ [Event.unlockWrite i])
        else
          ({ config with lightsFlash := some started.1, flashMode := FlashMode.TIMED },
            ScopedAStatus.ok, stopped.2 ++ started.2.2 ++ [Event.unlockWrite i])
      else
        ({ config with flashMode := FlashMode.NONE },
          ScopedAStatus.EX_UNSUPPORTED_OPERATION, stopped.2 ++ [Event.unlockWrite i])

/-- Function `Lights::setLightState`: the new registry, the status returned and the events
of the call. -/
def Lights.setLightState (self : Lights) (env : Env) (id : Int) (state : HwLightState) :
    Lights × ScopedAStatus × List Event :=
  if ¬ (0 ≤ id ∧ id < self.availableLights.length) then
    (self, ScopedAStatus.EX_UNSUPPORTED_OPERATION, [])
  else if state.brightnessMode = BrightnessMode.LOW_PERSISTENCE then
    (self, ScopedAStatus.EX_UNSUPPORTED_OPERATION, [])
  else
    match self.availableLights[id.toNat]? with
    | none => (self, ScopedAStatus.EX_UNSUPPORTED_OPERATION, [])
    | some config =>
      let r := setLightStateLocked id.toNat config env state
      ({ availableLights := self.availableLights.set id.toNat r.1 }, r.2.1,
        Event.lockWrite id.toNat :: r.2.2)

/-! ## Runs of the service -/

/-- One thing that happens to the registry: a `setLightState` request with the
outcomes it meets, or the flash loop `thread` of a light ending on its own. -/
inductive Step
  | request (env : Env) (id : Int) (state : HwLightState)
  | loopExit (light : Nat) (thread : Nat)
  deriving DecidableEq, Repr

/-- The effect of a flash loop ending on its own. -/
def Lights.loopExit (self : Lights) (light thread : Nat) : Lights :=
  match self.availableLights[light]? with
  | none => self
  | some config =>
    match config.lightsFlash with
    | none => self
    | some lf =>
      { availableLights := self.availableLights.set light
          { config with lightsFlash := some (lf.loopExit thread) } }

/-- The registry after one step. -/
def Lights.step (self : Lights) : Step → Lights
  | Step.request env id state => (self.setLightState env id state).1
  | Step.loopExit light thread => self.loopExit light thread

/-- The registry after a sequence of steps, processed one after another. -/
def Lights.run (self : Lights) (steps : List Step) : Lights :=
  steps.foldl Lights.step self

/-- The flash-loop threads of a light that were spawned and not joined yet. -/
def HwLightConfig.unjoinedThreads (c : HwLightConfig) : List Nat :=
  match c.lightsFlash with
  | none => []
  | some lf => lf.unjoined

/-- The flash-loop threads of a light that are still executing the loop. -/
def HwLightConfig.runningThreads (c : HwLightConfig) : List Nat :=
  match c.lightsFlash with
  | none => []
  | some lf => lf.running

/-- The configuration of the light with this id, if the id is in range. -/
def Lights.config? (self : Lights) (id : Int) : Option HwLightConfig :=
  if 0 ≤ id then self.availableLights[id.toNat]? else none

/-- The led that `getLedName` gives for the light with this id, if any. -/
def Lights.ledOf (self : Lights) (id : Int) : Option String :=
  (self.config? id).bind (fun c => getLedName c.hwLight.type)

/-- The unjoined flash-loop threads of the light with this id. -/
def Lights.unjoinedThreads (self : Lights) (id : Int) : List Nat :=
  match self.config? id with
  | none => []
  | some c => c.unjoinedThreads

/-- The flash-loop threads of the light with this id that are still running. -/
def Lights.runningThreads (self : Lights) (id : Int) : List Nat :=
  match self.config? id with
  | none => []
  | some c => c.runningThreads

/-- The flash mode the registry records for the light with this id. -/
def Lights.flashModeOf (self : Lights) (id : Int) : Option FlashMode :=
  (self.config? id).map (fun c => c.flashMode)

/-- Whether an event is a `pthread_create` call. -/
def Event.isCreate : Event → Bool
  | Event.create _ _ => true
  | _ => false

/-- Whether an event is the entry into `setColorValue` or `setBacklightValue`. -/
def Event.isDeviceCall : Event → Bool
  | Event.callSetColorValue _ _ _ => true
  | Event.callSetBacklightValue _ => true
  | _ => false

/-- Whether an event is an operation on a device file. -/
def Event.isFileOp : Event → Bool
  | Event.openFile _ _ => true
  | Event.readFile _ => true
  | Event.writeString _ _ _ => true
  | Event.writeNumber _ _ _ => true
  | _ => false

/-- The registry's record of a light agrees with its threads: a light recorded as
TIMED has a started scheduler whose only unjoined thread is the one in its handle;
any other light is recorded as NONE and has neither an unjoined nor a running
thread. -/
def ThreadInv (c : HwLightConfig) : Prop :=
  match c.lightsFlash with
  | none => c.flashMode = FlashMode.NONE
  | some lf =>
    (c.flashMode = FlashMode.TIMED ∧ lf.mState = LightsFlashState.STARTED
        ∧ lf.unjoined = [lf.mFlashThread] ∧ (∀ t ∈ lf.running, t = lf.mFlashThread))
      ∨ (c.flashMode = FlashMode.NONE ∧ lf.unjoined = [] ∧ lf.running = [])

/-- The invariant of one light: a light without a led has no scheduler, and the
record of the light agrees with its threads. -/
def ConfigInv (c : HwLightConfig) : Prop :=
  (getLedName c.hwLight.type = none → c.lightsFlash = none) ∧ ThreadInv c

/-- The invariant of the registry: the lights are those of the constructor and
every light's record agrees with its threads. -/
def Lights.WF (self : Lights) : Prop :=
  self.availableLights.map (fun c => c.hwLight)
      = Lights.new.availableLights.map (fun c => c.hwLight)
    ∧ ∀ c ∈ self.availableLights, ConfigInv c

/-- An environment in which every device operation and every pthread call succeeds. -/
def Env.good : Env :=
  { dev := DeviceResult.good,
    sync := { condattrInit := 0, condattrSetclock := 0, condInit := 0, mutexInit := 0 },
    createRet := 0 }

/-- The request `setLightState(id, TIMED, on, off)` in a good environment. -/
def timedRequest (id : Int) (color onMs offMs : Int) : Step :=
  Step.request Env.good id
    { color := color, flashMode := FlashMode.TIMED, flashOnMs := onMs, flashOffMs := offMs,
      brightnessMode := BrightnessMode.USER }

/-- The request `setLightState(id, NONE)` in a good environment. -/
def noneRequest (id : Int) (color : Int) : Step :=
  Step.request Env.good id
    { color := color, flashMode := FlashMode.NONE, flashOnMs := 0, flashOffMs := 0,
      brightnessMode := BrightnessMode.USER }

/-- The sequence of `2 * n` requests alternating TIMED(on=100, off=100) and NONE
on one light. -/
def alternating (id : Int) : Nat → List Step
  | 0 => []
  | n + 1 => timedRequest id 0xFFB500 100 100 :: noneRequest id 0 :: alternating id n

/-- The state `onOrange` of `hal-example-app.cpp`. -/
def onOrange : HwLightState :=
  { color := 0xFFFFA500, flashMode := FlashMode.NONE, flashOnMs := 0, flashOffMs := 0,
    brightnessMode := BrightnessMode.USER }

/-- The state `onHeartbeat` of `hal-example-app.cpp`. -/
def onHeartbeat : HwLightState :=
  { color := 0xFFFFB500, flashMode := FlashMode.TIMED, flashOnMs := 2000, flashOffMs := 2000,
    brightnessMode := BrightnessMode.USER }

/-- Whether an event locks or unlocks the write mutex of some light. -/
def Event.isWriteMutexOp : Event → Bool
  | Event.lockWrite _ => true
  | Event.unlockWrite _ => true
  | _ => false

/-- A scheduler in phase STARTED: constructed for light 4 (NOTIFICATIONS), given
the state `onHeartbeat`, and started with a successful `pthread_create`. -/
def startedScheduler : LightsFlash :=
  (((LightsFlash.new { id := 4, type := LightType.NOTIFICATIONS, ordinal := 0 }
    Env.good.sync).setLightState onHeartbeat).start 0).1

/-! ## LightsFlash: the flash loop -/

/-- Constant `ETIMEDOUT` of `errno.h`. -/
def ETIMEDOUT : Int := 110

/-- Outcomes met by one iteration of the flash loop: the device I/O of its
`setColorValue` call, the result of `clock_gettime` (`none` when it fails, else
`tv_sec` and `tv_nsec`), the return value of `pthread_cond_timedwait`, and whether
`stop()` stored the flash mode NONE while the loop was waiting. -/
structure LoopEnv where
  dev : DeviceResult
  clock : Option (Int × Int)
  waitRet : Int
  stopped : Bool
  deriving DecidableEq, Repr

/-- The ways `flashRoutine` returns, in source order: wrong phase, no led for the
light type, flash mode no longer TIMED at the loop test, `setColorValue` failure,
clock failure, wake-time overflow, wait error. -/
inductive FlashExit
  | badState | noLed | modeNotTimed | writeFailed | clockFailed | overflow | waitFailed
  deriving DecidableEq, Repr

/-- Function `LightsFlash::getTimestampMonotonic`, on the result of `clock_gettime`. -/
def getTimestampMonotonic : Option (Int × Int) → Int
  | some (tv_sec, tv_nsec) => wrap64 (wrap64 (ONE_S_IN_NS * tv_sec) + tv_nsec)
  | none => -1

/-- Function `LightsFlash::setTimestamp`: the fields `tv_sec` and `tv_nsec` written
(`time_t` taken as 64 bits wide). -/
def setTimestamp (target_ns : Int) : Int × Int :=
  (Int.tdiv target_ns ONE_S_IN_NS, Int.tmod target_ns ONE_S_IN_NS)

/-- Lines 207-216 of `flashRoutine`: the overflow check and, unless it aborts the
loop (`none`), the timespec handed to `pthread_cond_timedwait`. -/
def wakeTime (timestamp period : Int) : Option (Int × Int) :=
  if timestamp > wrap64 (LLONG_MAX - period) then none
  else some (setTimestamp (wrap64 (timestamp + period)))

/-- Lines 199-205 of `flashRoutine`: the colour of the next iteration and the
period to wait after the colour just written. -/
def nextPhase (st : HwLightState) (reqColor color : Int) : Int × Int :=
  if color ≠ 0 then (0, wrap64 (st.flashOnMs * ONE_MS_IN_NS))
  else (reqColor, wrap64 (st.flashOffMs * ONE_MS_IN_NS))

/-- The outcome of a run of the flash loop: how it left the loop (`none` while it
is still looping when the oracle ends) and the events of each iteration. -/
structure LoopResult where
  exit : Option FlashExit
  iterations : List (List Event)
  deriving DecidableEq, Repr

/-- The `while` loop of `flashRoutine` (lines 186-222), one oracle entry per
iteration; `color` and `mode` are the local `color` and the shared flash mode at
the loop test. -/
def flashLoop (name : String) (st : HwLightState) (reqColor : Int) :
    Int → FlashMode → List LoopEnv → LoopResult
  | color, mode, envs =>
    if mode ≠ FlashMode.TIMED then { exit := some FlashExit.modeNotTimed, iterations := [] }
    else
      match envs with
      | [] => { exit := none, iterations := [] }
      | e :: rest =>
        let w := setColorValue name color false e.dev
        let evWrite := Event.callSetColorValue name color false :: w.2
        if w.1 ≠ 0 then { exit := some FlashExit.writeFailed, iterations := [evWrite] }
        else
          let timestamp := getTimestampMonotonic e.clock
          if timestamp < 0 then
            { exit := some FlashExit.clockFailed,
              iterations := [evWrite ++ [Event.clockGettime e.clock.isSome]] }
          else
            match wakeTime timestamp (nextPhase st reqColor color).2 with
            | none =>
              { exit := some FlashExit.overflow,
                iterations := [evWrite ++ [Event.clockGettime e.clock.isSome]] }
            | some ts =>
              let ev := evWrite ++ [Event.clockGettime e.clock.isSome,
                Event.condTimedwait ts.1 ts.2 e.waitRet]
              if e.waitRet ≠ 0 ∧ e.waitRet ≠ ETIMEDOUT then
                { exit := some FlashExit.waitFailed, iterations := [ev] }
              else
                let r := flashLoop name st reqColor (nextPhase st reqColor color).1
                  (if e.stopped then FlashMode.NONE else mode) rest
                { exit := r.exit, iterations := ev :: r.iterations }

/-- Function `LightsFlash::flashRoutine`: how it returns (`none`: it is still in the
loop when the oracle ends) and its events. `pthread_cond_timedwait` releases the
mutex while waiting and holds it again when it returns. -/
def LightsFlash.flashRoutine (self : LightsFlash) (envs : List LoopEnv) :
    Option FlashExit × List Event :=
  if self.mState ≠ LightsFlashState.STARTED then (some FlashExit.badState, [])
  else
    match getLedName self.mHwLight.type with
    | none => (some FlashExit.noLed, [])
    | some name =>
      let r := flashLoop name self.mHwLightState self.mHwLightState.color
        self.mHwLightState.color self.mHwLightState.flashMode envs
      match r.exit with
      | none => (none, Event.lockFlash :: r.iterations.flatten)
      | some x => (some x, Event.lockFlash :: r.iterations.flatten ++ [Event.unlockFlash])

/-- Whether an event locks or unlocks the mutex `mFlashSignalMutex`. -/
def Event.isFlashMutexOp : Event → Bool
  | Event.lockFlash => true
  | Event.unlockFlash => true
  | _ => false

/-- The events of an iteration of the flash loop that writes `color`, reads the
timestamp of `e.clock` and waits until `period` nanoseconds later. -/
def iterationEvents (name : String) (color period : Int) (e : LoopEnv) : List Event :=
  Event.callSetColorValue name color false :: (setColorValue name color false e.dev).2
    ++ [Event.clockGettime true,
        Event.condTimedwait (setTimestamp (getTimestampMonotonic e.clock + period)).1
          (setTimestamp (getTimestampMonotonic e.clock + period)).2 e.waitRet]

/-- An iteration without incident that waits `period` nanoseconds: the brightness
file is opened and written, the clock gives a non-negative timestamp, the wake time
`timestamp + period` does not overflow, the wait returns 0 or `ETIMEDOUT`, and no
`stop()` occurs. -/
def LoopEnv.quiet (period : Int) (e : LoopEnv) : Prop :=
  e.dev.openBrightness = true ∧ e.dev.writeBrightness = true
    ∧ 0 ≤ getTimestampMonotonic e.clock
    ∧ getTimestampMonotonic e.clock + period ≤ LLONG_MAX
    ∧ (e.waitRet = 0 ∨ e.waitRet = ETIMEDOUT)
    ∧ e.stopped = false

/-- A run of iterations without incident that starts with the local `color`: each
oracle entry is without incident for the one period that lines 199-205 compute
from the colour written in its iteration, and the next iteration starts with the
colour assigned there. -/
def quietRun (st : HwLightState) (reqColor : Int) : Int → List LoopEnv → Prop
  | _, [] => True
  | color, e :: rest =>
    e.quiet (nextPhase st reqColor color).2
      ∧ quietRun st reqColor (nextPhase st reqColor color).1 rest

/-- An oracle entry on which everything succeeds at time `tv_sec` seconds. -/
def LoopEnv.good (tv_sec : Int) : LoopEnv :=
  { dev := DeviceResult.good, clock := some (tv_sec, 0), waitRet := ETIMEDOUT,
    stopped := false }

/-! ## The legacy HAL (`lights.c`) -/

/-- Constant `LIGHT_FLASH_NONE` of the Android header `hardware/lights.h`. -/
def LIGHT_FLASH_NONE : Int := 0
/-- Constant `LIGHT_FLASH_TIMED` of the Android header `hardware/lights.h`. -/
def LIGHT_FLASH_TIMED : Int := 1
/-- Constant `LIGHT_FLASH_HARDWARE` of the Android header `hardware/lights.h`. -/
def LIGHT_FLASH_HARDWARE : Int := 2
/-- Constant `LIGHT_SUCCESS` of `lights_config.h`. -/
def LIGHT_SUCCESS : Int := 0
/-- Constant `LIGHT_ERROR_UNKNOWN` of `lights_config.h`. -/
def LIGHT_ERROR_UNKNOWN : Int := -1
/-- Constant `LIGHT_DEVICE_STUB_NAME` of `lights.c`. -/
def LIGHT_DEVICE_STUB_NAME : String := "stub"

/-- The struct `light_state_t` of the Android header `hardware/lights.h`. -/
structure light_state_t where
  color : Int
  flashMode : Int
  flashOnMS : Int
  flashOffMS : Int
  brightnessMode : Int
  deriving DecidableEq, Repr

/-- The members of a `light_device_ext_t` that `set_light_generic` uses: the stored
state, `config->light_device`, the index of the device in `light_devices` (which
names its write mutex) and the handle `flash_thread`; `created` and `unjoined` are
ghost state, as in `LightsFlash`. -/
structure light_device_ext_t where
  state : light_state_t
  light_device : String
  type : Nat
  flash_thread : Nat
  created : Nat
  unjoined : List Nat
  deriving DecidableEq, Repr

/-- Function `set_color_value` of `lights.c`: the return value and the I/O performed
(`LIGHT_MAX_BRIGHTNESS` and `LIGHT_BRIGHTNESS` are the format strings of
`LED_MAX_BRIGHTNESS` and `LED_BRIGHTNESS`). -/
def set_color_value (light_device : String) (color : Int) (dv : DeviceResult) :
    Int × List Event :=
  if light_device = LIGHT_DEVICE_STUB_NAME then (LIGHT_SUCCESS, [])
  else
    match dv.maxRead with
    | MaxRead.openFailed =>
      (LIGHT_ERROR_UNKNOWN, [Event.openFile (LED_MAX_BRIGHTNESS light_device) false])
    | MaxRead.conversionError =>
      (LIGHT_ERROR_UNKNOWN, [Event.openFile (LED_MAX_BRIGHTNESS light_device) true,
        Event.readFile (LED_MAX_BRIGHTNESS light_device)])
    | m =>
      let ret := if m = MaxRead.readFailed then LIGHT_ERROR_UNKNOWN else LIGHT_SUCCESS
      let brightness := computeBrightness color (maxBrightnessAfterRead 200 m)
      let evMax := [Event.openFile (LED_MAX_BRIGHTNESS light_device) true,
        Event.readFile (LED_MAX_BRIGHTNESS light_device)]
      if !dv.openBrightness then
        (LIGHT_ERROR_UNKNOWN, evMax ++ [Event.openFile (LED_BRIGHTNESS light_device) false])
      else if !dv.writeBrightness then
        (LIGHT_ERROR_UNKNOWN, evMax ++ [Event.openFile (LED_BRIGHTNESS light_device) true,
          Event.writeNumber (LED_BRIGHTNESS light_device) (castInt brightness) false])
      else
        (ret, evMax ++ [Event.openFile (LED_BRIGHTNESS light_device) true,
          Event.writeNumber (LED_BRIGHTNESS light_device) (castInt brightness) true])

/-- Lines 336-343 of `set_light_generic`: "destroy flashing thread". -/
def stopLegacy (dev : light_device_ext_t) : light_device_ext_t × List Event :=
  if dev.state.flashMode ≠ 0 then
    ({ dev with
        state := { dev.state with flashMode := LIGHT_FLASH_NONE },
        unjoined := dev.unjoined.filter (fun t => decide (t ≠ dev.flash_thread)) },
      [Event.lockFlash, Event.condSignal, Event.unlockFlash, Event.join dev.flash_thread])
  else (dev, [])

/-- Function `set_light_generic` of `lights.c` on a non-null device: the device
afterwards, the return value and the events; `createRet` is what `pthread_create`
returns if it is called. -/
def set_light_generic (dev : light_device_ext_t) (state : light_state_t)
    (dv : DeviceResult) (createRet : Int) : light_device_ext_t × Int × List Event :=
  let stopped := stopLegacy dev
  let dev := { stopped.1 with state := state }
  if state.flashMode ≠ 0 then
    if check_flash_state dev.state.flashOnMS dev.state.flashOffMS = 0 then
      if createRet ≠ 0 then
        ({ dev with state := { dev.state with flashMode := LIGHT_FLASH_NONE } }, createRet,
          Event.lockWrite dev.type :: stopped.2
            ++ [Event.create (dev.created + 1) createRet, Event.unlockWrite dev.type])
      else
        ({ dev with
            flash_thread := dev.created + 1, created := dev.created + 1,
            unjoined := (dev.created + 1) :: dev.unjoined },
          createRet,
          Event.lockWrite dev.type :: stopped.2
            ++ [Event.create (dev.created + 1) createRet, Event.unlockWrite dev.type])
    else
      ({ dev with state := { dev.state with flashMode := LIGHT_FLASH_NONE } }, 0,
        Event.lockWrite dev.type :: stopped.2 ++ [Event.unlockWrite dev.type])
  else
    let r := set_color_value dev.light_device state.color dv
    (dev, r.1, Event.lockWrite dev.type :: stopped.2 ++ r.2 ++ [Event.unlockWrite dev.type])

/-- An opened legacy device for the NOTIFICATIONS light (index 4 of `light_devices`)
on the led "blue:heartbeat", with the zeroed state of a fresh device. -/
def legacyDevice : light_device_ext_t :=
  { state := { color := 0, flashMode := LIGHT_FLASH_NONE, flashOnMS := 0, flashOffMS := 0,
               brightnessMode := 0 },
    light_device := "blue:heartbeat", type := 4, flash_thread := 0, created := 0,
    unjoined := [] }

/-! ## The configuration parser (`lights_config.c`) -/

/-- Constant `MAX_PARSE_DEPTH`. -/
def MAX_PARSE_DEPTH : Nat := 6
/-- Constant `EINVAL` of `errno.h`. -/
def EINVAL : Int := 22
/-- The macro `BIT`. -/
def BIT (x : Nat) : Nat := 1 <<< x
/-- Constant `e_elem_device` of `enum element_index`. -/
def e_elem_device : Nat := 0
/-- Constant `e_elem_lightshal` of `enum element_index`. -/
def e_elem_lightshal : Nat := 1
/-- Constant `e_elem_count` of `enum element_index`. -/
def e_elem_count : Nat := 2
/-- Constant `e_attrib_name` of `enum attrib_index`. -/
def e_attrib_name : Nat := 0
/-- Constant `e_attrib_device` of `enum attrib_index`. -/
def e_attrib_device : Nat := 1
/-- Constant `e_attrib_color` of `enum attrib_index`. -/
def e_attrib_color : Nat := 2
/-- Constant `e_attrib_count` of `enum attrib_index`. -/
def e_attrib_count : Nat := 3
/-- Constant `COLOR_MONO` of `lights_config.h`. -/
def COLOR_MONO : Nat := 0
/-- Constant `COLOR_RGB` of `lights_config.h`. -/
def COLOR_RGB : Nat := 1
/-- Constant `COLOR_RGB_STR`. -/
def COLOR_RGB_STR : String := "rgb"

/-- The handlers an `elem_fn` pointer of `elem_table` can name. -/
inductive elem_fn
  | parse_device_start | parse_device_end
  deriving DecidableEq, Repr

/-- The struct `parse_element`; a null handler is `none`. -/
structure parse_element where
  name : String
  valid_attribs : Nat
  required_attribs : Nat
  valid_subelem : Nat
  start_fn : Option elem_fn
  end_fn : Option elem_fn
  deriving DecidableEq, Repr

/-- The table `elem_table`. -/
def elem_table : List parse_element :=
  [{ name := "device",
     valid_attribs := BIT e_attrib_name ||| BIT e_attrib_device ||| BIT e_attrib_color,
     required_attribs := BIT e_attrib_name ||| BIT e_attrib_device,
     valid_subelem := 0,
     start_fn := some elem_fn.parse_device_start,
     end_fn := some elem_fn.parse_device_end },
   { name := "lightshal", valid_attribs := 0, required_attribs := 0,
     valid_subelem := BIT e_elem_device, start_fn := none, end_fn := none }]

/-- The names of the table `attrib_table`. -/
def attrib_table : List String := ["name", "device", "color"]

/-- The struct `parse_stack_entry`. -/
structure parse_stack_entry where
  elem_index : Nat
  valid_subelem : Nat
  deriving DecidableEq, Repr

/-- The members of `parse_state` the element handlers use, with the members of
`*config` they write. `accesses` and `fault` are ghost state: every index used on
`stack.entry`, in order, and the first such index outside
`[0, MAX_PARSE_DEPTH)`; once it is set the behaviour is undefined and the model
keeps the state as it is. -/
structure parse_state where
  name : String
  light_device : Option String
  light_color : Nat
  light_device_status : Nat
  parse_error : Int
  attribValue : List (Option String)
  stackIndex : Int
  entry : List parse_stack_entry
  accesses : List Int
  fault : Option Int
  deriving DecidableEq, Repr

/-- The state after `parse_config_file` allocated and zeroed it and stored the
name, and `do_parse` set up the stack (lines 407-410). -/
def parse_state.init (name : String) : parse_state :=
  { name := name, light_device := none, light_color := 0, light_device_status := 0,
    parse_error := 0, attribValue := [none, none, none], stackIndex := 0,
    entry := { elem_index := 0, valid_subelem := BIT e_elem_lightshal }
      :: List.replicate (MAX_PARSE_DEPTH - 1) { elem_index := 0, valid_subelem := 0 },
    accesses := [], fault := none }

/-- Whether an index is inside the array `stack.entry`. -/
def stackInBounds (idx : Int) : Bool := decide (0 ≤ idx) && decide (idx < MAX_PARSE_DEPTH)

/-- Records a use of `stack.entry[idx]`. -/
def parse_state.access (s : parse_state) (idx : Int) : parse_state :=
  { s with accesses := s.accesses ++ [idx],
           fault := if stackInBounds idx then s.fault else some idx }

/-- The inner `for` loop of `extract_attribs` (lines 180-188): the index of the
first valid attribute with this name, `e_attrib_count` if there is none. -/
def findAttrib (valid_attribs : Nat) (key : String) : Nat :=
  ((List.range e_attrib_count).find?
    (fun i => decide (BIT i &&& valid_attribs ≠ 0) && decide (attrib_table[i]? = some key))).getD
    e_attrib_count

/-- The `while` loop of `extract_attribs` (lines 179-195): whether it ran to the
end, the values stored and the required attributes still missing. -/
def extractLoop (valid_attribs : Nat) :
    List (String × String) → List (Option String) → Nat → Bool × List (Option String) × Nat
  | [], value, required => (true, value, required)
  | (key, v) :: rest, value, required =>
    if findAttrib valid_attribs key ≥ e_attrib_count then (false, value, required)
    else
      extractLoop valid_attribs rest (value.set (findAttrib valid_attribs key) (some v))
        (required &&& (0xFFFFFFFF ^^^ BIT (findAttrib valid_attribs key)))

/-- Function `extract_attribs`: the return value and `attribs.value`. -/
def extract_attribs (elem_index : Nat) (attribs : List (String × String)) :
    Int × List (Option String) :=
  match elem_table[elem_index]? with
  | none => (-EINVAL, [none, none, none])
  | some el =>
    let r := extractLoop el.valid_attribs attribs [none, none, none] el.required_attribs
    if !r.1 then (-EINVAL, r.2.1)
    else if r.2.2 ≠ 0 then (-EINVAL, r.2.1)
    else (0, r.2.1)

/-- Function `parse_device_start` (the name attribute is required, so `dev_name` is
not null when it is called). -/
def parse_device_start (s : parse_state) : Int × parse_state :=
  match s.attribValue[e_attrib_name]? with
  | some (some dev_name) =>
    if dev_name = s.name then
      match s.attribValue[e_attrib_device]? with
      | some (some dev) =>
        (0, { s with
              light_device := some dev,
              light_color :=
                match s.attribValue[e_attrib_color]? with
                | some (some _) => if dev_name = COLOR_RGB_STR then COLOR_RGB else COLOR_MONO
                | _ => COLOR_MONO,
              light_device_status := 1 })
      | _ => (-EINVAL, s)
    else (0, s)
  | _ => (0, s)

/-- Function `parse_device_end`: it only logs. -/
def parse_device_end (_s : parse_state) : Int := 0

/-- The `for` loop of `parse_section_start` (lines 314-320): the index of the first
currently valid element with this name, `e_elem_count` if there is none. -/
def findElem (valid_elems : Nat) (name : String) : Nat :=
  ((List.range e_elem_count).find?
    (fun i => decide (BIT i &&& valid_elems ≠ 0)
      && decide ((elem_table[i]?).map (fun el => el.name) = some name))).getD e_elem_count

/-- Function `parse_section_start`. -/
def parse_section_start (s : parse_state) (name : String) (attribs : List (String × String)) :
    parse_state :=
  if s.fault.isSome then s
  else if !stackInBounds s.stackIndex then s.access s.stackIndex
  else
    let stack_index := s.stackIndex
    let s := s.access stack_index
    let valid_elems := ((s.entry[stack_index.toNat]?).map (fun en => en.valid_subelem)).getD 0
    if s.parse_error ≠ 0 ∨ s.light_device_status ≠ 0 then s
    else
      let i := findElem valid_elems name
      if i ≥ e_elem_count ∨ stack_index ≥ MAX_PARSE_DEPTH then { s with parse_error := -EINVAL }
      else
        match elem_table[i]? with
        | none => { s with parse_error := -EINVAL }
        | some el =>
          if !stackInBounds (stack_index + 1) then s.access (stack_index + 1)
          else
            let s := s.access (stack_index + 1)
            let s := { s with
              entry := s.entry.set (stack_index + 1).toNat
                { elem_index := i, valid_subelem := el.valid_subelem },
              stackIndex := stack_index + 1 }
            let r := extract_attribs i attribs
            let s := { s with attribValue := r.2 }
            if r.1 ≠ 0 then { s with parse_error := -EINVAL }
            else
              match el.start_fn with
              | some elem_fn.parse_device_start =>
                { (parse_device_start s).2 with parse_error := (parse_device_start s).1 }
              | some elem_fn.parse_device_end => { s with parse_error := parse_device_end s }
              | none => s

/-- Function `parse_section_end`. -/
def parse_section_end (s : parse_state) (_name : String) : parse_state :=
  if s.fault.isSome then s
  else if !stackInBounds s.stackIndex then s.access s.stackIndex
  else
    let idx := s.stackIndex
    let s := s.access idx
    let i := ((s.entry[idx.toNat]?).map (fun en => en.elem_index)).getD 0
    if s.parse_error ≠ 0 then s
    else
      match (elem_table[i]?).bind (fun el => el.end_fn) with
      | some elem_fn.parse_device_end =>
        { s with parse_error := parse_device_end s, stackIndex := s.stackIndex - 1 }
      | some elem_fn.parse_device_start =>
        { (parse_device_start s).2 with
          parse_error := (parse_device_start s).1, stackIndex := s.stackIndex - 1 }
      | none => { s with stackIndex := s.stackIndex - 1 }

/-- A call of one of the two element handlers registered with the XML parser. -/
inductive XmlEvent
  | startElement (name : String) (attribs : List (String × String))
  | endElement (name : String)
  deriving DecidableEq, Repr

/-- The handler calls the XML parser makes for the well-formed document
`<lightshal> <device .../> ... <device .../> </lightshal>` with these attribute
lists, in document order. -/
def configDocument (devices : List (List (String × String))) : List XmlEvent :=
  XmlEvent.startElement "lightshal" []
    :: (devices.map (fun a =>
          [XmlEvent.startElement "device" a, XmlEvent.endElement "device"])).flatten
    ++ [XmlEvent.endElement "lightshal"]

/-- The parser state after one handler call. -/
def parse_state.handle (s : parse_state) : XmlEvent → parse_state
  | XmlEvent.startElement name attribs => parse_section_start s name attribs
  | XmlEvent.endElement name => parse_section_end s name

/-- The parser state after the handler calls of a document, for the light `name`. -/
def parseDocument (name : String) (events : List XmlEvent) : parse_state :=
  events.foldl parse_state.handle (parse_state.init name)

/-! ## Lemmas on the scheduler and the registry -/

theorem filter_ne_eq_nil (l : List Nat) (t : Nat) (h : ∀ x ∈ l, x = t) :
    l.filter (fun x => decide (x ≠ t)) = [] := by
  rw [List.filter_eq_nil_iff]
  intro x hx
  simp [h x hx]

theorem stopIfTimed_spec (c : HwLightConfig) (h : ThreadInv c) :
    (stopIfTimed c).1.flashMode = FlashMode.NONE
      ∧ (stopIfTimed c).1.hwLight = c.hwLight
      ∧ (stopIfTimed c).1.unjoinedThreads = []
      ∧ (stopIfTimed c).1.runningThreads = []
      ∧ (∀ e ∈ (stopIfTimed c).2, e.isCreate = false ∧ e.isDeviceCall = false
          ∧ e.isFileOp = false) := by
  unfold ThreadInv at h
  unfold stopIfTimed
  cases hlf : c.lightsFlash with
  | none =>
    rw [hlf] at h
    simp [h, hlf, HwLightConfig.unjoinedThreads, HwLightConfig.runningThreads]
  | some lf =>
    rw [hlf] at h
    simp only at h
    rcases h with ⟨h1, h2, h3, h4⟩ | ⟨h1, h2, h3⟩
    · have hr := filter_ne_eq_nil lf.running lf.mFlashThread h4
      have hu : lf.unjoined.filter (fun x => decide (x ≠ lf.mFlashThread)) = [] := by
        rw [h3]; simp
      simp [h1, h2, hu, hr, LightsFlash.stop, HwLightConfig.unjoinedThreads,
        HwLightConfig.runningThreads, Event.isCreate, Event.isDeviceCall, Event.isFileOp]
      exact ⟨by rw [h3]; simp, h4⟩
    · simp [h1, h2, h3, hlf, HwLightConfig.unjoinedThreads, HwLightConfig.runningThreads]

theorem threadInv_of_quiet (c : HwLightConfig) (hm : c.flashMode = FlashMode.NONE)
    (hu : c.unjoinedThreads = []) (hr : c.runningThreads = []) : ThreadInv c := by
  unfold ThreadInv
  unfold HwLightConfig.unjoinedThreads at hu
  unfold HwLightConfig.runningThreads at hr
  cases hlf : c.lightsFlash with
  | none => simpa using hm
  | some lf =>
    rw [hlf] at hu hr
    exact Or.inr ⟨hm, hu, hr⟩


theorem setColorValue_events (led : String) (color : Int) (trigger : Bool) (dv : DeviceResult) :
    ∀ e ∈ (setColorValue led color trigger dv).2,
      e.isCreate = false ∧ e.isDeviceCall = false ∧ e.isFileOp = true := by
  have h : (setColorValue led color trigger dv).2.all
      (fun e => !e.isCreate && !e.isDeviceCall && e.isFileOp) = true := by
    unfold setColorValue maxReadEvents
    cases hm : dv.maxRead <;> cases ht : dv.openTrigger <;> cases hb : dv.openBrightness <;>
      cases hw : dv.writeBrightness <;>
      simp [hm, ht, hb, hw, Event.isCreate, Event.isDeviceCall, Event.isFileOp]
  intro e he
  have := List.all_eq_true.mp h e he
  simp only [Bool.and_eq_true, Bool.not_eq_true'] at this
  exact ⟨this.1.1, this.1.2, this.2⟩

theorem setColorValue_ret (led : String) (color : Int) (trigger : Bool) (dv : DeviceResult) :
    (setColorValue led color trigger dv).1 = 0 ∨ (setColorValue led color trigger dv).1 = -1 := by
  unfold setColorValue
  cases hb : dv.openBrightness <;> cases hw : dv.writeBrightness <;> simp [hb, hw]


theorem start_after_set (lf : LightsFlash) (state : HwLightState) (createRet : Int)
    (hu : lf.unjoined = []) (hr : lf.running = []) :
    ((lf.setLightState state).start createRet).2.1 = createRet
      ∧ (createRet = 0 →
          ((lf.setLightState state).start createRet).1.mState = LightsFlashState.STARTED
          ∧ ((lf.setLightState state).start createRet).1.unjoined
              = [((lf.setLightState state).start createRet).1.mFlashThread]
          ∧ ((lf.setLightState state).start createRet).1.running
              = [((lf.setLightState state).start createRet).1.mFlashThread])
      ∧ (createRet ≠ 0 → ((lf.setLightState state).start createRet).1.unjoined = []
          ∧ ((lf.setLightState state).start createRet).1.running = [])
      ∧ ((lf.setLightState state).start createRet).2.2
          = [Event.create (lf.created + 1) createRet] := by
  unfold LightsFlash.start LightsFlash.setLightState
  by_cases hc : createRet = 0
  · simp [hc, hu, hr]
  · simp [hc, hu, hr]

theorem schedulerOf_quiet (c : HwLightConfig) (sync : SyncInit)
    (hu : c.unjoinedThreads = []) (hr : c.runningThreads = []) :
    (schedulerOf c sync).unjoined = [] ∧ (schedulerOf c sync).running = [] := by
  unfold schedulerOf
  unfold HwLightConfig.unjoinedThreads at hu
  unfold HwLightConfig.runningThreads at hr
  cases hlf : c.lightsFlash with
  | none => simp [LightsFlash.new]
  | some lf =>
    rw [hlf] at hu hr
    exact ⟨hu, hr⟩

theorem setLightStateLocked_threadInv (i : Nat) (c : HwLightConfig) (env : Env)
    (st : HwLightState) (h : ThreadInv c) :
    ThreadInv (setLightStateLocked i c env st).1
      ∧ (setLightStateLocked i c env st).1.hwLight = c.hwLight := by
  obtain ⟨s1, s2, s3, s4, -⟩ := stopIfTimed_spec c h
  unfold setLightStateLocked
  split
  · exact ⟨h, rfl⟩
  · split
    · exact ⟨h, rfl⟩
    · simp only
      split
      · split <;> exact ⟨threadInv_of_quiet _ s1 s3 s4, s2⟩
      · split
        · obtain ⟨q1, q2⟩ := schedulerOf_quiet _ env.sync s3 s4
          obtain ⟨r1, r2, r3, -⟩ := start_after_set _ st env.createRet q1 q2
          split
          · rename_i hne
            rw [r1] at hne
            obtain ⟨u, r⟩ := r3 hne
            exact ⟨Or.inr ⟨rfl, u, r⟩, s2⟩
          · rename_i hne
            rw [r1] at hne
            obtain ⟨m, u, r⟩ := r2 (by simpa using hne)
            refine ⟨Or.inl ⟨rfl, m, u, ?_⟩, s2⟩
            intro t ht
            rw [r] at ht
            simpa using ht
        · refine ⟨threadInv_of_quiet _ rfl ?_ ?_, s2⟩
          · simpa [HwLightConfig.unjoinedThreads] using s3
          · simpa [HwLightConfig.runningThreads] using s4


theorem setLightStateLocked_noLed (i : Nat) (c : HwLightConfig) (env : Env)
    (st : HwLightState) (h : getLedName c.hwLight.type = none) :
    (setLightStateLocked i c env st).1 = c := by
  unfold setLightStateLocked
  split
  · rfl
  · simp only [h]

theorem setLightStateLocked_inv (i : Nat) (c : HwLightConfig) (env : Env) (st : HwLightState)
    (h : ConfigInv c) :
    ConfigInv (setLightStateLocked i c env st).1
      ∧ (setLightStateLocked i c env st).1.hwLight = c.hwLight := by
  obtain ⟨t1, t2⟩ := setLightStateLocked_threadInv i c env st h.2
  refine ⟨⟨?_, t1⟩, t2⟩
  intro hn
  rw [t2] at hn
  rw [setLightStateLocked_noLed i c env st hn]
  exact h.1 hn

theorem map_set_same {α β : Type} (f : α → β) (l : List α) (i : Nat) (a b : α)
    (h : l[i]? = some a) (hf : f b = f a) : (l.set i b).map f = l.map f := by
  induction l generalizing i with
  | nil => simp
  | cons x xs ih =>
    cases i with
    | zero =>
      simp only [List.getElem?_cons_zero, Option.some.injEq] at h
      simp [h, hf]
    | succ n =>
      simp only [List.getElem?_cons_succ] at h
      simp [ih n h]

theorem setLightState_wf (s : Lights) (env : Env) (id : Int) (st : HwLightState)
    (h : s.WF) : (s.setLightState env id st).1.WF := by
  unfold Lights.setLightState
  split
  · exact h
  · split
    · exact h
    · split
      · exact h
      · rename_i config hcfg
        have hc : ConfigInv config := h.2 config (List.getElem?_mem hcfg)
        obtain ⟨i1, i2⟩ := setLightStateLocked_inv id.toNat config env st hc
        refine ⟨?_, ?_⟩
        · simp only
          rw [map_set_same (fun c : HwLightConfig => c.hwLight) _ _ config _ hcfg i2]
          exact h.1
        · intro c hmem
          rcases List.mem_or_eq_of_mem_set hmem with h1 | h1
          · exact h.2 c h1
          · rw [h1]; exact i1

theorem loopExit_wf (s : Lights) (light thread : Nat) (h : s.WF) :
    (s.loopExit light thread).WF := by
  unfold Lights.loopExit
  split
  · exact h
  · rename_i config hcfg
    split
    · exact h
    · rename_i lf hlf
      have hc : ConfigInv config := h.2 config (List.getElem?_mem hcfg)
      refine ⟨?_, ?_⟩
      · exact (map_set_same (fun c : HwLightConfig => c.hwLight) s.availableLights light config
          { config with lightsFlash := some (lf.loopExit thread) } hcfg rfl).trans h.1
      · intro c hmem
        rcases List.mem_or_eq_of_mem_set hmem with h1 | h1
        · exact h.2 c h1
        · rw [h1]
          obtain ⟨hstub, hthr⟩ := hc
          refine ⟨?_, ?_⟩
          · intro hn
            have := hstub hn
            rw [hlf] at this
            exact absurd this (by simp)
          · unfold ThreadInv at hthr ⊢
            rw [hlf] at hthr
            simp only at hthr ⊢
            rcases hthr with ⟨a1, a2, a3, a4⟩ | ⟨a1, a2, a3⟩
            · refine Or.inl ⟨a1, a2, a3, ?_⟩
              intro t ht
              unfold LightsFlash.loopExit at ht
              exact a4 t (List.mem_of_mem_filter ht)
            · refine Or.inr ⟨a1, a2, ?_⟩
              unfold LightsFlash.loopExit
              simp [a3]

theorem new_wf : Lights.new.WF := by
  refine ⟨rfl, ?_⟩
  intro c hc
  simp [Lights.new, Lights.addLight] at hc
  rcases hc with h | h | h | h | h | h | h | h | h <;> subst h <;>
    simp [ConfigInv, ThreadInv]

theorem run_wf (steps : List Step) : ∀ s : Lights, s.WF → (s.run steps).WF := by
  induction steps with
  | nil => intro s h; exact h
  | cons x xs ih =>
    intro s h
    unfold Lights.run
    simp only [List.foldl_cons]
    apply ih
    cases x with
    | request env id st => exact setLightState_wf s env id st h
    | loopExit light thread => exact loopExit_wf s light thread h

theorem reachable_wf (steps : List Step) : (Lights.new.run steps).WF :=
  run_wf steps Lights.new new_wf


theorem wf_length (s : Lights) (h : s.WF) : s.availableLights.length = 9 := by
  have := congrArg List.length h.1
  simpa [Lights.new, Lights.addLight] using this

theorem wf_hwLight (s : Lights) (h : s.WF) (i : Nat) :
    (s.availableLights[i]?).map (fun c => c.hwLight)
      = (Lights.new.availableLights[i]?).map (fun c => c.hwLight) := by
  have := congrArg (fun l => l[i]?) h.1
  simpa [List.getElem?_map] using this

theorem wf_config (s : Lights) (h : s.WF) (id : Int) (c0 : HwLightConfig)
    (h0 : Lights.new.config? id = some c0) :
    0 ≤ id ∧ id < 9 ∧ ∃ c, s.availableLights[id.toNat]? = some c ∧ s.config? id = some c
      ∧ c.hwLight = c0.hwLight ∧ ConfigInv c := by
  unfold Lights.config? at h0
  by_cases hid : 0 ≤ id
  · rw [if_pos hid] at h0
    have hlt : id.toNat < Lights.new.availableLights.length := by
      by_contra hge
      rw [List.getElem?_eq_none (by omega)] at h0
      exact absurd h0 (by simp)
    have hl9 : Lights.new.availableLights.length = 9 := rfl
    have hw := wf_hwLight s h id.toNat
    rw [h0] at hw
    cases hc : s.availableLights[id.toNat]? with
    | none => rw [hc] at hw; simp at hw
    | some c =>
      rw [hc] at hw
      simp only [Option.map_some', Option.some.injEq] at hw
      refine ⟨hid, by omega, c, rfl, ?_, hw, h.2 c (List.getElem?_mem hc)⟩
      unfold Lights.config?
      rw [if_pos hid, hc]
  · rw [if_neg hid] at h0
    exact absurd h0 (by simp)

theorem setLightState_eq (s : Lights) (env : Env) (id : Int) (st : HwLightState)
    (c : HwLightConfig) (h0 : 0 ≤ id) (hc : s.availableLights[id.toNat]? = some c)
    (hb : st.brightnessMode ≠ BrightnessMode.LOW_PERSISTENCE) :
    s.setLightState env id st
      = ({ availableLights :=
            s.availableLights.set id.toNat (setLightStateLocked id.toNat c env st).1 },
          (setLightStateLocked id.toNat c env st).2.1,
          Event.lockWrite id.toNat :: (setLightStateLocked id.toNat c env st).2.2) := by
  have hlt : id.toNat < s.availableLights.length := by
    by_contra hge
    rw [List.getElem?_eq_none (by omega)] at hc
    exact absurd hc (by simp)
  have hg : 0 ≤ id ∧ id < (s.availableLights.length : Int) := ⟨h0, by omega⟩
  unfold Lights.setLightState
  rw [if_neg (not_not.mpr hg), if_neg hb, hc]

theorem config?_set (l : List HwLightConfig) (id : Int) (c x : HwLightConfig)
    (h0 : 0 ≤ id) (hc : l[id.toNat]? = some c) :
    ({ availableLights := l.set id.toNat x } : Lights).config? id = some x := by
  have hlt : id.toNat < l.length := by
    by_contra hge
    rw [List.getElem?_eq_none (by omega)] at hc
    exact absurd hc (by simp)
  unfold Lights.config?
  rw [if_pos h0]
  simp [List.getElem?_set_self hlt]

theorem ledOf_new (id : Int) (name : String) (h : Lights.new.ledOf id = some name) :
    ∃ c0, Lights.new.config? id = some c0 ∧ getLedName c0.hwLight.type = some name := by
  unfold Lights.ledOf at h
  cases hc : Lights.new.config? id with
  | none => rw [hc] at h; simp at h
  | some c0 => rw [hc] at h; exact ⟨c0, rfl, by simpa using h⟩

theorem locked_static (i : Nat) (c : HwLightConfig) (env : Env) (st : HwLightState)
    (name : String) (hn : getLedName c.hwLight.type = some name)
    (hm : st.flashMode ≠ FlashMode.TIMED) :
    setLightStateLocked i c env st
      = ((stopIfTimed c).1,
          if (setColorValue name st.color (decide (st.flashMode = FlashMode.HARDWARE))
              env.dev).1 < 0
          then ScopedAStatus.EX_TRANSACTION_FAILED else ScopedAStatus.ok,
          (stopIfTimed c).2 ++ Event.callSetColorValue name st.color
              (decide (st.flashMode = FlashMode.HARDWARE))
            :: (setColorValue name st.color (decide (st.flashMode = FlashMode.HARDWARE))
              env.dev).2 ++ [Event.unlockWrite i]) := by
  have hb : c.hwLight.type ≠ LightType.BACKLIGHT := by
    intro hbl; rw [hbl] at hn; simp [getLedName] at hn
  unfold setLightStateLocked
  rw [if_neg hb]
  simp only [hn]
  rw [if_pos hm]
  split <;> simp

theorem locked_invalid (i : Nat) (c : HwLightConfig) (env : Env) (st : HwLightState)
    (name : String) (hn : getLedName c.hwLight.type = some name)
    (hm : st.flashMode = FlashMode.TIMED) (hv : checkFlashParams st ≠ 0) :
    setLightStateLocked i c env st
      = ({ (stopIfTimed c).1 with flashMode := FlashMode.NONE },
          ScopedAStatus.EX_UNSUPPORTED_OPERATION,
          (stopIfTimed c).2 ++ [Event.unlockWrite i]) := by
  have hb : c.hwLight.type ≠ LightType.BACKLIGHT := by
    intro hbl; rw [hbl] at hn; simp [getLedName] at hn
  unfold setLightStateLocked
  rw [if_neg hb]
  simp only [hn]
  rw [if_neg (not_not.mpr hm), if_neg hv]

theorem locked_timed (i : Nat) (c : HwLightConfig) (env : Env) (st : HwLightState)
    (name : String) (hn : getLedName c.hwLight.type = some name)
    (hm : st.flashMode = FlashMode.TIMED) (hv : checkFlashParams st = 0) :
    setLightStateLocked i c env st
      = ({ (stopIfTimed c).1 with
            lightsFlash := some
              (((schedulerOf (stopIfTimed c).1 env.sync).setLightState st).start
                env.createRet).1,
            flashMode := if env.createRet ≠ 0 then FlashMode.NONE else FlashMode.TIMED },
          if env.createRet ≠ 0 then ScopedAStatus.EX_TRANSACTION_FAILED else ScopedAStatus.ok,
          (stopIfTimed c).2 ++ [Event.create
              ((schedulerOf (stopIfTimed c).1 env.sync).created + 1) env.createRet]
            ++ [Event.unlockWrite i]) := by
  have hb : c.hwLight.type ≠ LightType.BACKLIGHT := by
    intro hbl; rw [hbl] at hn; simp [getLedName] at hn
  have hs : (((schedulerOf (stopIfTimed c).1 env.sync).setLightState st).start
      env.createRet).2 = (env.createRet, [Event.create
        ((schedulerOf (stopIfTimed c).1 env.sync).created + 1) env.createRet]) := by
    unfold LightsFlash.start LightsFlash.setLightState
    by_cases hcr : env.createRet = 0 <;> simp [hcr]
  unfold setLightStateLocked
  rw [if_neg hb]
  simp only [hn]
  rw [if_neg (not_not.mpr hm), if_pos hv]
  simp only [hs]
  split <;> rfl


theorem and_mask24 (n : Nat) : n &&& 0x00FFFFFF = n % 2 ^ 24 :=
  Nat.and_pow_two_sub_one_eq_mod n 24

theorem and_mask8 (n : Nat) : n &&& 0x00ff = n % 2 ^ 8 :=
  Nat.and_pow_two_sub_one_eq_mod n 8

theorem computeBrightness_eq_reference (c m : Int) :
    computeBrightness c m = referenceBrightness (bits32 c) m := by
  unfold computeBrightness referenceBrightness
  simp only [and_mask24, and_mask8, Nat.shiftRight_eq_div_pow]
  generalize bits32 c % 2 ^ 24 = x
  by_cases h0 : x = 0
  · subst h0; simp
  by_cases h1 : x = 1
  · subst h1; simp
  have hx : x > 1 := by omega
  simp only [hx, h0, h1, if_true, if_false]
  generalize (77 * (x / 2 ^ 16 % 2 ^ 8) + 150 * (x / 2 ^ 8 % 2 ^ 8) + 29 * (x % 2 ^ 8)) / 2 ^ 8 = b
  by_cases hb : (b : Int) > m
  · simp only [hb, if_true]; omega
  · simp only [hb, if_false]; omega

theorem bits32_add_high (c h : Int) :
    bits32 (c + h * 2 ^ 24) % 2 ^ 24 = bits32 c % 2 ^ 24 := by
  unfold bits32
  omega

theorem referenceBrightness_low24 (a b : Nat) (m : Int) (h : a % 2 ^ 24 = b % 2 ^ 24) :
    referenceBrightness a m = referenceBrightness b m := by
  unfold referenceBrightness
  simp only [h]

theorem setColorValue_last (led : String) (color : Int) (trigger : Bool) (dv : DeviceResult)
    (m : Int) :
    (setColorValue led color trigger
        { dv with maxRead := MaxRead.value m, openBrightness := true }).2.getLast?
      = some (Event.writeNumber (LED_BRIGHTNESS led) (castInt (computeBrightness color m))
          dv.writeBrightness) := by
  unfold setColorValue
  cases hw : dv.writeBrightness <;> simp [maxBrightnessAfterRead, List.getLast?_append]

theorem setBacklightValue_last (color : Int) (dv : DeviceResult) (m : Int) :
    (setBacklightValue color
        { dv with maxRead := MaxRead.value m, openBrightness := true }).2.getLast?
      = some (Event.writeNumber BACKLIGHT_BRIGHTNESS (castInt (computeBrightness color m))
          dv.writeBrightness) := by
  unfold setBacklightValue
  cases hw : dv.writeBrightness <;> simp [maxBrightnessAfterRead, List.getLast?_append]

/-- C3: for every colour `c` and every maximum brightness `m`, the brightness that
`setColorValue` and `setBacklightValue` compute, and write when `max_brightness`
reads `m` and the brightness file opens, is the reference value of the
specification on the low 24 bits of `c`: 0 for 0, `m` for 1, otherwise the
luminance `(77*R + 150*G + 29*B) >> 8` clamped to `m`. Adding any multiple of
`2^24` to `c` (changing bits 24 and above) leaves it unchanged, and colour
`0xFFFFA500` with maximum 255 gives 173. -/
theorem C3_brightness_is_reference (c m : Int) :
    computeBrightness c m = referenceBrightness (bits32 c) m
      ∧ (∀ (led : String) (trigger : Bool) (dv : DeviceResult),
          (setColorValue led c trigger
              { dv with maxRead := MaxRead.value m, openBrightness := true }).2.getLast?
            = some (Event.writeNumber (LED_BRIGHTNESS led)
                (castInt (referenceBrightness (bits32 c) m)) dv.writeBrightness))
      ∧ (∀ dv : DeviceResult,
          (setBacklightValue c
              { dv with maxRead := MaxRead.value m, openBrightness := true }).2.getLast?
            = some (Event.writeNumber BACKLIGHT_BRIGHTNESS
                (castInt (referenceBrightness (bits32 c) m)) dv.writeBrightness))
      ∧ (∀ h : Int, computeBrightness (c + h * 2 ^ 24) m = computeBrightness c m)
      ∧ computeBrightness 0xFFFFA500 255 = 173 := by
  refine ⟨computeBrightness_eq_reference c m, ?_, ?_, ?_, by decide⟩
  · intro led trigger dv
    rw [setColorValue_last, computeBrightness_eq_reference]
  · intro dv
    rw [setBacklightValue_last, computeBrightness_eq_reference]
  · intro h
    rw [computeBrightness_eq_reference, computeBrightness_eq_reference]
    exact referenceBrightness_low24 _ _ m (bits32_add_high c h)


/-- Truncating division by a million, on a non-negative numerator. -/
theorem tdiv_ms_of_nonneg (y : Int) (hy : 0 ≤ y) :
    Int.tdiv y ONE_MS_IN_NS = y / 1000000 := by
  unfold ONE_MS_IN_NS
  exact Int.tdiv_eq_ediv hy (by decide)

/-- Truncating division by a million, on a negative numerator, is not positive. -/
theorem tdiv_ms_of_neg (y : Int) (hy : y < 0) : Int.tdiv y ONE_MS_IN_NS ≤ 0 := by
  have h : Int.tdiv (-(-y)) ONE_MS_IN_NS = -(Int.tdiv (-y) ONE_MS_IN_NS) := Int.neg_tdiv _ _
  rw [Int.neg_neg] at h
  rw [h, tdiv_ms_of_nonneg (-y) (by omega)]
  omega

/-- The overflow test of `checkFlashParams` on one non-negative duration passes
exactly when the product fits in a signed 64-bit integer. -/
theorem overflow_test_iff (x : Int) (h0 : 0 ≤ x) :
    Int.tdiv (wrap64 (x * ONE_MS_IN_NS)) ONE_MS_IN_NS = x ↔ x * 1000000 ≤ LLONG_MAX := by
  unfold LLONG_MAX
  constructor
  · intro h
    by_contra hov
    by_cases hneg : wrap64 (x * ONE_MS_IN_NS) < 0
    · have := tdiv_ms_of_neg _ hneg
      have hx : x = 0 := by omega
      subst hx
      omega
    · rw [tdiv_ms_of_nonneg _ (by omega)] at h
      unfold wrap64 ONE_MS_IN_NS at h
      omega
  · intro h
    have hw : wrap64 (x * ONE_MS_IN_NS) = x * 1000000 := by
      unfold wrap64 ONE_MS_IN_NS
      omega
    rw [hw, tdiv_ms_of_nonneg _ (by omega)]
    omega

theorem checkFlashParams_eq_zero_iff (st : HwLightState) :
    checkFlashParams st = 0 ↔
      0 ≤ st.flashOnMs ∧ 0 ≤ st.flashOffMs ∧ ¬ (st.flashOnMs = 0 ∧ st.flashOffMs = 0)
        ∧ st.flashOnMs * 1000000 ≤ LLONG_MAX ∧ st.flashOffMs * 1000000 ≤ LLONG_MAX := by
  unfold checkFlashParams
  by_cases hneg : st.flashOffMs < 0 ∨ st.flashOnMs < 0
  · rw [if_pos hneg]
    constructor
    · intro h; exact absurd h (by decide)
    · intro h; omega
  · rw [if_neg hneg]
    have hon : 0 ≤ st.flashOnMs := by omega
    have hoff : 0 ≤ st.flashOffMs := by omega
    by_cases hz : st.flashOffMs = 0 ∧ st.flashOnMs = 0
    · rw [if_pos hz]
      constructor
      · intro h; exact absurd h (by decide)
      · intro h; exact absurd ⟨hz.2, hz.1⟩ h.2.2.1
    · rw [if_neg hz]
      simp only [ne_eq, ite_not]
      by_cases h1 : Int.tdiv (wrap64 (st.flashOffMs * ONE_MS_IN_NS)) ONE_MS_IN_NS
          = st.flashOffMs
      · rw [if_pos h1]
        by_cases h2 : Int.tdiv (wrap64 (st.flashOnMs * ONE_MS_IN_NS)) ONE_MS_IN_NS
            = st.flashOnMs
        · rw [if_pos h2]
          have a1 := (overflow_test_iff _ hoff).mp h1
          have a2 := (overflow_test_iff _ hon).mp h2
          simp only [true_iff]
          exact ⟨hon, hoff, fun h => hz ⟨h.2, h.1⟩, a2, a1⟩
        · rw [if_neg h2]
          constructor
          · intro h; exact absurd h (by decide)
          · intro h; exact absurd ((overflow_test_iff _ hon).mpr h.2.2.2.1) h2
      · rw [if_neg h1]
        constructor
        · intro h; exact absurd h (by decide)
        · intro h; exact absurd ((overflow_test_iff _ hoff).mpr h.2.2.2.2) h1

/-- C7: for durations in the signed 32-bit range, `checkFlashParams` returns 0
exactly when both are non-negative and not both zero; for non-negative durations
of that range the nanosecond products fit in a signed 64-bit integer and the
overflow test `ns / ONE_MS_IN_NS != duration` is false for both. -/
theorem C7_checkFlashParams_int32 (st : HwLightState)
    (hon : -2 ^ 31 ≤ st.flashOnMs ∧ st.flashOnMs < 2 ^ 31)
    (hoff : -2 ^ 31 ≤ st.flashOffMs ∧ st.flashOffMs < 2 ^ 31) :
    (checkFlashParams st = 0 ↔
        0 ≤ st.flashOnMs ∧ 0 ≤ st.flashOffMs ∧ ¬ (st.flashOnMs = 0 ∧ st.flashOffMs = 0))
      ∧ (0 ≤ st.flashOnMs →
          st.flashOnMs * ONE_MS_IN_NS ≤ LLONG_MAX
          ∧ Int.tdiv (wrap64 (st.flashOnMs * ONE_MS_IN_NS)) ONE_MS_IN_NS = st.flashOnMs)
      ∧ (0 ≤ st.flashOffMs →
          st.flashOffMs * ONE_MS_IN_NS ≤ LLONG_MAX
          ∧ Int.tdiv (wrap64 (st.flashOffMs * ONE_MS_IN_NS)) ONE_MS_IN_NS = st.flashOffMs) := by
  have fit : ∀ x : Int, x < 2 ^ 31 → x * 1000000 ≤ LLONG_MAX := by
    intro x hx
    unfold LLONG_MAX
    omega
  refine ⟨?_, ?_, ?_⟩
  · rw [checkFlashParams_eq_zero_iff]
    constructor
    · intro h; exact ⟨h.1, h.2.1, h.2.2.1⟩
    · intro h; exact ⟨h.1, h.2.1, h.2.2, fit _ hon.2, fit _ hoff.2⟩
  · intro h
    exact ⟨by unfold ONE_MS_IN_NS; exact fit _ hon.2, (overflow_test_iff _ h).mpr (fit _ hon.2)⟩
  · intro h
    exact ⟨by unfold ONE_MS_IN_NS; exact fit _ hoff.2,
      (overflow_test_iff _ h).mpr (fit _ hoff.2)⟩

/-- Witness of C7: the state `onHeartbeat` of the example application (on = 2000,
off = 2000) is in range and is accepted. -/
theorem C7_checkFlashParams_int32_witness :
    ((-2 ^ 31 ≤ onHeartbeat.flashOnMs ∧ onHeartbeat.flashOnMs < 2 ^ 31)
      ∧ (-2 ^ 31 ≤ onHeartbeat.flashOffMs ∧ onHeartbeat.flashOffMs < 2 ^ 31))
    ∧ checkFlashParams onHeartbeat = 0 :=
  ⟨⟨by decide, by decide⟩,
    (C7_checkFlashParams_int32 onHeartbeat (by decide) (by decide)).1.mpr (by decide)⟩

/-- C8: with signed 64-bit durations and products wrapping modulo `2^64`, for every
non-negative duration `x` whose product `x * 1_000_000` exceeds `2^63 - 1` the test
`(x * 1_000_000) / 1_000_000 != x` is true, so `checkFlashParams` and
`check_flash_state` reject every request in which `flashOnMs` or `flashOffMs` is
such an `x`. -/
theorem C8_overflow_is_rejected (x : Int) (h0 : 0 ≤ x) (h63 : x ≤ LLONG_MAX)
    (hov : x * 1000000 > LLONG_MAX) :
    Int.tdiv (wrap64 (x * ONE_MS_IN_NS)) ONE_MS_IN_NS ≠ x
      ∧ (∀ st : HwLightState, st.flashOnMs = x ∨ st.flashOffMs = x →
          checkFlashParams st = -1)
      ∧ (∀ flashOnMS flashOffMS : Int, flashOnMS = x ∨ flashOffMS = x →
          check_flash_state flashOnMS flashOffMS = LIGHT_ERROR_INVALID_ARGS) := by
  have ht : Int.tdiv (wrap64 (x * ONE_MS_IN_NS)) ONE_MS_IN_NS ≠ x := by
    intro h
    have := (overflow_test_iff x h0).mp h
    omega
  refine ⟨ht, ?_, ?_⟩
  · intro st hst
    unfold checkFlashParams
    split
    · rfl
    · split
      · rfl
      · rcases hst with h | h <;> subst h <;> simp [ht]
  · intro a b hst
    unfold check_flash_state
    split
    · rfl
    · split
      · rfl
      · rcases hst with h | h <;> subst h <;> simp [ht]

/-- Witness of C8: the duration 9223372036855 ms, the least whose product exceeds
`2^63 - 1`. -/
theorem C8_overflow_is_rejected_witness :
    ((0 : Int) ≤ 9223372036855 ∧ (9223372036855 : Int) ≤ LLONG_MAX
      ∧ (9223372036855 : Int) * 1000000 > LLONG_MAX)
    ∧ Int.tdiv (wrap64 (9223372036855 * ONE_MS_IN_NS)) ONE_MS_IN_NS ≠ 9223372036855 :=
  ⟨⟨by decide, by decide, by decide⟩,
    (C8_overflow_is_rejected 9223372036855 (by decide) (by decide) (by decide)).1⟩


theorem unjoined_le_one_of_inv (c : HwLightConfig) (h : ThreadInv c) :
    c.unjoinedThreads.length ≤ 1 := by
  unfold ThreadInv at h
  unfold HwLightConfig.unjoinedThreads
  cases hlf : c.lightsFlash with
  | none => simp
  | some lf =>
    rw [hlf] at h
    simp only at h ⊢
    rcases h with ⟨-, -, h3, -⟩ | ⟨-, h2, -⟩
    · rw [h3]; simp
    · rw [h2]; simp

theorem wf_unjoined_le_one (s : Lights) (h : s.WF) (id : Int) :
    (s.unjoinedThreads id).length ≤ 1 := by
  unfold Lights.unjoinedThreads
  cases hc : s.config? id with
  | none => simp
  | some c =>
    simp only
    apply unjoined_le_one_of_inv
    apply And.right
    apply h.2
    unfold Lights.config? at hc
    by_cases h0 : 0 ≤ id
    · rw [if_pos h0] at hc
      exact List.getElem?_mem hc
    · rw [if_neg h0] at hc
      exact absurd hc (by simp)

/-- C1: whatever sequence of steps the registry processes from its construction
(`setLightState` requests with any id, any state and any outcomes of the device
I/O, of the pthread initialisation and of `pthread_create`, interleaved with flash
loops that end on their own), after each of them (after every prefix of the
sequence) every light has at most one flash-loop thread that was spawned and not
joined. -/
theorem C1_at_most_one_unjoined_thread (steps : List Step) (k : Nat) (id : Int) :
    ((Lights.new.run (steps.take k)).unjoinedThreads id).length ≤ 1 :=
  wf_unjoined_le_one _ (reachable_wf (steps.take k)) id


theorem inv_noLed_quiet (c : HwLightConfig) (h : ConfigInv c)
    (hn : getLedName c.hwLight.type = none) :
    c.flashMode = FlashMode.NONE ∧ c.unjoinedThreads = [] ∧ c.runningThreads = []
      ∧ c.lightsFlash = none := by
  have hl := h.1 hn
  have ht := h.2
  unfold ThreadInv at ht
  rw [hl] at ht
  simp only at ht
  simp [HwLightConfig.unjoinedThreads, HwLightConfig.runningThreads, hl, ht]

theorem setLightState_post (s : Lights) (hs : s.WF) (env : Env) (id : Int)
    (st : HwLightState) (h0 : 0 ≤ id) (h9 : id < 9)
    (hb : st.brightnessMode ≠ BrightnessMode.LOW_PERSISTENCE) :
    ∃ c, s.config? id = some c ∧ ConfigInv c
      ∧ (Lights.new.config? id).map (fun c => c.hwLight) = some c.hwLight
      ∧ (s.setLightState env id st).1.config? id
          = some (setLightStateLocked id.toNat c env st).1
      ∧ (s.setLightState env id st).2.1 = (setLightStateLocked id.toNat c env st).2.1
      ∧ (s.setLightState env id st).2.2
          = Event.lockWrite id.toNat :: (setLightStateLocked id.toNat c env st).2.2 := by
  have hlen := wf_length s hs
  have hlt : id.toNat < s.availableLights.length := by omega
  cases hc : s.availableLights[id.toNat]? with
  | none =>
    rw [List.getElem?_eq_none_iff] at hc
    omega
  | some c =>
    have hinv : ConfigInv c := hs.2 c (List.getElem?_mem hc)
    have hw := wf_hwLight s hs id.toNat
    rw [hc] at hw
    refine ⟨c, ?_, hinv, ?_, ?_, ?_, ?_⟩
    · unfold Lights.config?
      rw [if_pos h0, hc]
    · unfold Lights.config?
      rw [if_pos h0, ← hw]
      rfl
    · rw [setLightState_eq s env id st c h0 hc hb]
      exact config?_set _ id c _ h0 hc
    · rw [setLightState_eq s env id st c h0 hc hb]
    · rw [setLightState_eq s env id st c h0 hc hb]

theorem locked_static_post (i : Nat) (c : HwLightConfig) (env : Env) (st : HwLightState)
    (h : ConfigInv c) (hm : st.flashMode ≠ FlashMode.TIMED) :
    (setLightStateLocked i c env st).1.flashMode = FlashMode.NONE
      ∧ (setLightStateLocked i c env st).1.unjoinedThreads = []
      ∧ (setLightStateLocked i c env st).1.runningThreads = [] := by
  cases hn : getLedName c.hwLight.type with
  | none =>
    rw [setLightStateLocked_noLed i c env st hn]
    obtain ⟨q1, q2, q3, -⟩ := inv_noLed_quiet c h hn
    exact ⟨q1, q2, q3⟩
  | some name =>
    rw [locked_static i c env st name hn hm]
    obtain ⟨s1, -, s3, s4, -⟩ := stopIfTimed_spec c h.2
    exact ⟨s1, s3, s4⟩

/-- C2: after any sequence of steps, a request that passes the id check
(`0 <= id < 9`) and the brightness-mode check and whose `flashMode` is not TIMED
leaves, when it returns, the addressed light with no spawned-but-unjoined flash
loop thread, no running one, and the recorded flash mode NONE. -/
theorem C2_non_timed_request_leaves_no_thread (steps : List Step) (env : Env) (id : Int)
    (st : HwLightState) (h0 : 0 ≤ id) (h9 : id < 9)
    (hb : st.brightnessMode ≠ BrightnessMode.LOW_PERSISTENCE)
    (hm : st.flashMode ≠ FlashMode.TIMED) :
    (Lights.new.run (steps ++ [Step.request env id st])).unjoinedThreads id = []
      ∧ (Lights.new.run (steps ++ [Step.request env id st])).runningThreads id = []
      ∧ (Lights.new.run (steps ++ [Step.request env id st])).flashModeOf id
          = some FlashMode.NONE := by
  have hrun : Lights.new.run (steps ++ [Step.request env id st])
      = ((Lights.new.run steps).setLightState env id st).1 := by
    unfold Lights.run
    rw [List.foldl_append]
    rfl
  rw [hrun]
  obtain ⟨c, -, hinv, -, hpost, -, -⟩ :=
    setLightState_post _ (reachable_wf steps) env id st h0 h9 hb
  obtain ⟨p1, p2, p3⟩ := locked_static_post id.toNat c env st hinv hm
  simp only [Lights.unjoinedThreads, Lights.runningThreads, Lights.flashModeOf, hpost,
    Option.map_some', p1, p2, p3, and_self]

/-- Witness of C2: `setLightState(4, TIMED, on=100, off=100)` followed by
`setLightState(4, NONE)`, and 1000 alternating TIMED/NONE requests to light 4 (998
of them, then a TIMED and the final NONE), leave light 4 with no unjoined thread
and the recorded mode NONE. -/
theorem C2_non_timed_request_leaves_no_thread_witness :
    ((0 : Int) ≤ 4 ∧ (4 : Int) < 9
      ∧ BrightnessMode.USER ≠ BrightnessMode.LOW_PERSISTENCE
      ∧ FlashMode.NONE ≠ FlashMode.TIMED)
    ∧ ((Lights.new.run
          [timedRequest 4 0xFFB500 100 100, noneRequest 4 0]).unjoinedThreads 4 = []
        ∧ (Lights.new.run
          [timedRequest 4 0xFFB500 100 100, noneRequest 4 0]).flashModeOf 4
            = some FlashMode.NONE)
    ∧ ((alternating 4 499 ++ [timedRequest 4 0xFFB500 100 100, noneRequest 4 0]).length
          = 1000
        ∧ (Lights.new.run (alternating 4 499
            ++ [timedRequest 4 0xFFB500 100 100, noneRequest 4 0])).unjoinedThreads 4 = []
        ∧ (Lights.new.run (alternating 4 499
            ++ [timedRequest 4 0xFFB500 100 100, noneRequest 4 0])).flashModeOf 4
              = some FlashMode.NONE) := by
  have h1 := C2_non_timed_request_leaves_no_thread [timedRequest 4 0xFFB500 100 100]
    Env.good 4 { color := 0, flashMode := FlashMode.NONE, flashOnMs := 0, flashOffMs := 0,
                 brightnessMode := BrightnessMode.USER }
    (by decide) (by decide) (by decide) (by decide)
  have h2 := C2_non_timed_request_leaves_no_thread
    (alternating 4 499 ++ [timedRequest 4 0xFFB500 100 100])
    Env.good 4 { color := 0, flashMode := FlashMode.NONE, flashOnMs := 0, flashOffMs := 0,
                 brightnessMode := BrightnessMode.USER }
    (by decide) (by decide) (by decide) (by decide)
  have hlen : ∀ n, (alternating 4 n).length = 2 * n := by
    intro n
    induction n with
    | zero => rfl
    | succ k ih => simp only [alternating, List.length_cons, ih]; omega
  refine ⟨⟨by decide, by decide, by decide, by decide⟩, ⟨h1.1, h1.2.2⟩, ?_, ?_, ?_⟩
  · rw [List.length_append, hlen]; rfl
  · rw [List.append_assoc] at h2
    exact h2.1
  · rw [List.append_assoc] at h2
    exact h2.2.2


/-- C4 (as stated, refuted): for the out-of-range id 9 `setLightState` returns
`EX_UNSUPPORTED_OPERATION`, whose outcome is UnsupportedOperation and not
NotFound. -/
theorem C4_bad_id_is_not_NotFound :
    (Lights.new.setLightState Env.good 9 onOrange).2.1
        = ScopedAStatus.EX_UNSUPPORTED_OPERATION
      ∧ (Lights.new.setLightState Env.good 9 onOrange).2.1.outcome ≠ Outcome.NotFound
      ∧ (Lights.new.setLightState Env.good (-1) onOrange).2.1.outcome ≠ Outcome.NotFound := by
  decide

/-- C4 (amended): after any sequence of steps, for every light id outside `[0, 9)`
and every state, `setLightState` returns `EX_UNSUPPORTED_OPERATION`, the
UnsupportedOperation outcome, which differs from Ok and from TransactionFailed; it
performs no event and leaves the registry as it was. -/
theorem C4_bad_id_is_unsupported (steps : List Step) (env : Env) (id : Int)
    (st : HwLightState) (hid : ¬ (0 ≤ id ∧ id < 9)) :
    ((Lights.new.run steps).setLightState env id st).2.1
        = ScopedAStatus.EX_UNSUPPORTED_OPERATION
      ∧ ((Lights.new.run steps).setLightState env id st).2.1.outcome
          = Outcome.UnsupportedOperation
      ∧ ((Lights.new.run steps).setLightState env id st).2.1.outcome ≠ Outcome.Ok
      ∧ ((Lights.new.run steps).setLightState env id st).2.1.outcome
          ≠ Outcome.TransactionFailed
      ∧ ((Lights.new.run steps).setLightState env id st).2.2 = []
      ∧ ((Lights.new.run steps).setLightState env id st).1 = Lights.new.run steps := by
  have hlen := wf_length _ (reachable_wf steps)
  have hg : ¬ (0 ≤ id ∧ id < ((Lights.new.run steps).availableLights.length : Int)) := by
    rw [hlen]; exact hid
  unfold Lights.setLightState
  rw [if_pos hg]
  simp [ScopedAStatus.outcome]

/-- Witness of C4 (amended): id 9 after a timed-flash request to light 4. -/
theorem C4_bad_id_is_unsupported_witness :
    ¬ ((0 : Int) ≤ 9 ∧ (9 : Int) < 9)
    ∧ ((Lights.new.run [timedRequest 4 0xFFB500 100 100]).setLightState Env.good 9
        onOrange).2.1 = ScopedAStatus.EX_UNSUPPORTED_OPERATION :=
  ⟨by decide,
    (C4_bad_id_is_unsupported [timedRequest 4 0xFFB500 100 100] Env.good 9 onOrange
      (by decide)).1⟩

/-- C5: after any sequence of steps, for every valid light id and every state
whose `brightnessMode` is `LOW_PERSISTENCE` (any colour, flash mode and durations),
`setLightState` returns `EX_UNSUPPORTED_OPERATION`, the UnsupportedOperation
outcome. -/
theorem C5_low_persistence_is_unsupported (steps : List Step) (env : Env) (id : Int)
    (color : Int) (flashMode : FlashMode) (flashOnMs flashOffMs : Int)
    (h0 : 0 ≤ id) (h9 : id < 9) :
    ((Lights.new.run steps).setLightState env id
        { color := color, flashMode := flashMode, flashOnMs := flashOnMs,
          flashOffMs := flashOffMs,
          brightnessMode := BrightnessMode.LOW_PERSISTENCE }).2.1
        = ScopedAStatus.EX_UNSUPPORTED_OPERATION
      ∧ ((Lights.new.run steps).setLightState env id
        { color := color, flashMode := flashMode, flashOnMs := flashOnMs,
          flashOffMs := flashOffMs,
          brightnessMode := BrightnessMode.LOW_PERSISTENCE }).2.1.outcome
        = Outcome.UnsupportedOperation := by
  have hlen := wf_length _ (reachable_wf steps)
  have hg : 0 ≤ id ∧ id < ((Lights.new.run steps).availableLights.length : Int) := by
    rw [hlen]; exact ⟨h0, h9⟩
  unfold Lights.setLightState
  rw [if_neg (not_not.mpr hg)]
  simp [ScopedAStatus.outcome]

/-- Witness of C5: light 4, a valid timed flash but for the brightness mode. -/
theorem C5_low_persistence_is_unsupported_witness :
    ((0 : Int) ≤ 4 ∧ (4 : Int) < 9)
    ∧ (Lights.new.setLightState Env.good 4
        { color := 0xFFB500, flashMode := FlashMode.TIMED, flashOnMs := 2000,
          flashOffMs := 2000,
          brightnessMode := BrightnessMode.LOW_PERSISTENCE }).2.1
        = ScopedAStatus.EX_UNSUPPORTED_OPERATION :=
  ⟨⟨by decide, by decide⟩,
    (C5_low_persistence_is_unsupported [] Env.good 4 0xFFB500 FlashMode.TIMED 2000 2000
      (by decide) (by decide)).1⟩


theorem setBacklightValue_events (color : Int) (dv : DeviceResult) :
    ∀ e ∈ (setBacklightValue color dv).2,
      e.isCreate = false ∧ e.isDeviceCall = false ∧ e.isFileOp = true := by
  have h : (setBacklightValue color dv).2.all
      (fun e => !e.isCreate && !e.isDeviceCall && e.isFileOp) = true := by
    unfold setBacklightValue maxReadEvents
    cases hm : dv.maxRead <;> cases hb : dv.openBrightness <;>
      cases hw : dv.writeBrightness <;>
      simp [hm, hb, hw, Event.isCreate, Event.isDeviceCall, Event.isFileOp]
  intro e he
  have := List.all_eq_true.mp h e he
  simp only [Bool.and_eq_true, Bool.not_eq_true'] at this
  exact ⟨this.1.1, this.1.2, this.2⟩

theorem ledOf_eq (id : Int) (c : HwLightConfig)
    (h : (Lights.new.config? id).map (fun c => c.hwLight) = some c.hwLight) :
    Lights.new.ledOf id = getLedName c.hwLight.type := by
  unfold Lights.ledOf
  cases hc : Lights.new.config? id with
  | none => rw [hc] at h; simp at h
  | some c0 =>
    rw [hc] at h
    simp only [Option.map_some', Option.some.injEq] at h
    simp [h]

theorem ledOf_range (id : Int) (name : String) (h : Lights.new.ledOf id = some name) :
    0 ≤ id ∧ id < 9 := by
  obtain ⟨c0, hc0, -⟩ := ledOf_new id name h
  obtain ⟨a, b, -⟩ := wf_config Lights.new new_wf id c0 hc0
  exact ⟨a, b⟩

theorem filter_nil_of_forall {p : Event → Bool} {l : List Event}
    (h : ∀ e ∈ l, p e = false) : l.filter p = [] := by
  rw [List.filter_eq_nil_iff]
  intro e he
  simp [h e he]

theorem filter_self_of_forall {p : Event → Bool} {l : List Event}
    (h : ∀ e ∈ l, p e = true) : l.filter p = l := by
  rw [List.filter_eq_self]
  exact h

theorem locked_noLed_facts (i : Nat) (c : HwLightConfig) (env : Env) (st : HwLightState)
    (hn : getLedName c.hwLight.type = none) :
    (setLightStateLocked i c env st).2.1 ≠ ScopedAStatus.EX_UNSUPPORTED_OPERATION
      ∧ (setLightStateLocked i c env st).2.2.filter Event.isCreate = [] := by
  unfold setLightStateLocked
  split
  · simp only
    refine ⟨by split <;> simp, ?_⟩
    apply filter_nil_of_forall
    intro e he
    simp only [List.cons_append, List.mem_cons, List.mem_append, List.mem_singleton,
      List.not_mem_nil, or_false] at he
    rcases he with he | he | he
    · rw [he]; rfl
    · exact (setBacklightValue_events _ _ e he).1
    · rw [he]; rfl
  · simp only [hn]
    exact ⟨by simp, rfl⟩

theorem zero_durations_invalid (st : HwLightState) (hon : st.flashOnMs = 0)
    (hoff : st.flashOffMs = 0) : checkFlashParams st ≠ 0 := by
  unfold checkFlashParams
  simp [hon, hoff]

theorem locked_invalid_facts (i : Nat) (c : HwLightConfig) (env : Env) (st : HwLightState)
    (name : String) (h : ConfigInv c) (hn : getLedName c.hwLight.type = some name)
    (hm : st.flashMode = FlashMode.TIMED) (hv : checkFlashParams st ≠ 0) :
    (setLightStateLocked i c env st).2.1 = ScopedAStatus.EX_UNSUPPORTED_OPERATION
      ∧ (setLightStateLocked i c env st).2.2.filter Event.isCreate = []
      ∧ (setLightStateLocked i c env st).1.flashMode = FlashMode.NONE
      ∧ (setLightStateLocked i c env st).1.unjoinedThreads = []
      ∧ (setLightStateLocked i c env st).1.runningThreads = [] := by
  rw [locked_invalid i c env st name hn hm hv]
  obtain ⟨-, -, s3, s4, s5⟩ := stopIfTimed_spec c h.2
  refine ⟨rfl, ?_, rfl, ?_, ?_⟩
  · apply filter_nil_of_forall
    intro e he
    simp only [List.mem_append, List.mem_singleton] at he
    rcases he with he | he
    · exact (s5 e he).1
    · rw [he]; rfl
  · simpa [HwLightConfig.unjoinedThreads] using s3
  · simpa [HwLightConfig.runningThreads] using s4

/-- C6 (as stated, refuted): light 1 (KEYBOARD) is a valid id; a TIMED request with
both durations 0 and a supported brightness mode returns Ok, not
UnsupportedOperation. -/
theorem C6_zero_durations_stub_light_ok :
    (Lights.new.setLightState Env.good 1
        { color := 0xFFB500, flashMode := FlashMode.TIMED, flashOnMs := 0, flashOffMs := 0,
          brightnessMode := BrightnessMode.USER }).2.1 = ScopedAStatus.ok := by
  decide

/-- C6 (amended): after any sequence of steps, for every valid light id and every
state with a supported brightness mode, `flashMode = TIMED` and both durations 0,
`setLightState` calls no `pthread_create` and leaves the light with no unjoined
flash loop and the recorded mode NONE; it returns `EX_UNSUPPORTED_OPERATION`
exactly when the light is LED-backed (`getLedName` gives a led for its type: lights
4 and 5). -/
theorem C6_zero_durations_start_nothing (steps : List Step) (env : Env) (id : Int)
    (st : HwLightState) (h0 : 0 ≤ id) (h9 : id < 9)
    (hb : st.brightnessMode ≠ BrightnessMode.LOW_PERSISTENCE)
    (hm : st.flashMode = FlashMode.TIMED) (hon : st.flashOnMs = 0)
    (hoff : st.flashOffMs = 0) :
    (((Lights.new.run steps).setLightState env id st).2.1
          = ScopedAStatus.EX_UNSUPPORTED_OPERATION
        ↔ Lights.new.ledOf id = some LED_BLUE_NAME)
      ∧ (Lights.new.ledOf id = some LED_BLUE_NAME ↔ id = 4 ∨ id = 5)
      ∧ ((Lights.new.run steps).setLightState env id st).2.2.filter Event.isCreate = []
      ∧ ((Lights.new.run steps).setLightState env id st).1.unjoinedThreads id = []
      ∧ ((Lights.new.run steps).setLightState env id st).1.flashModeOf id
          = some FlashMode.NONE := by
  obtain ⟨c, -, hinv, hhw, hpost, hstat, hev⟩ :=
    setLightState_post _ (reachable_wf steps) env id st h0 h9 hb
  have hled := ledOf_eq id c hhw
  have hids : Lights.new.ledOf id = some LED_BLUE_NAME ↔ id = 4 ∨ id = 5 := by
    have : id = 0 ∨ id = 1 ∨ id = 2 ∨ id = 3 ∨ id = 4 ∨ id = 5 ∨ id = 6 ∨ id = 7 ∨ id = 8 := by
      omega
    rcases this with h | h | h | h | h | h | h | h | h <;> subst h <;> decide
  rw [hstat, hev]
  simp only [Lights.unjoinedThreads, Lights.flashModeOf, hpost, Option.map_some',
    List.filter_cons, Event.isCreate, Bool.false_eq_true, if_false, Option.some.injEq]
  refine ⟨?_, hids, ?_⟩
  · rw [hled]
    cases hn : getLedName c.hwLight.type with
    | none =>
      have := (locked_noLed_facts id.toNat c env st hn).1
      simp [this]
    | some name =>
      have hname : name = LED_BLUE_NAME := by
        cases ht : c.hwLight.type <;> rw [ht] at hn <;> simp [getLedName] at hn <;>
          exact hn.symm
      have := (locked_invalid_facts id.toNat c env st name hinv hn hm
        (zero_durations_invalid st hon hoff)).1
      simp [this, hname]
  · cases hn : getLedName c.hwLight.type with
    | none =>
      obtain ⟨q1, q2, -, -⟩ := inv_noLed_quiet c hinv hn
      refine ⟨(locked_noLed_facts id.toNat c env st hn).2, ?_, ?_⟩
      · rw [setLightStateLocked_noLed id.toNat c env st hn]; exact q2
      · rw [setLightStateLocked_noLed id.toNat c env st hn]; exact q1
    | some name =>
      obtain ⟨-, f2, f3, f4, -⟩ := locked_invalid_facts id.toNat c env st name hinv hn hm
        (zero_durations_invalid st hon hoff)
      exact ⟨f2, f4, f3⟩

/-- Witness of C6 (amended): light 4 while it is flashing. -/
theorem C6_zero_durations_start_nothing_witness :
    ((0 : Int) ≤ 4 ∧ (4 : Int) < 9
      ∧ BrightnessMode.USER ≠ BrightnessMode.LOW_PERSISTENCE)
    ∧ ((Lights.new.run [timedRequest 4 0xFFB500 100 100]).setLightState Env.good 4
        { color := 0xFFB500, flashMode := FlashMode.TIMED, flashOnMs := 0, flashOffMs := 0,
          brightnessMode := BrightnessMode.USER }).2.1
        = ScopedAStatus.EX_UNSUPPORTED_OPERATION :=
  ⟨⟨by decide, by decide, by decide⟩,
    (C6_zero_durations_start_nothing [timedRequest 4 0xFFB500 100 100] Env.good 4
      { color := 0xFFB500, flashMode := FlashMode.TIMED, flashOnMs := 0, flashOffMs := 0,
        brightnessMode := BrightnessMode.USER }
      (by decide) (by decide) (by decide) rfl rfl rfl).1.mpr (by decide)⟩


theorem locked_create_failed_facts (i : Nat) (c : HwLightConfig) (env : Env)
    (st : HwLightState) (name : String) (h : ConfigInv c)
    (hn : getLedName c.hwLight.type = some name)
    (hm : st.flashMode = FlashMode.TIMED) (hv : checkFlashParams st = 0)
    (hcr : env.createRet ≠ 0) :
    (setLightStateLocked i c env st).2.1 = ScopedAStatus.EX_TRANSACTION_FAILED
      ∧ (∃ t, Event.create t env.createRet ∈ (setLightStateLocked i c env st).2.2)
      ∧ (setLightStateLocked i c env st).1.flashMode = FlashMode.NONE
      ∧ (setLightStateLocked i c env st).1.unjoinedThreads = []
      ∧ (setLightStateLocked i c env st).1.runningThreads = [] := by
  rw [locked_timed i c env st name hn hm hv]
  obtain ⟨-, -, s3, s4, -⟩ := stopIfTimed_spec c h.2
  obtain ⟨q1, q2⟩ := schedulerOf_quiet _ env.sync s3 s4
  obtain ⟨-, -, r3, -⟩ := start_after_set _ st env.createRet q1 q2
  obtain ⟨u, r⟩ := r3 hcr
  refine ⟨by simp [hcr],
    ⟨(schedulerOf (stopIfTimed c).1 env.sync).created + 1, by simp⟩, by simp [hcr], ?_, ?_⟩
  · simpa [HwLightConfig.unjoinedThreads] using u
  · simpa [HwLightConfig.runningThreads] using r

/-- C9 (as stated, refuted): light 4 (NOTIFICATIONS) is flashing; a TIMED request
whose durations fail validation (both 0) but whose brightness mode is
`LOW_PERSISTENCE` returns `EX_UNSUPPORTED_OPERATION` and leaves the light recorded
as TIMED with its flash loop unjoined and running. -/
theorem C9_low_persistence_keeps_flashing :
    checkFlashParams
        { color := 0xFFB500, flashMode := FlashMode.TIMED, flashOnMs := 0, flashOffMs := 0,
          brightnessMode := BrightnessMode.LOW_PERSISTENCE } ≠ 0
      ∧ ((Lights.new.run [timedRequest 4 0xFFB500 100 100]).setLightState Env.good 4
          { color := 0xFFB500, flashMode := FlashMode.TIMED, flashOnMs := 0, flashOffMs := 0,
            brightnessMode := BrightnessMode.LOW_PERSISTENCE }).2.1
          = ScopedAStatus.EX_UNSUPPORTED_OPERATION
      ∧ ((Lights.new.run [timedRequest 4 0xFFB500 100 100]).setLightState Env.good 4
          { color := 0xFFB500, flashMode := FlashMode.TIMED, flashOnMs := 0, flashOffMs := 0,
            brightnessMode := BrightnessMode.LOW_PERSISTENCE }).1.flashModeOf 4
          = some FlashMode.TIMED
      ∧ ((Lights.new.run [timedRequest 4 0xFFB500 100 100]).setLightState Env.good 4
          { color := 0xFFB500, flashMode := FlashMode.TIMED, flashOnMs := 0, flashOffMs := 0,
            brightnessMode := BrightnessMode.LOW_PERSISTENCE }).1.unjoinedThreads 4 = [1]
      ∧ ((Lights.new.run [timedRequest 4 0xFFB500 100 100]).setLightState Env.good 4
          { color := 0xFFB500, flashMode := FlashMode.TIMED, flashOnMs := 0, flashOffMs := 0,
            brightnessMode := BrightnessMode.LOW_PERSISTENCE }).1.runningThreads 4 = [1] := by
  decide

/-- C9 (amended): after any sequence of steps, for every LED-backed light and every
request with a supported brightness mode and `flashMode = TIMED`: if the durations
fail validation `setLightState` returns `EX_UNSUPPORTED_OPERATION`; if validation
passes and the `pthread_create` of `start()` fails it returns
`EX_TRANSACTION_FAILED`; in both cases, whatever the light was doing before, the
light's recorded flash mode is NONE and it has no unjoined and no running flash
loop when the call returns. -/
theorem C9_failed_timed_request_leaves_none (steps : List Step) (env : Env) (id : Int)
    (st : HwLightState) (name : String)
    (hled : Lights.new.ledOf id = some name)
    (hb : st.brightnessMode ≠ BrightnessMode.LOW_PERSISTENCE)
    (hm : st.flashMode = FlashMode.TIMED) :
    (checkFlashParams st ≠ 0 →
        ((Lights.new.run steps).setLightState env id st).2.1
          = ScopedAStatus.EX_UNSUPPORTED_OPERATION)
      ∧ (checkFlashParams st = 0 → env.createRet ≠ 0 →
        ((Lights.new.run steps).setLightState env id st).2.1
            = ScopedAStatus.EX_TRANSACTION_FAILED
          ∧ ∃ t, Event.create t env.createRet
              ∈ ((Lights.new.run steps).setLightState env id st).2.2)
      ∧ (checkFlashParams st ≠ 0 ∨ env.createRet ≠ 0 →
        ((Lights.new.run steps).setLightState env id st).1.flashModeOf id
            = some FlashMode.NONE
          ∧ ((Lights.new.run steps).setLightState env id st).1.unjoinedThreads id = []
          ∧ ((Lights.new.run steps).setLightState env id st).1.runningThreads id = []) := by
  obtain ⟨h0, h9⟩ := ledOf_range id name hled
  obtain ⟨c, -, hinv, hhw, hpost, hstat, hev⟩ :=
    setLightState_post _ (reachable_wf steps) env id st h0 h9 hb
  have hn : getLedName c.hwLight.type = some name := by
    rw [← ledOf_eq id c hhw]; exact hled
  rw [hstat, hev]
  simp only [Lights.unjoinedThreads, Lights.runningThreads, Lights.flashModeOf, hpost,
    Option.map_some', Option.some.injEq]
  refine ⟨?_, ?_, ?_⟩
  · intro hv
    exact (locked_invalid_facts id.toNat c env st name hinv hn hm hv).1
  · intro hv hcr
    obtain ⟨f1, ⟨t, f2⟩, -⟩ :=
      locked_create_failed_facts id.toNat c env st name hinv hn hm hv hcr
    exact ⟨f1, t, List.mem_cons_of_mem _ f2⟩
  · intro hor
    by_cases hv : checkFlashParams st = 0
    · have hcr : env.createRet ≠ 0 := by
        rcases hor with h | h
        · exact absurd hv h
        · exact h
      obtain ⟨-, -, f3, f4, f5⟩ :=
        locked_create_failed_facts id.toNat c env st name hinv hn hm hv hcr
      exact ⟨f3, f4, f5⟩
    · obtain ⟨-, -, f3, f4, f5⟩ := locked_invalid_facts id.toNat c env st name hinv hn hm hv
      exact ⟨f3, f4, f5⟩

/-- Witness of C9 (amended): light 5 (ATTENTION) is flashing, the next timed
request is valid and `pthread_create` returns 11. -/
theorem C9_failed_timed_request_leaves_none_witness :
    (Lights.new.ledOf 5 = some LED_BLUE_NAME
      ∧ onHeartbeat.brightnessMode ≠ BrightnessMode.LOW_PERSISTENCE
      ∧ onHeartbeat.flashMode = FlashMode.TIMED)
    ∧ ((Lights.new.run [timedRequest 5 0xFFB500 100 100]).setLightState
          { Env.good with createRet := 11 } 5 onHeartbeat).2.1
        = ScopedAStatus.EX_TRANSACTION_FAILED
    ∧ ((Lights.new.run [timedRequest 5 0xFFB500 100 100]).setLightState
          { Env.good with createRet := 11 } 5 onHeartbeat).1.unjoinedThreads 5 = [] :=
  ⟨⟨by decide, by decide, by decide⟩,
    ((C9_failed_timed_request_leaves_none [timedRequest 5 0xFFB500 100 100]
      { Env.good with createRet := 11 } 5 onHeartbeat LED_BLUE_NAME
      (by decide) (by decide) (by decide)).2.1 (by decide) (by decide)).1,
    ((C9_failed_timed_request_leaves_none [timedRequest 5 0xFFB500 100 100]
      { Env.good with createRet := 11 } 5 onHeartbeat LED_BLUE_NAME
      (by decide) (by decide) (by decide)).2.2 (Or.inr (by decide))).2.1⟩


theorem setColorValue_writeString (led : String) (color : Int) (trigger : Bool)
    (dv : DeviceResult) (p d : String) (ok : Bool)
    (h : Event.writeString p d ok ∈ (setColorValue led color trigger dv).2) :
    p = LED_TRIGGER led
      ∧ d = (if trigger then LED_HW_TRIGGER_ON else LED_HW_TRIGGER_OFF) := by
  unfold setColorValue maxReadEvents at h
  cases hm : dv.maxRead <;> cases ht : dv.openTrigger <;> cases hb : dv.openBrightness <;>
    cases hw : dv.writeBrightness <;>
    simp [hm, ht, hb, hw] at h <;>
    exact ⟨h.1, h.2.1⟩

theorem setColorValue_trigger_written (led : String) (color : Int) (trigger : Bool)
    (dv : DeviceResult) (ht : dv.openTrigger = true) :
    Event.writeString (LED_TRIGGER led)
        (if trigger then LED_HW_TRIGGER_ON else LED_HW_TRIGGER_OFF) dv.writeTrigger
      ∈ (setColorValue led color trigger dv).2 := by
  unfold setColorValue
  cases hb : dv.openBrightness <;> cases hw : dv.writeBrightness <;> simp [ht, hb, hw]

theorem setColorValue_ok_iff (led : String) (color : Int) (trigger : Bool) (dv : DeviceResult) :
    ¬ (setColorValue led color trigger dv).1 < 0 ↔ (setColorValue led color trigger dv).1 = 0 := by
  rcases setColorValue_ret led color trigger dv with h | h <;> rw [h] <;> decide

theorem mem_of_filter_eq {p : Event → Bool} {l m : List Event} (e : Event)
    (h : l.filter p = m) (hp : p e = true) : e ∈ l ↔ e ∈ m := by
  rw [← h, List.mem_filter]
  simp [hp]

theorem locked_static_events (i : Nat) (c : HwLightConfig) (env : Env) (st : HwLightState)
    (name : String) (h : ConfigInv c) (hn : getLedName c.hwLight.type = some name)
    (hm : st.flashMode ≠ FlashMode.TIMED) :
    (setLightStateLocked i c env st).2.2.filter Event.isDeviceCall
        = [Event.callSetColorValue name st.color (decide (st.flashMode = FlashMode.HARDWARE))]
      ∧ (setLightStateLocked i c env st).2.2.filter Event.isFileOp
        = (setColorValue name st.color (decide (st.flashMode = FlashMode.HARDWARE)) env.dev).2
      ∧ (setLightStateLocked i c env st).2.2.filter Event.isCreate = [] := by
  rw [locked_static i c env st name hn hm]
  obtain ⟨-, -, -, -, s5⟩ := stopIfTimed_spec c h.2
  have e1 := setColorValue_events name st.color (decide (st.flashMode = FlashMode.HARDWARE))
    env.dev
  have a1 : (stopIfTimed c).2.filter Event.isDeviceCall = [] :=
    filter_nil_of_forall (fun e he => (s5 e he).2.1)
  have a2 : (stopIfTimed c).2.filter Event.isFileOp = [] :=
    filter_nil_of_forall (fun e he => (s5 e he).2.2)
  have a3 : (stopIfTimed c).2.filter Event.isCreate = [] :=
    filter_nil_of_forall (fun e he => (s5 e he).1)
  have b1 := filter_nil_of_forall (fun e he => (e1 e he).2.1)
  have b2 := filter_self_of_forall (fun e he => (e1 e he).2.2)
  have b3 := filter_nil_of_forall (fun e he => (e1 e he).1)
  simp only [List.filter_append, List.filter_cons, List.filter_nil, a1, a2, a3, b1, b2, b3,
    Event.isDeviceCall, Event.isFileOp, Event.isCreate]
  simp

/-- C10: after any sequence of steps, for every LED-backed light and every request
with a supported brightness mode and `flashMode` NONE or HARDWARE, `setLightState`
enters `setColorValue` exactly once, with the light's led, `state.color` and
`trigger = true` iff `flashMode = HARDWARE`, and all its device I/O is that of this
call; every string written is written to the trigger file and is "heartbeat" when
the trigger is requested and "none" otherwise (and it is written whenever the
trigger file opens); no `pthread_create` is called; the status is Ok iff the call
returns 0 and `EX_TRANSACTION_FAILED` otherwise. -/
theorem C10_static_request_writes_once (steps : List Step) (env : Env) (id : Int)
    (st : HwLightState) (name : String)
    (hled : Lights.new.ledOf id = some name)
    (hb : st.brightnessMode ≠ BrightnessMode.LOW_PERSISTENCE)
    (hm : st.flashMode = FlashMode.NONE ∨ st.flashMode = FlashMode.HARDWARE) :
    ((Lights.new.run steps).setLightState env id st).2.2.filter Event.isDeviceCall
        = [Event.callSetColorValue name st.color (decide (st.flashMode = FlashMode.HARDWARE))]
      ∧ ((Lights.new.run steps).setLightState env id st).2.2.filter Event.isFileOp
        = (setColorValue name st.color (decide (st.flashMode = FlashMode.HARDWARE)) env.dev).2
      ∧ (∀ (p d : String) (ok : Bool),
          Event.writeString p d ok ∈ ((Lights.new.run steps).setLightState env id st).2.2 →
          p = LED_TRIGGER name
            ∧ d = (if st.flashMode = FlashMode.HARDWARE then "heartbeat" else "none"))
      ∧ (env.dev.openTrigger = true →
          Event.writeString (LED_TRIGGER name)
              (if st.flashMode = FlashMode.HARDWARE then "heartbeat" else "none")
              env.dev.writeTrigger
            ∈ ((Lights.new.run steps).setLightState env id st).2.2)
      ∧ ((Lights.new.run steps).setLightState env id st).2.2.filter Event.isCreate = []
      ∧ (((Lights.new.run steps).setLightState env id st).2.1 = ScopedAStatus.ok
          ↔ (setColorValue name st.color (decide (st.flashMode = FlashMode.HARDWARE))
              env.dev).1 = 0)
      ∧ ((setColorValue name st.color (decide (st.flashMode = FlashMode.HARDWARE))
              env.dev).1 ≠ 0 →
          ((Lights.new.run steps).setLightState env id st).2.1
            = ScopedAStatus.EX_TRANSACTION_FAILED) := by
  have hnt : st.flashMode ≠ FlashMode.TIMED := by
    rcases hm with h | h <;> rw [h] <;> decide
  obtain ⟨h0, h9⟩ := ledOf_range id name hled
  obtain ⟨c, -, hinv, hhw, hpost, hstat, hev⟩ :=
    setLightState_post _ (reachable_wf steps) env id st h0 h9 hb
  have hn : getLedName c.hwLight.type = some name := by
    rw [← ledOf_eq id c hhw]; exact hled
  obtain ⟨f1, f2, f3⟩ := locked_static_events id.toNat c env st name hinv hn hnt
  have g1 : ((Lights.new.run steps).setLightState env id st).2.2.filter Event.isFileOp
      = (setColorValue name st.color (decide (st.flashMode = FlashMode.HARDWARE))
          env.dev).2 := by
    rw [hev]
    simpa [List.filter_cons, Event.isFileOp] using f2
  have hstr : (if st.flashMode = FlashMode.HARDWARE then "heartbeat" else "none")
      = (if decide (st.flashMode = FlashMode.HARDWARE) = true then LED_HW_TRIGGER_ON
          else LED_HW_TRIGGER_OFF) := by
    by_cases hh : st.flashMode = FlashMode.HARDWARE <;>
      simp [hh, LED_HW_TRIGGER_ON, LED_HW_TRIGGER_OFF]
  refine ⟨?_, g1, ?_, ?_, ?_, ?_, ?_⟩
  · rw [hev]
    simpa [List.filter_cons, Event.isDeviceCall] using f1
  · intro p d ok hmem
    rw [mem_of_filter_eq (Event.writeString p d ok) g1 rfl] at hmem
    rw [hstr]
    exact setColorValue_writeString _ _ _ _ p d ok hmem
  · intro hop
    rw [mem_of_filter_eq (Event.writeString _ _ _) g1 rfl, hstr]
    exact setColorValue_trigger_written _ _ _ _ hop
  · rw [hev]
    simpa [List.filter_cons, Event.isCreate] using f3
  · rw [hstat, locked_static id.toNat c env st name hn hnt]
    simp only
    rw [← setColorValue_ok_iff]
    split <;> simp_all
  · intro hne
    rw [hstat, locked_static id.toNat c env st name hn hnt]
    simp only
    have : (setColorValue name st.color (decide (st.flashMode = FlashMode.HARDWARE))
        env.dev).1 < 0 := by
      by_contra hl
      exact hne ((setColorValue_ok_iff _ _ _ _).mp hl)
    rw [if_pos this]

/-- Witness of C10: light 4 is flashing and receives a HARDWARE request on a
device where every operation succeeds: Ok, and "heartbeat" is written to the
trigger file of `blue:heartbeat`. -/
theorem C10_static_request_writes_once_witness :
    (Lights.new.ledOf 4 = some LED_BLUE_NAME
      ∧ BrightnessMode.USER ≠ BrightnessMode.LOW_PERSISTENCE
      ∧ (FlashMode.HARDWARE = FlashMode.NONE ∨ FlashMode.HARDWARE = FlashMode.HARDWARE))
    ∧ ((Lights.new.run [timedRequest 4 0xFFB500 100 100]).setLightState Env.good 4
          { color := 0xFFA500, flashMode := FlashMode.HARDWARE, flashOnMs := 0,
            flashOffMs := 0, brightnessMode := BrightnessMode.USER }).2.2.filter
          Event.isDeviceCall
        = [Event.callSetColorValue LED_BLUE_NAME 0xFFA500 true] :=
  ⟨⟨by decide, by decide, by decide⟩,
    (C10_static_request_writes_once [timedRequest 4 0xFFB500 100 100] Env.good 4
      { color := 0xFFA500, flashMode := FlashMode.HARDWARE, flashOnMs := 0,
        flashOffMs := 0, brightnessMode := BrightnessMode.USER } LED_BLUE_NAME
      (by decide) (by decide) (by decide)).1⟩

theorem set_same (l : List HwLightConfig) (i : Nat) (c : HwLightConfig)
    (h : l[i]? = some c) : l.set i c = l := by
  induction l generalizing i with
  | nil => simp
  | cons x xs ih =>
    cases i with
    | zero =>
      simp only [List.getElem?_cons_zero, Option.some.injEq] at h
      simp [h]
    | succ n =>
      simp only [List.getElem?_cons_succ] at h
      simp [ih n h]

theorem setLightState_noLed_unchanged (s : Lights) (env : Env) (id : Int)
    (st : HwLightState) (c : HwLightConfig) (h0 : 0 ≤ id)
    (hc : s.availableLights[id.toNat]? = some c)
    (hb : st.brightnessMode ≠ BrightnessMode.LOW_PERSISTENCE)
    (hn : getLedName c.hwLight.type = none) :
    (s.setLightState env id st).1 = s := by
  rw [setLightState_eq s env id st c h0 hc hb]
  simp only [setLightStateLocked_noLed id.toNat c env st hn, set_same _ _ _ hc]

theorem new_type_eq (id : Int) (c : HwLightConfig) (t : LightType)
    (ht : (Lights.new.config? id).map (fun c => c.hwLight.type) = some t)
    (h : (Lights.new.config? id).map (fun c => c.hwLight) = some c.hwLight) :
    c.hwLight.type = t := by
  cases hc : Lights.new.config? id with
  | none => rw [hc] at h; simp at h
  | some c0 =>
    rw [hc] at h ht
    simp only [Option.map_some', Option.some.injEq] at h ht
    rw [← h, ht]

theorem new_type_range (id : Int) (t : LightType)
    (ht : (Lights.new.config? id).map (fun c => c.hwLight.type) = some t) :
    0 ≤ id ∧ id < 9 := by
  cases hc : Lights.new.config? id with
  | none => rw [hc] at ht; simp at ht
  | some c0 =>
    obtain ⟨a, b, -⟩ := wf_config Lights.new new_wf id c0 hc
    exact ⟨a, b⟩

/-- C11: after any sequence of steps, for every light whose type is neither
BACKLIGHT nor a type with a led (KEYBOARD, BUTTONS, BATTERY, BLUETOOTH, WIFI,
MICROPHONE: ids 1, 2, 3, 6, 7, 8) and every state with a supported brightness mode,
`setLightState` returns Ok; all it does is lock and unlock the write mutex of the
light (no device I/O, no `pthread_create`); the registry is unchanged and the
light has no scheduler. -/
theorem C11_stub_light_is_noop (steps : List Step) (env : Env) (id : Int)
    (st : HwLightState) (t : LightType)
    (ht : (Lights.new.config? id).map (fun c => c.hwLight.type) = some t)
    (hnb : t ≠ LightType.BACKLIGHT) (hnl : getLedName t = none)
    (hb : st.brightnessMode ≠ BrightnessMode.LOW_PERSISTENCE) :
    (id = 1 ∨ id = 2 ∨ id = 3 ∨ id = 6 ∨ id = 7 ∨ id = 8)
      ∧ ((Lights.new.run steps).setLightState env id st).2.1 = ScopedAStatus.ok
      ∧ ((Lights.new.run steps).setLightState env id st).2.2
          = [Event.lockWrite id.toNat, Event.unlockWrite id.toNat]
      ∧ ((Lights.new.run steps).setLightState env id st).2.2.filter Event.isFileOp = []
      ∧ ((Lights.new.run steps).setLightState env id st).2.2.filter Event.isDeviceCall = []
      ∧ ((Lights.new.run steps).setLightState env id st).2.2.filter Event.isCreate = []
      ∧ ((Lights.new.run steps).setLightState env id st).1 = Lights.new.run steps
      ∧ (((Lights.new.run steps).setLightState env id st).1.config? id).bind
          (fun c => c.lightsFlash) = none := by
  obtain ⟨h0, h9⟩ := new_type_range id t ht
  have hids : id = 1 ∨ id = 2 ∨ id = 3 ∨ id = 6 ∨ id = 7 ∨ id = 8 := by
    have : id = 0 ∨ id = 1 ∨ id = 2 ∨ id = 3 ∨ id = 4 ∨ id = 5 ∨ id = 6 ∨ id = 7
        ∨ id = 8 := by omega
    rcases this with h | h | h | h | h | h | h | h | h <;> subst h <;>
      simp [Lights.config?, Lights.new, Lights.addLight] at ht <;> subst ht <;>
      simp_all [getLedName]
  obtain ⟨c, hcfg, hinv, hhw, hpost, hstat, hev⟩ :=
    setLightState_post _ (reachable_wf steps) env id st h0 h9 hb
  have hty : c.hwLight.type = t := new_type_eq id c t ht hhw
  have hn : getLedName c.hwLight.type = none := by rw [hty]; exact hnl
  have hnbl : c.hwLight.type ≠ LightType.BACKLIGHT := by rw [hty]; exact hnb
  have hlocked : setLightStateLocked id.toNat c env st
      = (c, ScopedAStatus.ok, [Event.unlockWrite id.toNat]) := by
    unfold setLightStateLocked
    rw [if_neg hnbl]
    simp only [hn]
  have hevs : ((Lights.new.run steps).setLightState env id st).2.2
      = [Event.lockWrite id.toNat, Event.unlockWrite id.toNat] := by
    rw [hev, hlocked]
  refine ⟨hids, ?_, hevs, ?_, ?_, ?_, ?_, ?_⟩
  · rw [hstat, hlocked]
  · rw [hevs]; rfl
  · rw [hevs]; rfl
  · rw [hevs]; rfl
  · have hc : (Lights.new.run steps).availableLights[id.toNat]? = some c := by
      unfold Lights.config? at hcfg
      rw [if_pos h0] at hcfg
      exact hcfg
    exact setLightState_noLed_unchanged _ env id st c h0 hc hb hn
  · rw [hpost, hlocked]
    simp only [Option.some_bind]
    exact (inv_noLed_quiet c hinv hn).2.2.2

/-- Witness of C11: light 1 (KEYBOARD) receives a valid timed-flash request after
light 4 started flashing. -/
theorem C11_stub_light_is_noop_witness :
    ((Lights.new.config? 1).map (fun c => c.hwLight.type) = some LightType.KEYBOARD
      ∧ LightType.KEYBOARD ≠ LightType.BACKLIGHT
      ∧ getLedName LightType.KEYBOARD = none
      ∧ onHeartbeat.brightnessMode ≠ BrightnessMode.LOW_PERSISTENCE)
    ∧ ((Lights.new.run [timedRequest 4 0xFFB500 100 100]).setLightState Env.good 1
        onHeartbeat).2.1 = ScopedAStatus.ok
    ∧ ((Lights.new.run [timedRequest 4 0xFFB500 100 100]).setLightState Env.good 1
        onHeartbeat).2.2 = [Event.lockWrite 1, Event.unlockWrite 1] :=
  ⟨⟨by decide, by decide, by decide, by decide⟩,
    (C11_stub_light_is_noop [timedRequest 4 0xFFB500 100 100] Env.good 1 onHeartbeat
      LightType.KEYBOARD (by decide) (by decide) (by decide) (by decide)).2.1,
    (C11_stub_light_is_noop [timedRequest 4 0xFFB500 100 100] Env.good 1 onHeartbeat
      LightType.KEYBOARD (by decide) (by decide) (by decide) (by decide)).2.2.1⟩

theorem setBacklightValue_ret_iff (color : Int) (dv : DeviceResult) :
    ((setBacklightValue color dv).1 = 0
        ↔ dv.openBrightness = true ∧ dv.writeBrightness = true)
      ∧ ((setBacklightValue color dv).1 = 0 ∨ (setBacklightValue color dv).1 = -1) := by
  unfold setBacklightValue
  cases hb : dv.openBrightness <;> cases hw : dv.writeBrightness <;> simp [hb, hw]

theorem setBacklightValue_writeNumber (color : Int) (dv : DeviceResult) (p : String)
    (v : Int) (ok : Bool)
    (h : Event.writeNumber p v ok ∈ (setBacklightValue color dv).2) :
    p = BACKLIGHT_BRIGHTNESS
      ∧ v = castInt (computeBrightness color (maxBrightnessAfterRead 1 dv.maxRead)) := by
  unfold setBacklightValue maxReadEvents at h
  cases hm : dv.maxRead <;> cases hb : dv.openBrightness <;>
    cases hw : dv.writeBrightness <;>
    simp [hm, hb, hw] at h <;>
    exact ⟨h.1, h.2.1⟩

theorem setBacklightValue_no_writeString (color : Int) (dv : DeviceResult) (p d : String)
    (ok : Bool) : Event.writeString p d ok ∉ (setBacklightValue color dv).2 := by
  intro h
  unfold setBacklightValue maxReadEvents at h
  cases hm : dv.maxRead <;> cases hb : dv.openBrightness <;>
    cases hw : dv.writeBrightness <;>
    simp [hm, hb, hw] at h

/-- C12: after any sequence of steps, for the backlight (id 0) and every state with
a supported brightness mode (whatever its flash mode and durations),
`setLightState` performs the backlight brightness write for `state.color` and
nothing else: its whole trace is the lock, the entry into
`setBacklightValue(state.color)`, the open and the read of the backlight
`max_brightness`, the open of the backlight brightness file and, when that open
succeeds, the write of the brightness computed for `state.color`, then the unlock.
So the write is attempted exactly when the brightness file opens, all file
operations are those of this call, on the two backlight files, and the only write
is the brightness computed for `state.color`; it calls no `pthread_create`, the
light has no scheduler and stays recorded as NONE; the status is Ok iff the
brightness file was opened and written, and `EX_TRANSACTION_FAILED` otherwise. -/
theorem C12_backlight_only_writes_brightness (steps : List Step) (env : Env)
    (st : HwLightState) (hb : st.brightnessMode ≠ BrightnessMode.LOW_PERSISTENCE) :
    ((Lights.new.run steps).setLightState env 0 st).2.2
        = [Event.lockWrite 0, Event.callSetBacklightValue st.color,
            Event.openFile BACKLIGHT_MAX_BRIGHTNESS
              (decide (env.dev.maxRead ≠ MaxRead.openFailed)),
            Event.readFile BACKLIGHT_MAX_BRIGHTNESS]
          ++ (if env.dev.openBrightness = true then
                [Event.openFile BACKLIGHT_BRIGHTNESS true,
                 Event.writeNumber BACKLIGHT_BRIGHTNESS
                   (castInt (computeBrightness st.color
                     (maxBrightnessAfterRead 1 env.dev.maxRead)))
                   env.dev.writeBrightness]
              else [Event.openFile BACKLIGHT_BRIGHTNESS false])
          ++ [Event.unlockWrite 0]
      ∧ (env.dev.openBrightness = true →
          Event.writeNumber BACKLIGHT_BRIGHTNESS
              (castInt (computeBrightness st.color
                (maxBrightnessAfterRead 1 env.dev.maxRead)))
              env.dev.writeBrightness
            ∈ ((Lights.new.run steps).setLightState env 0 st).2.2)
      ∧ ((Lights.new.run steps).setLightState env 0 st).2.2.filter Event.isDeviceCall
        = [Event.callSetBacklightValue st.color]
      ∧ ((Lights.new.run steps).setLightState env 0 st).2.2.filter Event.isFileOp
        = (setBacklightValue st.color env.dev).2
      ∧ (∀ (p : String) (v : Int) (ok : Bool),
          Event.writeNumber p v ok ∈ ((Lights.new.run steps).setLightState env 0 st).2.2 →
          p = BACKLIGHT_BRIGHTNESS
            ∧ v = castInt (computeBrightness st.color
                (maxBrightnessAfterRead 1 env.dev.maxRead)))
      ∧ (∀ (p d : String) (ok : Bool),
          Event.writeString p d ok ∉ ((Lights.new.run steps).setLightState env 0 st).2.2)
      ∧ ((Lights.new.run steps).setLightState env 0 st).2.2.filter Event.isCreate = []
      ∧ ((Lights.new.run steps).setLightState env 0 st).1 = Lights.new.run steps
      ∧ (((Lights.new.run steps).setLightState env 0 st).1.config? 0).bind
          (fun c => c.lightsFlash) = none
      ∧ ((Lights.new.run steps).setLightState env 0 st).1.flashModeOf 0
          = some FlashMode.NONE
      ∧ (((Lights.new.run steps).setLightState env 0 st).2.1 = ScopedAStatus.ok
          ↔ env.dev.openBrightness = true ∧ env.dev.writeBrightness = true)
      ∧ (¬ (env.dev.openBrightness = true ∧ env.dev.writeBrightness = true) →
          ((Lights.new.run steps).setLightState env 0 st).2.1
            = ScopedAStatus.EX_TRANSACTION_FAILED) := by
  obtain ⟨c, hcfg, hinv, hhw, hpost, hstat, hev⟩ :=
    setLightState_post _ (reachable_wf steps) env 0 st (by decide) (by decide) hb
  have hty : c.hwLight.type = LightType.BACKLIGHT :=
    new_type_eq 0 c LightType.BACKLIGHT (by decide) hhw
  have hn : getLedName c.hwLight.type = none := by rw [hty]; rfl
  have hlocked : setLightStateLocked (0 : Int).toNat c env st
      = (c,
          if (setBacklightValue st.color env.dev).1 < 0
          then ScopedAStatus.EX_TRANSACTION_FAILED else ScopedAStatus.ok,
          Event.callSetBacklightValue st.color :: (setBacklightValue st.color env.dev).2
            ++ [Event.unlockWrite (0 : Int).toNat]) := by
    unfold setLightStateLocked
    rw [if_pos hty]
  have e1 := setBacklightValue_events st.color env.dev
  have b1 := filter_nil_of_forall (fun e he => (e1 e he).2.1)
  have b2 := filter_self_of_forall (fun e he => (e1 e he).2.2)
  have b3 := filter_nil_of_forall (fun e he => (e1 e he).1)
  obtain ⟨r1, r2⟩ := setBacklightValue_ret_iff st.color env.dev
  obtain ⟨q1, -, -, q4⟩ := inv_noLed_quiet c hinv hn
  have hc : (Lights.new.run steps).availableLights[(0 : Int).toNat]? = some c := by
    unfold Lights.config? at hcfg
    rw [if_pos (by decide)] at hcfg
    exact hcfg
  have hsame := setLightState_noLed_unchanged _ env 0 st c (by decide) hc hb hn
  have g0 : ((Lights.new.run steps).setLightState env 0 st).2.2
      = [Event.lockWrite 0, Event.callSetBacklightValue st.color,
          Event.openFile BACKLIGHT_MAX_BRIGHTNESS
            (decide (env.dev.maxRead ≠ MaxRead.openFailed)),
          Event.readFile BACKLIGHT_MAX_BRIGHTNESS]
        ++ (if env.dev.openBrightness = true then
              [Event.openFile BACKLIGHT_BRIGHTNESS true,
               Event.writeNumber BACKLIGHT_BRIGHTNESS
                 (castInt (computeBrightness st.color
                   (maxBrightnessAfterRead 1 env.dev.maxRead)))
                 env.dev.writeBrightness]
            else [Event.openFile BACKLIGHT_BRIGHTNESS false])
        ++ [Event.unlockWrite 0] := by
    rw [hev, hlocked]
    unfold setBacklightValue maxReadEvents
    cases hm : env.dev.maxRead <;> cases ho : env.dev.openBrightness <;>
      cases hw : env.dev.writeBrightness <;> simp
  have g2 : ((Lights.new.run steps).setLightState env 0 st).2.2.filter Event.isFileOp
      = (setBacklightValue st.color env.dev).2 := by
    rw [hev, hlocked]
    simp [List.filter_cons, List.filter_append, Event.isFileOp, b2]
  refine ⟨g0, ?_, ?_, g2, ?_, ?_, ?_, hsame, ?_, ?_, ?_, ?_⟩
  · intro ho
    rw [g0, if_pos ho]
    simp
  · rw [hev, hlocked]
    simp [List.filter_cons, List.filter_append, Event.isDeviceCall, b1]
  · intro p v ok hmem
    rw [mem_of_filter_eq (Event.writeNumber p v ok) g2 rfl] at hmem
    exact setBacklightValue_writeNumber _ _ p v ok hmem
  · intro p d ok hmem
    rw [mem_of_filter_eq (Event.writeString p d ok) g2 rfl] at hmem
    exact setBacklightValue_no_writeString _ _ p d ok hmem
  · rw [hev, hlocked]
    simp [List.filter_cons, List.filter_append, Event.isCreate, b3]
  · rw [hsame, hcfg]; simpa using q4
  · rw [hsame]; simp [Lights.flashModeOf, hcfg, q1]
  · rw [hstat, hlocked, ← r1]
    rcases r2 with h | h <;> rw [h] <;> simp
  · intro hf
    rw [← r1] at hf
    rw [hstat, hlocked]
    rcases r2 with h | h
    · exact absurd h hf
    · rw [h]; simp

/-- Witness of C12: a TIMED request with valid durations and colour 0xFFFFB500 to
the backlight, on a device where everything succeeds and `max_brightness` reads
255, writes the brightness 182 to the backlight brightness file between the lock
and the unlock, returns Ok and records NONE. -/
theorem C12_backlight_only_writes_brightness_witness :
    onHeartbeat.brightnessMode ≠ BrightnessMode.LOW_PERSISTENCE
    ∧ (Lights.new.setLightState Env.good 0 onHeartbeat).2.2
        = [Event.lockWrite 0, Event.callSetBacklightValue 0xFFFFB500,
            Event.openFile BACKLIGHT_MAX_BRIGHTNESS true,
            Event.readFile BACKLIGHT_MAX_BRIGHTNESS,
            Event.openFile BACKLIGHT_BRIGHTNESS true,
            Event.writeNumber BACKLIGHT_BRIGHTNESS 182 true,
            Event.unlockWrite 0]
    ∧ (Lights.new.setLightState Env.good 0 onHeartbeat).2.1 = ScopedAStatus.ok
    ∧ (Lights.new.setLightState Env.good 0 onHeartbeat).1.flashModeOf 0
        = some FlashMode.NONE :=
  ⟨by decide,
    (C12_backlight_only_writes_brightness [] Env.good onHeartbeat (by decide)).1.trans
      (by decide),
    (C12_backlight_only_writes_brightness [] Env.good onHeartbeat
      (by decide)).2.2.2.2.2.2.2.2.2.2.1.mpr ⟨rfl, rfl⟩,
    (C12_backlight_only_writes_brightness [] Env.good onHeartbeat
      (by decide)).2.2.2.2.2.2.2.2.2.1⟩

/-- C13: `LightsFlash::start()` calls `pthread_create` exactly when the phase is
INITIALIZED or STOPPED. There, if the creation succeeds the new thread is added to
the unjoined and running threads, its handle is stored, the phase becomes STARTED
and 0 is returned; if the creation fails its non-zero code is returned and the
object (the phase included) is unchanged. From STARTED and from UNKNOWN it calls
nothing, changes nothing and returns 0. -/
theorem C13_start_spawns_from_initialized_or_stopped (lf : LightsFlash) (createRet : Int) :
    (((lf.start createRet).2.2.filter Event.isCreate ≠ [])
        ↔ (lf.mState = LightsFlashState.INITIALIZED ∨ lf.mState = LightsFlashState.STOPPED))
      ∧ ((lf.start createRet).1.unjoined ≠ lf.unjoined
        ↔ ((lf.mState = LightsFlashState.INITIALIZED ∨ lf.mState = LightsFlashState.STOPPED)
            ∧ createRet = 0))
      ∧ ((lf.mState = LightsFlashState.INITIALIZED ∨ lf.mState = LightsFlashState.STOPPED) →
          createRet = 0 →
          (lf.start createRet).1.mState = LightsFlashState.STARTED
            ∧ (lf.start createRet).2.1 = 0
            ∧ (lf.start createRet).2.2 = [Event.create (lf.created + 1) 0]
            ∧ (lf.start createRet).1.mFlashThread = lf.created + 1
            ∧ (lf.start createRet).1.unjoined = (lf.created + 1) :: lf.unjoined
            ∧ (lf.start createRet).1.running = (lf.created + 1) :: lf.running)
      ∧ ((lf.mState = LightsFlashState.INITIALIZED ∨ lf.mState = LightsFlashState.STOPPED) →
          createRet ≠ 0 →
          (lf.start createRet).2.1 = createRet
            ∧ (lf.start createRet).2.1 ≠ 0
            ∧ (lf.start createRet).1 = lf)
      ∧ ((lf.mState = LightsFlashState.STARTED ∨ lf.mState = LightsFlashState.UNKNOWN) →
          lf.start createRet = (lf, 0, [])) := by
  unfold LightsFlash.start
  cases hs : lf.mState <;> by_cases hc : createRet = 0 <;>
    simp [hs, hc, Event.isCreate]

/-- Witness of C13: from INITIALIZED with a successful creation the phase becomes
STARTED; from that STARTED scheduler another `start()` does nothing. -/
theorem C13_start_spawns_from_initialized_or_stopped_witness :
    (((LightsFlash.new { id := 4, type := LightType.NOTIFICATIONS, ordinal := 0 }
          Env.good.sync).setLightState onHeartbeat).mState = LightsFlashState.INITIALIZED
      ∧ startedScheduler.mState = LightsFlashState.STARTED)
    ∧ startedScheduler.unjoined = [1]
    ∧ startedScheduler.start 0 = (startedScheduler, 0, []) :=
  ⟨⟨by decide, by decide⟩,
    ((C13_start_spawns_from_initialized_or_stopped
      ((LightsFlash.new { id := 4, type := LightType.NOTIFICATIONS, ordinal := 0 }
          Env.good.sync).setLightState onHeartbeat) 0).2.2.1
      (Or.inl (by decide)) (by decide)).2.2.2.2.1,
    (C13_start_spawns_from_initialized_or_stopped startedScheduler 0).2.2.2.2
      (Or.inl (by decide))⟩

/-- C14 (the code at the failing input): for the scheduler `startedScheduler` in
phase STARTED, `stop()` stores the flash mode NONE and joins the loop thread, but
the phase is still STARTED and not STOPPED; an immediately following `stop()`
signals and joins the same handle a second time; an immediately following
`start()` returns 0 without any `pthread_create`, so no new loop is spawned. -/
theorem C14_stop_leaves_phase_started :
    startedScheduler.mState = LightsFlashState.STARTED
      ∧ startedScheduler.stop.1.mHwLightState.flashMode = FlashMode.NONE
      ∧ startedScheduler.stop.1.unjoined = []
      ∧ startedScheduler.stop.2
          = [Event.lockFlash, Event.condSignal, Event.unlockFlash, Event.join 1]
      ∧ startedScheduler.stop.1.mState = LightsFlashState.STARTED
      ∧ startedScheduler.stop.1.mState ≠ LightsFlashState.STOPPED
      ∧ startedScheduler.stop.1.stop.2
          = [Event.lockFlash, Event.condSignal, Event.unlockFlash, Event.join 1]
      ∧ (startedScheduler.stop.1.start 0).2.2 = []
      ∧ (startedScheduler.stop.1.start 0).1.unjoined = [] := by
  decide

/-- C15 (as stated, refuted): on the scheduler `startedScheduler` in phase STARTED,
`setLightState` makes the phase INITIALIZED instead of leaving it STARTED, and the
sequence `start()`, `setLightState(s)`, `start()` with both creations succeeding
calls `pthread_create` a second time and ends with two unjoined loops, not one. -/
theorem C15_setLightState_resets_started :
    startedScheduler.mState = LightsFlashState.STARTED
      ∧ (startedScheduler.setLightState onOrange).mState = LightsFlashState.INITIALIZED
      ∧ (startedScheduler.setLightState onOrange).mState ≠ LightsFlashState.STARTED
      ∧ ((startedScheduler.setLightState onOrange).start 0).2.2 = [Event.create 2 0]
      ∧ ((startedScheduler.setLightState onOrange).start 0).1.unjoined = [2, 1] := by
  decide

/-- C15 (amended): for every scheduler and every state `s`, `setLightState(s)`
stores `s` as the light state of the scheduler and spawns or joins no thread: the
light, the thread handle, the result of the pthread initialisation and the
created, unjoined and running threads are as before; the phase becomes INITIALIZED
whatever it was before, also when it was STARTED. -/
theorem C15_setLightState_stores_and_initializes (lf : LightsFlash) (s : HwLightState) :
    (lf.setLightState s).mHwLightState = s
      ∧ (lf.setLightState s).mHwLight = lf.mHwLight
      ∧ (lf.setLightState s).mFlashThread = lf.mFlashThread
      ∧ (lf.setLightState s).syncRet = lf.syncRet
      ∧ (lf.setLightState s).created = lf.created
      ∧ (lf.setLightState s).unjoined = lf.unjoined
      ∧ (lf.setLightState s).running = lf.running
      ∧ (lf.setLightState s).mState = LightsFlashState.INITIALIZED := by
  unfold LightsFlash.setLightState
  exact ⟨rfl, rfl, rfl, rfl, rfl, rfl, rfl, rfl⟩

/-- C16: after any sequence of steps (none included), `getLights` called with an
empty list returns Ok and yields exactly the nine lights of the constructor, in
the order BACKLIGHT, KEYBOARD, BUTTONS, BATTERY, NOTIFICATIONS, ATTENTION,
BLUETOOTH, WIFI, MICROPHONE, each with id equal to its position and ordinal 0. -/
theorem C16_getLights_fixed_sequence (steps : List Step) :
    (Lights.new.run steps).getLights []
      = ([{ id := 0, type := LightType.BACKLIGHT, ordinal := 0 },
          { id := 1, type := LightType.KEYBOARD, ordinal := 0 },
          { id := 2, type := LightType.BUTTONS, ordinal := 0 },
          { id := 3, type := LightType.BATTERY, ordinal := 0 },
          { id := 4, type := LightType.NOTIFICATIONS, ordinal := 0 },
          { id := 5, type := LightType.ATTENTION, ordinal := 0 },
          { id := 6, type := LightType.BLUETOOTH, ordinal := 0 },
          { id := 7, type := LightType.WIFI, ordinal := 0 },
          { id := 8, type := LightType.MICROPHONE, ordinal := 0 }],
        ScopedAStatus.ok) := by
  unfold Lights.getLights
  rw [(reachable_wf steps).1]
  rfl

/-- C17: after any sequence of steps, a `setLightState` request that is rejected
because its id is outside `[0, 9)` or because its brightness mode is
`LOW_PERSISTENCE` returns `EX_UNSUPPORTED_OPERATION`, performs no event at all (no
device I/O, no lock of a write mutex, no signal, join or `pthread_create`) and
leaves the registry, every light's recorded flash mode and scheduler included,
exactly as it was. -/
theorem C17_rejected_request_changes_nothing (steps : List Step) (env : Env) (id : Int)
    (st : HwLightState)
    (hrej : ¬ (0 ≤ id ∧ id < 9) ∨ st.brightnessMode = BrightnessMode.LOW_PERSISTENCE) :
    (Lights.new.run steps).setLightState env id st
      = (Lights.new.run steps, ScopedAStatus.EX_UNSUPPORTED_OPERATION, []) := by
  have hlen := wf_length _ (reachable_wf steps)
  unfold Lights.setLightState
  rw [hlen]
  by_cases hid : 0 ≤ id ∧ id < ((9 : Nat) : Int)
  · rw [if_neg (not_not.mpr hid)]
    rcases hrej with h | h
    · exact absurd hid h
    · rw [if_pos h]
  · rw [if_pos hid]

/-- Witness of C17: light 4 is flashing and receives a `LOW_PERSISTENCE` request:
nothing happens and the light keeps its recorded mode TIMED and its loop. -/
theorem C17_rejected_request_changes_nothing_witness :
    (¬ ((0 : Int) ≤ 4 ∧ (4 : Int) < 9)
      ∨ BrightnessMode.LOW_PERSISTENCE = BrightnessMode.LOW_PERSISTENCE)
    ∧ ((Lights.new.run [timedRequest 4 0xFFB500 100 100]).setLightState Env.good 4
        { color := 0, flashMode := FlashMode.NONE, flashOnMs := 0, flashOffMs := 0,
          brightnessMode := BrightnessMode.LOW_PERSISTENCE })
      = (Lights.new.run [timedRequest 4 0xFFB500 100 100],
          ScopedAStatus.EX_UNSUPPORTED_OPERATION, [])
    ∧ (Lights.new.run [timedRequest 4 0xFFB500 100 100]).flashModeOf 4
        = some FlashMode.TIMED
    ∧ (Lights.new.run [timedRequest 4 0xFFB500 100 100]).unjoinedThreads 4 = [1] :=
  ⟨Or.inr rfl,
    C17_rejected_request_changes_nothing [timedRequest 4 0xFFB500 100 100] Env.good 4
      { color := 0, flashMode := FlashMode.NONE, flashOnMs := 0, flashOffMs := 0,
        brightnessMode := BrightnessMode.LOW_PERSISTENCE } (Or.inr rfl),
    by decide, by decide⟩

theorem stopIfTimed_noWriteMutexOp (c : HwLightConfig) :
    ∀ e ∈ (stopIfTimed c).2, e.isWriteMutexOp = false := by
  intro e he
  unfold stopIfTimed at he
  split at he
  · split at he
    · rename_i lf hlf
      unfold LightsFlash.stop at he
      split at he
      · simp only [List.mem_cons, List.mem_singleton, List.not_mem_nil, or_false] at he
        rcases he with h | h | h | h <;> rw [h] <;> rfl
      · simp at he
    · simp at he
  · simp at he

theorem fileOp_noWriteMutexOp (e : Event) (h : e.isFileOp = true) :
    e.isWriteMutexOp = false := by
  cases e <;> simp_all [Event.isFileOp, Event.isWriteMutexOp]

theorem locked_events_shape (i : Nat) (c : HwLightConfig) (env : Env) (st : HwLightState) :
    ∃ mid, (setLightStateLocked i c env st).2.2 = mid ++ [Event.unlockWrite i]
      ∧ ∀ e ∈ mid, e.isWriteMutexOp = false := by
  have hs := stopIfTimed_noWriteMutexOp c
  unfold setLightStateLocked
  split
  · refine ⟨Event.callSetBacklightValue st.color :: (setBacklightValue st.color env.dev).2,
      rfl, ?_⟩
    intro e he
    simp only [List.mem_cons] at he
    rcases he with h | h
    · rw [h]; rfl
    · exact fileOp_noWriteMutexOp e (setBacklightValue_events _ _ e h).2.2
  · split
    · exact ⟨[], rfl, by simp⟩
    · rename_i name hn
      simp only
      split
      · refine ⟨(stopIfTimed c).2 ++ Event.callSetColorValue name st.color
            (decide (st.flashMode = FlashMode.HARDWARE))
          :: (setColorValue name st.color (decide (st.flashMode = FlashMode.HARDWARE))
            env.dev).2, by split <;> rfl, ?_⟩
        intro e he
        simp only [List.mem_append, List.mem_cons] at he
        rcases he with h | h | h
        · exact hs e h
        · rw [h]; rfl
        · exact fileOp_noWriteMutexOp e (setColorValue_events _ _ _ _ e h).2.2
      · split
        · refine ⟨(stopIfTimed c).2 ++ (((schedulerOf (stopIfTimed c).1
              env.sync).setLightState st).start env.createRet).2.2, by split <;> rfl, ?_⟩
          intro e he
          simp only [List.mem_append] at he
          rcases he with h | h
          · exact hs e h
          · unfold LightsFlash.start LightsFlash.setLightState at h
            by_cases hcr : env.createRet = 0
            · simp [hcr] at h
              rw [h]; rfl
            · simp [hcr] at h
              rw [h]; rfl
        · exact ⟨(stopIfTimed c).2, rfl, hs⟩

/-- C18: for every registry, every input and every outcome of the device
operations and of thread creation, a `setLightState` call either takes no write
mutex at all (its events are empty: the request was rejected before the lock), or
its events begin with the lock of the write mutex of the addressed light, end
with the unlock of that same mutex, and in between contain no lock or unlock of
the write mutex of any light: the mutex taken is released exactly once, as the
last event before returning, never released without being held, and no write
mutex of another light is touched. -/
theorem C18_write_lock_released_exactly_once (s : Lights) (env : Env) (id : Int)
    (st : HwLightState) :
    (s.setLightState env id st).2.2 = []
      ∨ ∃ mid, (s.setLightState env id st).2.2
            = Event.lockWrite id.toNat :: mid ++ [Event.unlockWrite id.toNat]
          ∧ (∀ e ∈ mid, e.isWriteMutexOp = false)
          ∧ (s.setLightState env id st).2.2.filter Event.isWriteMutexOp
            = [Event.lockWrite id.toNat, Event.unlockWrite id.toNat] := by
  unfold Lights.setLightState
  split
  · exact Or.inl rfl
  · split
    · exact Or.inl rfl
    · split
      · exact Or.inl rfl
      · rename_i config hcfg
        obtain ⟨mid, h1, h2⟩ := locked_events_shape id.toNat config env st
        refine Or.inr ⟨mid, ?_, h2, ?_⟩
        · simp only [h1, List.cons_append]
        · simp only [h1, List.filter_cons, List.filter_append, List.filter_nil,
            filter_nil_of_forall h2, Event.isWriteMutexOp, if_true, List.nil_append]

theorem wrap64_of_range (x : Int) (h0 : -2 ^ 63 ≤ x) (h1 : x ≤ LLONG_MAX) : wrap64 x = x := by
  unfold LLONG_MAX at h1
  unfold wrap64
  omega

theorem setTimestamp_of_nonneg (x : Int) (h : 0 ≤ x) :
    (setTimestamp x).1 * 1000000000 + (setTimestamp x).2 = x
      ∧ 0 ≤ (setTimestamp x).2 ∧ (setTimestamp x).2 < 1000000000
      ∧ 0 ≤ (setTimestamp x).1 ∧ (setTimestamp x).1 ≤ x := by
  unfold setTimestamp ONE_S_IN_NS
  rw [Int.tdiv_eq_ediv h (by decide), Int.tmod_eq_emod h (by decide)]
  simp only
  omega

theorem wakeTime_of_fit (t p : Int) (ht : 0 ≤ t) (hp : 0 ≤ p) (hfit : t + p ≤ LLONG_MAX) :
    wakeTime t p = some (setTimestamp (t + p)) := by
  have h1 : wrap64 (LLONG_MAX - p) = LLONG_MAX - p :=
    wrap64_of_range _ (by unfold LLONG_MAX at *; omega) (by omega)
  have h2 : wrap64 (t + p) = t + p := wrap64_of_range _ (by omega) hfit
  unfold wakeTime
  rw [h1, h2, if_neg (by omega)]

theorem wakeTime_of_overflow (t p : Int) (hp : 0 ≤ p) (hp1 : p ≤ LLONG_MAX)
    (hov : t + p > LLONG_MAX) : wakeTime t p = none := by
  have h1 : wrap64 (LLONG_MAX - p) = LLONG_MAX - p :=
    wrap64_of_range _ (by unfold LLONG_MAX at *; omega) (by omega)
  unfold wakeTime
  rw [h1, if_pos (by omega)]

theorem setColorValue_ret_zero (led : String) (color : Int) (trigger : Bool)
    (dv : DeviceResult) (h1 : dv.openBrightness = true) (h2 : dv.writeBrightness = true) :
    (setColorValue led color trigger dv).1 = 0 := by
  unfold setColorValue
  simp [h1, h2]

theorem nextPhase_period (st : HwLightState) (reqColor color : Int)
    (hon : 0 ≤ st.flashOnMs * ONE_MS_IN_NS ∧ st.flashOnMs * ONE_MS_IN_NS ≤ LLONG_MAX)
    (hoff : 0 ≤ st.flashOffMs * ONE_MS_IN_NS ∧ st.flashOffMs * ONE_MS_IN_NS ≤ LLONG_MAX) :
    (nextPhase st reqColor color).2
        = (if color ≠ 0 then st.flashOnMs else st.flashOffMs) * ONE_MS_IN_NS
      ∧ 0 ≤ (nextPhase st reqColor color).2
      ∧ (nextPhase st reqColor color).2 ≤ LLONG_MAX
      ∧ (nextPhase st reqColor color).1 = (if color ≠ 0 then 0 else reqColor) := by
  unfold nextPhase
  by_cases hc : color ≠ 0
  · rw [if_pos hc, if_pos hc, if_pos hc, wrap64_of_range _ (by omega) hon.2]
    exact ⟨rfl, hon.1, hon.2, rfl⟩
  · rw [if_neg hc, if_neg hc, if_neg hc, wrap64_of_range _ (by omega) hoff.2]
    exact ⟨rfl, hoff.1, hoff.2, rfl⟩

/-- One iteration of the flash loop without incident. -/
theorem flashLoop_quiet_step (name : String) (st : HwLightState) (reqColor color : Int)
    (e : LoopEnv) (rest : List LoopEnv) (hq : e.quiet (nextPhase st reqColor color).2)
    (hp : 0 ≤ (nextPhase st reqColor color).2) :
    flashLoop name st reqColor color FlashMode.TIMED (e :: rest)
      = { exit := (flashLoop name st reqColor (nextPhase st reqColor color).1
            FlashMode.TIMED rest).exit,
          iterations :=
            iterationEvents name color (nextPhase st reqColor color).2 e
              :: (flashLoop name st reqColor (nextPhase st reqColor color).1
                    FlashMode.TIMED rest).iterations } := by
  obtain ⟨q1, q2, q4, q5, q7, q8⟩ := hq
  have hw := setColorValue_ret_zero name color false e.dev q1 q2
  have q3 : e.clock.isSome = true := by
    cases hcl : e.clock with
    | none => rw [hcl] at q4; exact absurd q4 (by decide)
    | some v => rfl
  have hwake := wakeTime_of_fit _ _ q4 hp q5
  have hwait : ¬ (e.waitRet ≠ 0 ∧ e.waitRet ≠ ETIMEDOUT) := by
    rcases q7 with h | h <;> simp [h]
  rw [flashLoop]
  simp only [ne_eq, not_true_eq_false, if_false, hw, hwake, q3, q8,
    Bool.false_eq_true, hwait, not_lt.mpr q4]
  rfl

/-- An iteration after which the flash loop has not returned was one without
incident, and the loop has not returned from the following ones either. -/
theorem flashLoop_running_step (name : String) (st : HwLightState) (reqColor color : Int)
    (e : LoopEnv) (rest : List LoopEnv)
    (hp : 0 ≤ (nextPhase st reqColor color).2 ∧ (nextPhase st reqColor color).2 ≤ LLONG_MAX)
    (h : (flashLoop name st reqColor color FlashMode.TIMED (e :: rest)).exit = none) :
    e.quiet (nextPhase st reqColor color).2
      ∧ (flashLoop name st reqColor (nextPhase st reqColor color).1
          FlashMode.TIMED rest).exit = none := by
  rw [flashLoop] at h
  simp only [ne_eq, not_true_eq_false, if_false] at h
  by_cases hw : (setColorValue name color false e.dev).1 = 0
  · have hdev : e.dev.openBrightness = true ∧ e.dev.writeBrightness = true := by
      unfold setColorValue at hw
      cases hb : e.dev.openBrightness <;> cases hwb : e.dev.writeBrightness <;>
        simp [hb, hwb] at hw ⊢
    by_cases ht : getTimestampMonotonic e.clock < 0
    · simp [hw, ht] at h
    · have ht0 : 0 ≤ getTimestampMonotonic e.clock := not_lt.mp ht
      by_cases hfit : getTimestampMonotonic e.clock + (nextPhase st reqColor color).2
          ≤ LLONG_MAX
      · have hwake := wakeTime_of_fit _ _ ht0 hp.1 hfit
        by_cases hwait : e.waitRet ≠ 0 ∧ e.waitRet ≠ ETIMEDOUT
        · simp [hw, ht, hwake, hwait] at h
        · have hwr : e.waitRet = 0 ∨ e.waitRet = ETIMEDOUT := by
            by_cases h0 : e.waitRet = 0
            · exact Or.inl h0
            · exact Or.inr (not_not.mp (fun h1 => hwait ⟨h0, h1⟩))
          cases hs : e.stopped with
          | true =>
            simp only [hw, ht, hwake, hwait, hs, if_true, if_false, not_true_eq_false] at h
            rw [flashLoop.eq_def] at h
            simp at h
          | false =>
            simp only [hw, ht, hwake, hwait, hs, if_false, not_true_eq_false,
              Bool.false_eq_true] at h
            exact ⟨⟨hdev.1, hdev.2, ht0, hfit, hwr, hs⟩, h⟩
      · have hwake := wakeTime_of_overflow _ _ hp.1 hp.2 (not_le.mp hfit)
        simp [hw, ht, hwake] at h
  · simp [hw] at h

/-- The flash loop has not returned after a run of iterations exactly when the
run was without incident. -/
theorem flashLoop_running_iff (name : String) (st : HwLightState) (reqColor : Int)
    (hon : 0 ≤ st.flashOnMs * ONE_MS_IN_NS ∧ st.flashOnMs * ONE_MS_IN_NS ≤ LLONG_MAX)
    (hoff : 0 ≤ st.flashOffMs * ONE_MS_IN_NS ∧ st.flashOffMs * ONE_MS_IN_NS ≤ LLONG_MAX) :
    ∀ (envs : List LoopEnv) (color : Int),
      (flashLoop name st reqColor color FlashMode.TIMED envs).exit = none
        ↔ quietRun st reqColor color envs := by
  intro envs
  induction envs with
  | nil =>
    intro color
    rw [flashLoop]
    simp [quietRun]
  | cons x rest ih =>
    intro color
    obtain ⟨-, p1, p2, -⟩ := nextPhase_period st reqColor color hon hoff
    constructor
    · intro h
      obtain ⟨g1, g2⟩ := flashLoop_running_step name st reqColor color x rest ⟨p1, p2⟩ h
      exact ⟨g1, (ih _).mp g2⟩
    · intro h
      rw [flashLoop_quiet_step name st reqColor color x rest h.1 p1]
      exact (ih _).mpr h.2

/-- The iterations of a run without incident, started at iteration `j` of the
alternation, whatever follows the run. -/
theorem flashLoop_quiet_from (name : String) (st : HwLightState) (reqColor : Int)
    (post : List LoopEnv)
    (hon : 0 ≤ st.flashOnMs * ONE_MS_IN_NS ∧ st.flashOnMs * ONE_MS_IN_NS ≤ LLONG_MAX)
    (hoff : 0 ≤ st.flashOffMs * ONE_MS_IN_NS ∧ st.flashOffMs * ONE_MS_IN_NS ≤ LLONG_MAX) :
    ∀ (pre : List LoopEnv) (j : Nat),
      quietRun st reqColor (if j % 2 = 0 then reqColor else 0) pre →
      ∀ (k : Nat) (e : LoopEnv), pre[k]? = some e →
        (flashLoop name st reqColor (if j % 2 = 0 then reqColor else 0)
            FlashMode.TIMED (pre ++ post)).iterations[k]?
          = some (iterationEvents name (if (j + k) % 2 = 0 then reqColor else 0)
              ((if reqColor ≠ 0 ∧ (j + k) % 2 = 0 then st.flashOnMs else st.flashOffMs)
                * ONE_MS_IN_NS) e) := by
  intro pre
  induction pre with
  | nil =>
    intro j _ k e hk
    simp at hk
  | cons x rest ih =>
    intro j hq
    obtain ⟨p0, p1, -, p3⟩ := nextPhase_period st reqColor
      (if j % 2 = 0 then reqColor else 0) hon hoff
    have hnext : (nextPhase st reqColor (if j % 2 = 0 then reqColor else 0)).1
        = (if (j + 1) % 2 = 0 then reqColor else 0) := by
      rw [p3]
      by_cases hj : j % 2 = 0
      · have hj1 : ¬ (j + 1) % 2 = 0 := by omega
        by_cases hr : reqColor = 0 <;> simp [hj, hj1, hr]
      · have hj1 : (j + 1) % 2 = 0 := by omega
        simp [hj, hj1]
    have hrest : quietRun st reqColor (if (j + 1) % 2 = 0 then reqColor else 0) rest := by
      rw [← hnext]
      exact hq.2
    rw [List.cons_append, flashLoop_quiet_step name st reqColor _ x (rest ++ post) hq.1 p1,
      hnext, p0]
    intro k e hk
    cases k with
    | zero =>
      simp only [List.getElem?_cons_zero, Option.some.injEq] at hk
      subst hk
      simp only [List.getElem?_cons_zero, Nat.add_zero, Option.some.injEq]
      by_cases hj : j % 2 = 0
      · by_cases hr : reqColor = 0 <;> simp [hj, hr]
      · simp [hj]
    | succ n =>
      simp only [List.getElem?_cons_succ] at hk ⊢
      have := ih (j + 1) hrest n e hk
      rw [this]
      have hidx : j + 1 + n = j + (n + 1) := by omega
      rw [hidx]

/-- C24 (as stated, refuted): with the requested colour 0, `flashOnMs = 100` and
`flashOffMs = 200`, iteration 0 of the flash loop (an even iteration, at clock time
5 s) waits until 5.2 s, that is `flashOffMs`, not `flashOnMs`. -/
theorem C24_colour_zero_waits_off_period :
    checkFlashParams
        { color := 0, flashMode := FlashMode.TIMED, flashOnMs := 100, flashOffMs := 200,
          brightnessMode := BrightnessMode.USER } = 0
      ∧ (flashLoop LED_BLUE_NAME
          { color := 0, flashMode := FlashMode.TIMED, flashOnMs := 100, flashOffMs := 200,
            brightnessMode := BrightnessMode.USER }
          0 0 FlashMode.TIMED [LoopEnv.good 5]).iterations[0]?
        = some (iterationEvents LED_BLUE_NAME 0 (200 * ONE_MS_IN_NS) (LoopEnv.good 5))
      ∧ (iterationEvents LED_BLUE_NAME 0 (200 * ONE_MS_IN_NS) (LoopEnv.good 5)).getLast?
        = some (Event.condTimedwait 5 200000000 ETIMEDOUT)
      ∧ iterationEvents LED_BLUE_NAME 0 (200 * ONE_MS_IN_NS) (LoopEnv.good 5)
        ≠ iterationEvents LED_BLUE_NAME 0 (100 * ONE_MS_IN_NS) (LoopEnv.good 5) := by
  decide

/-- C24 (amended): for a started scheduler of a LED-backed light whose stored state
has flash mode TIMED and validated durations, and for every run of iterations
without incident (in each iteration the brightness write succeeds, the clock gives
a non-negative timestamp, the one wake time computed in that iteration, for the
period of the colour just written, does not overflow, the wait returns 0 or
`ETIMEDOUT`, the flash mode stays TIMED), `flashRoutine` locks the mutex and is
still looping after the run, and, whatever happens after the run, its k-th
iteration writes the requested colour when k is even and colour 0 when k is odd,
then waits `flashOnMs` milliseconds after an even iteration if the requested colour
is not 0, and `flashOffMs` milliseconds after an odd iteration and, if the
requested colour is 0, after an even one too. The runs without incident are all
the runs after which the loop has not returned, and no others. -/
theorem C24_iterations_alternate (lf : LightsFlash) (name : String)
    (pre post : List LoopEnv)
    (hstate : lf.mState = LightsFlashState.STARTED)
    (hled : getLedName lf.mHwLight.type = some name)
    (hmode : lf.mHwLightState.flashMode = FlashMode.TIMED)
    (hvalid : checkFlashParams lf.mHwLightState = 0)
    (hquiet : quietRun lf.mHwLightState lf.mHwLightState.color lf.mHwLightState.color pre) :
    lf.flashRoutine pre
        = (none, Event.lockFlash :: (flashLoop name lf.mHwLightState lf.mHwLightState.color
            lf.mHwLightState.color FlashMode.TIMED pre).iterations.flatten)
      ∧ (∀ (k : Nat) (e : LoopEnv), pre[k]? = some e →
          (flashLoop name lf.mHwLightState lf.mHwLightState.color
              lf.mHwLightState.color FlashMode.TIMED (pre ++ post)).iterations[k]?
            = some (iterationEvents name (if k % 2 = 0 then lf.mHwLightState.color else 0)
                ((if lf.mHwLightState.color ≠ 0 ∧ k % 2 = 0 then lf.mHwLightState.flashOnMs
                  else lf.mHwLightState.flashOffMs) * ONE_MS_IN_NS) e))
      ∧ (∀ (envs : List LoopEnv),
          (flashLoop name lf.mHwLightState lf.mHwLightState.color
              lf.mHwLightState.color FlashMode.TIMED envs).exit = none
            ↔ quietRun lf.mHwLightState lf.mHwLightState.color lf.mHwLightState.color
                envs) := by
  obtain ⟨v1, v2, -, v4, v5⟩ := (checkFlashParams_eq_zero_iff lf.mHwLightState).mp hvalid
  have hon : 0 ≤ lf.mHwLightState.flashOnMs * ONE_MS_IN_NS
      ∧ lf.mHwLightState.flashOnMs * ONE_MS_IN_NS ≤ LLONG_MAX := by
    unfold ONE_MS_IN_NS; exact ⟨by omega, v4⟩
  have hoff : 0 ≤ lf.mHwLightState.flashOffMs * ONE_MS_IN_NS
      ∧ lf.mHwLightState.flashOffMs * ONE_MS_IN_NS ≤ LLONG_MAX := by
    unfold ONE_MS_IN_NS; exact ⟨by omega, v5⟩
  have hiff := flashLoop_running_iff name lf.mHwLightState lf.mHwLightState.color hon hoff
  have h := flashLoop_quiet_from name lf.mHwLightState lf.mHwLightState.color post hon hoff
    pre 0 hquiet
  simp only [Nat.zero_mod, if_true, Nat.zero_add] at h
  refine ⟨?_, h, fun envs => hiff envs _⟩
  have hex := (hiff pre lf.mHwLightState.color).mpr hquiet
  unfold LightsFlash.flashRoutine
  rw [if_neg (not_not.mpr hstate)]
  simp only [hled, hmode, hex]

/-- Witness of C24 (amended): the started scheduler of light 4 with colour
0xFFB500, 2000 ms on and 2000 ms off, over three iterations at 5 s, 7 s and 9 s
followed by one in which the write fails; and the one with 1 ms on and
2147483647 ms off in an iteration at 9223372036.853775807 s, where the wake time
after the on period is `LLONG_MAX` and the one after the off period would
overflow. -/
theorem C24_iterations_alternate_witness :
    (((startedScheduler.setLightState
          { onHeartbeat with color := 0xFFB500 }).start 0).1.mState
        = LightsFlashState.STARTED
      ∧ quietRun { onHeartbeat with color := 0xFFB500 } 0xFFB500 0xFFB500
          [LoopEnv.good 5, LoopEnv.good 7, LoopEnv.good 9])
    ∧ (flashLoop LED_BLUE_NAME { onHeartbeat with color := 0xFFB500 } 0xFFB500 0xFFB500
          FlashMode.TIMED
          ([LoopEnv.good 5, LoopEnv.good 7, LoopEnv.good 9]
            ++ [{ LoopEnv.good 11 with
                  dev := { DeviceResult.good with writeBrightness := false } }])).iterations[1]?
        = some (iterationEvents LED_BLUE_NAME 0 (2000 * ONE_MS_IN_NS) (LoopEnv.good 7))
    ∧ (checkFlashParams
          { color := 0xFFB500, flashMode := FlashMode.TIMED, flashOnMs := 1,
            flashOffMs := 2147483647, brightnessMode := BrightnessMode.USER } = 0
      ∧ getTimestampMonotonic (some (9223372036, 853775807)) + 2147483647 * ONE_MS_IN_NS
          > LLONG_MAX)
    ∧ (flashLoop LED_BLUE_NAME
          { color := 0xFFB500, flashMode := FlashMode.TIMED, flashOnMs := 1,
            flashOffMs := 2147483647, brightnessMode := BrightnessMode.USER }
          0xFFB500 0xFFB500 FlashMode.TIMED
          ([{ LoopEnv.good 0 with clock := some (9223372036, 853775807) }]
            ++ [])).iterations[0]?
        = some (iterationEvents LED_BLUE_NAME 0xFFB500 (1 * ONE_MS_IN_NS)
            { LoopEnv.good 0 with clock := some (9223372036, 853775807) }) := by
  have hq : quietRun { onHeartbeat with color := 0xFFB500 } 0xFFB500 0xFFB500
      [LoopEnv.good 5, LoopEnv.good 7, LoopEnv.good 9] := by
    refine ⟨?_, ?_, ?_, trivial⟩ <;> unfold LoopEnv.quiet <;> decide
  have hq1 : quietRun
      { color := 0xFFB500, flashMode := FlashMode.TIMED, flashOnMs := 1,
        flashOffMs := 2147483647, brightnessMode := BrightnessMode.USER }
      0xFFB500 0xFFB500
      [{ LoopEnv.good 0 with clock := some (9223372036, 853775807) }] := by
    refine ⟨?_, trivial⟩
    unfold LoopEnv.quiet
    decide
  exact ⟨⟨by decide, hq⟩,
    (C24_iterations_alternate
      ((startedScheduler.setLightState { onHeartbeat with color := 0xFFB500 }).start 0).1
      LED_BLUE_NAME [LoopEnv.good 5, LoopEnv.good 7, LoopEnv.good 9]
      [{ LoopEnv.good 11 with dev := { DeviceResult.good with writeBrightness := false } }]
      (by decide) (by decide) (by decide) (by decide) hq).2.1 1 (LoopEnv.good 7) (by decide),
    ⟨by decide, by decide⟩,
    (C24_iterations_alternate
      ((startedScheduler.setLightState
        { color := 0xFFB500, flashMode := FlashMode.TIMED, flashOnMs := 1,
          flashOffMs := 2147483647, brightnessMode := BrightnessMode.USER }).start 0).1
      LED_BLUE_NAME [{ LoopEnv.good 0 with clock := some (9223372036, 853775807) }] []
      (by decide) (by decide) (by decide) (by decide) hq1).2.1 0
      { LoopEnv.good 0 with clock := some (9223372036, 853775807) } (by decide)⟩

/-- C25: for every timestamp `t` and period `p` (nanoseconds) with `0 <= t, p <=
2^63 - 1`: the subtraction `LLONG_MAX - p` of the overflow check does not overflow;
if `t + p` exceeds `2^63 - 1` the check aborts the iteration, and in the loop the
iteration ends with the clock read, without a `pthread_cond_timedwait`; otherwise
the sum does not overflow and the timespec handed to the wait satisfies
`tv_sec * 10^9 + tv_nsec = t + p` with `0 <= tv_nsec < 10^9` and
`0 <= tv_sec <= t + p` (`time_t` taken as 64 bits wide). -/
theorem C25_wake_time (t p : Int) (ht : 0 ≤ t ∧ t ≤ LLONG_MAX) (hp : 0 ≤ p ∧ p ≤ LLONG_MAX) :
    wrap64 (LLONG_MAX - p) = LLONG_MAX - p
      ∧ (t + p > LLONG_MAX → wakeTime t p = none)
      ∧ (t + p > LLONG_MAX →
          ∀ (name : String) (st : HwLightState) (reqColor color : Int) (e : LoopEnv)
            (rest : List LoopEnv),
            e.dev.openBrightness = true → e.dev.writeBrightness = true →
            getTimestampMonotonic e.clock = t → (nextPhase st reqColor color).2 = p →
            flashLoop name st reqColor color FlashMode.TIMED (e :: rest)
              = { exit := some FlashExit.overflow,
                  iterations := [Event.callSetColorValue name color false
                    :: (setColorValue name color false e.dev).2
                    ++ [Event.clockGettime e.clock.isSome]] })
      ∧ (t + p ≤ LLONG_MAX →
          wrap64 (t + p) = t + p
            ∧ wakeTime t p = some (setTimestamp (t + p))
            ∧ (setTimestamp (t + p)).1 * 1000000000 + (setTimestamp (t + p)).2 = t + p
            ∧ 0 ≤ (setTimestamp (t + p)).2 ∧ (setTimestamp (t + p)).2 < 1000000000
            ∧ 0 ≤ (setTimestamp (t + p)).1 ∧ (setTimestamp (t + p)).1 ≤ t + p) := by
  have h1 : wrap64 (LLONG_MAX - p) = LLONG_MAX - p :=
    wrap64_of_range _ (by unfold LLONG_MAX at *; omega) (by omega)
  refine ⟨h1, ?_, ?_, ?_⟩
  · intro hov
    exact wakeTime_of_overflow t p hp.1 hp.2 hov
  · intro hov name st reqColor color e rest q1 q2 hclock hper
    have hw := setColorValue_ret_zero name color false e.dev q1 q2
    have hwake := wakeTime_of_overflow t p hp.1 hp.2 hov
    rw [flashLoop]
    simp only [ne_eq, not_true_eq_false, if_false, hw, hclock, hper, hwake,
      not_lt.mpr ht.1]
  · intro hfit
    obtain ⟨s1, s2, s3, s4, s5⟩ := setTimestamp_of_nonneg (t + p) (by omega)
    exact ⟨wrap64_of_range _ (by omega) hfit, wakeTime_of_fit t p ht.1 hp.1 hfit,
      s1, s2, s3, s4, s5⟩

/-- Witness of C25: a clock at 5 s and a period of 2 s; and a clock at
`2^63 - 1` ns with the same period, which overflows. -/
theorem C25_wake_time_witness :
    ((0 : Int) ≤ 5000000000 ∧ (5000000000 : Int) ≤ LLONG_MAX)
    ∧ ((0 : Int) ≤ 2000000000 ∧ (2000000000 : Int) ≤ LLONG_MAX)
    ∧ wakeTime 5000000000 2000000000 = some (7, 0)
    ∧ wakeTime LLONG_MAX 2000000000 = none :=
  ⟨by decide, by decide,
    ((C25_wake_time 5000000000 2000000000 (by decide) (by decide)).2.2.2
      (by decide)).2.1,
    (C25_wake_time LLONG_MAX 2000000000 (by decide) (by decide)).2.1 (by decide)⟩

theorem fileOp_noFlashMutexOp (e : Event) (h : e.isFileOp = true) :
    e.isFlashMutexOp = false := by
  cases e <;> simp_all [Event.isFileOp, Event.isFlashMutexOp]

theorem writeEvents_noFlashMutexOp (name : String) (color : Int) (dv : DeviceResult) :
    ∀ e ∈ Event.callSetColorValue name color false :: (setColorValue name color false dv).2,
      e.isFlashMutexOp = false := by
  intro e he
  simp only [List.mem_cons] at he
  rcases he with h | h
  · rw [h]; rfl
  · exact fileOp_noFlashMutexOp e (setColorValue_events _ _ _ _ e h).2.2

/-- No iteration of the flash loop locks or unlocks the mutex itself. -/
theorem flashLoop_noFlashMutexOp (name : String) (st : HwLightState) (reqColor : Int) :
    ∀ (envs : List LoopEnv) (color : Int) (mode : FlashMode),
      ∀ e ∈ (flashLoop name st reqColor color mode envs).iterations.flatten,
        e.isFlashMutexOp = false := by
  intro envs
  induction envs with
  | nil =>
    intro color mode e he
    rw [flashLoop] at he
    split at he <;> simp at he
  | cons x rest ih =>
    intro color mode e he
    have hw := writeEvents_noFlashMutexOp name color x.dev
    rw [flashLoop] at he
    split at he
    · simp at he
    · simp only at he
      split at he
      · simp only [List.flatten_cons, List.flatten_nil, List.append_nil] at he
        exact hw e he
      · split at he
        · simp only [List.flatten_cons, List.flatten_nil, List.append_nil,
            List.mem_append, List.mem_singleton] at he
          rcases he with h | h
          · exact hw e h
          · rw [h]; rfl
        · split at he
          · simp only [List.flatten_cons, List.flatten_nil, List.append_nil,
              List.mem_append, List.mem_singleton] at he
            rcases he with h | h
            · exact hw e h
            · rw [h]; rfl
          · split at he
            · simp only [List.flatten_cons, List.flatten_nil, List.append_nil,
                List.mem_append, List.mem_cons, List.not_mem_nil, or_false] at he
              rcases he with h | h | h
              · exact hw e (List.mem_cons.mpr h)
              · rw [h]; rfl
              · rw [h]; rfl
            · simp only [List.flatten_cons, List.mem_append, List.mem_cons,
                List.not_mem_nil, or_false] at he
              rcases he with (h | h | h) | h
              · exact hw e (List.mem_cons.mpr h)
              · rw [h]; rfl
              · rw [h]; rfl
              · exact ih _ _ e h

/-- Once `stop()` has stored the flash mode NONE during a wait, the loop ends. -/
theorem flashLoop_ends_when_stopped (name : String) (st : HwLightState) (reqColor : Int) :
    ∀ (envs : List LoopEnv) (color : Int) (mode : FlashMode),
      (∃ e ∈ envs, e.stopped = true) →
      (flashLoop name st reqColor color mode envs).exit ≠ none := by
  intro envs
  induction envs with
  | nil =>
    intro color mode h
    obtain ⟨e, he, -⟩ := h
    simp at he
  | cons x rest ih =>
    intro color mode h
    rw [flashLoop]
    split
    · simp
    · simp only
      split
      · simp
      · split
        · simp
        · split
          · simp
          · split
            · simp
            · simp only
              by_cases hx : x.stopped = true
              · rw [if_pos hx, flashLoop.eq_def]
                simp
              · obtain ⟨e, he, hstop⟩ := h
                simp only [List.mem_cons] at he
                rcases he with h1 | h1
                · rw [h1] at hstop; exact absurd hstop hx
                · exact ih _ _ ⟨e, h1, hstop⟩

/-- Every way of returning from `flashRoutine` is taken by some run. -/
theorem flashRoutine_exits_reachable (x : FlashExit) :
    ∃ (lf : LightsFlash) (envs : List LoopEnv), (lf.flashRoutine envs).1 = some x := by
  cases x
  · exact ⟨LightsFlash.new { id := 4, type := LightType.NOTIFICATIONS, ordinal := 0 }
      Env.good.sync, [], by decide⟩
  · exact ⟨(((LightsFlash.new { id := 1, type := LightType.KEYBOARD, ordinal := 0 }
      Env.good.sync).setLightState onHeartbeat).start 0).1, [], by decide⟩
  · exact ⟨startedScheduler.stop.1, [LoopEnv.good 5], by decide⟩
  · exact ⟨startedScheduler,
      [{ LoopEnv.good 5 with dev := { DeviceResult.good with openBrightness := false } }],
      by decide⟩
  · exact ⟨startedScheduler, [{ LoopEnv.good 5 with clock := none }], by decide⟩
  · exact ⟨startedScheduler,
      [{ LoopEnv.good 5 with clock := some (9223372036, 854775807) }], by decide⟩
  · exact ⟨startedScheduler, [{ LoopEnv.good 5 with waitRet := 22 }], by decide⟩

/-- C26: for every scheduler and every outcome of the device writes, clock reads and
waits of its loop, `flashRoutine` returns without having touched the mutex when the
phase is wrong or the light type has no led (its events are empty); on every other
return (flash mode no longer TIMED, write failure, clock failure, wake-time
overflow, wait error) its events are the lock of the mutex, then events that
neither lock nor unlock it, then the unlock as the last event: the mutex is
released exactly once, after having been locked, and is not held at the return.
While it has not returned it has locked and not unlocked. It does return once
`stop()` has stored the flash mode NONE, and each of the seven ways of returning
occurs. -/
theorem C26_flash_mutex_released_on_every_exit (lf : LightsFlash) (envs : List LoopEnv) :
    (((lf.flashRoutine envs).1 = some FlashExit.badState
          ∨ (lf.flashRoutine envs).1 = some FlashExit.noLed) →
        (lf.flashRoutine envs).2 = [])
      ∧ (∀ x, (lf.flashRoutine envs).1 = some x →
          x ≠ FlashExit.badState → x ≠ FlashExit.noLed →
          ∃ mid, (lf.flashRoutine envs).2 = Event.lockFlash :: mid ++ [Event.unlockFlash]
            ∧ (∀ e ∈ mid, e.isFlashMutexOp = false)
            ∧ (lf.flashRoutine envs).2.filter Event.isFlashMutexOp
                = [Event.lockFlash, Event.unlockFlash])
      ∧ ((lf.flashRoutine envs).1 = none →
          ∃ mid, (lf.flashRoutine envs).2 = Event.lockFlash :: mid
            ∧ (∀ e ∈ mid, e.isFlashMutexOp = false))
      ∧ (lf.mState = LightsFlashState.STARTED → (∃ e ∈ envs, e.stopped = true) →
          (lf.flashRoutine envs).1 ≠ none)
      ∧ (∀ x : FlashExit, ∃ (lf0 : LightsFlash) (envs0 : List LoopEnv),
          (lf0.flashRoutine envs0).1 = some x) := by
  refine ⟨?_, ?_, ?_, ?_, flashRoutine_exits_reachable⟩
  · unfold LightsFlash.flashRoutine
    split
    · intro _; rfl
    · split
      · intro _; rfl
      · rename_i name hn
        simp only
        have hne : ∀ envs0 color mode,
            (flashLoop name lf.mHwLightState lf.mHwLightState.color color mode envs0).exit
              ≠ some FlashExit.badState
            ∧ (flashLoop name lf.mHwLightState lf.mHwLightState.color color mode envs0).exit
              ≠ some FlashExit.noLed := by
          intro envs0
          induction envs0 with
          | nil =>
            intro color mode
            rw [flashLoop]
            split <;> simp
          | cons y rest ih =>
            intro color mode
            rw [flashLoop]
            split
            · simp
            · simp only
              split
              · simp
              · split
                · simp
                · split
                  · simp
                  · split
                    · simp
                    · exact ih _ _
        obtain ⟨n1, n2⟩ := hne envs lf.mHwLightState.color lf.mHwLightState.flashMode
        split
        · intro h; rcases h with h | h <;> simp at h
        · rename_i x hx
          intro h
          rcases h with h | h
          · simp only [Option.some.injEq] at h
            rw [h] at hx
            exact absurd hx n1
          · simp only [Option.some.injEq] at h
            rw [h] at hx
            exact absurd hx n2
  · intro x hx hb hl
    unfold LightsFlash.flashRoutine at hx ⊢
    split at hx
    · simp only [Option.some.injEq] at hx
      exact absurd hx.symm hb
    · rename_i hst
      rw [if_neg hst]
      split at hx
      · simp only [Option.some.injEq] at hx
        exact absurd hx.symm hl
      · rename_i name hn
        simp only [hn]
        simp only at hx
        have hmid := flashLoop_noFlashMutexOp name lf.mHwLightState lf.mHwLightState.color
          envs lf.mHwLightState.color lf.mHwLightState.flashMode
        split at hx
        · simp at hx
        · rename_i y hy
          simp only [hy]
          refine ⟨_, rfl, hmid, ?_⟩
          simp only [List.filter_cons, List.filter_append, List.filter_nil,
            filter_nil_of_forall hmid, Event.isFlashMutexOp, if_true, List.nil_append]
          rfl
  · intro hnone
    unfold LightsFlash.flashRoutine at hnone ⊢
    split at hnone
    · simp at hnone
    · rename_i hst
      rw [if_neg hst]
      split at hnone
      · simp at hnone
      · rename_i name hn
        simp only [hn]
        simp only at hnone
        have hmid := flashLoop_noFlashMutexOp name lf.mHwLightState lf.mHwLightState.color
          envs lf.mHwLightState.color lf.mHwLightState.flashMode
        split at hnone
        · rename_i hy
          simp only [hy]
          exact ⟨_, rfl, hmid⟩
        · simp at hnone
  · intro hst hstop
    unfold LightsFlash.flashRoutine
    rw [if_neg (not_not.mpr hst)]
    split
    · simp
    · rename_i name hn
      simp only
      have := flashLoop_ends_when_stopped name lf.mHwLightState lf.mHwLightState.color
        envs lf.mHwLightState.color lf.mHwLightState.flashMode hstop
      split
      · rename_i hy
        exact absurd hy this
      · simp

/-- Witness of C26: the started scheduler of light 4 whose first wait fails with
error 22 returns through the wait-error path with the mutex locked once and
unlocked once. -/
theorem C26_flash_mutex_released_on_every_exit_witness :
    ((startedScheduler.flashRoutine [{ LoopEnv.good 5 with waitRet := 22 }]).1
        = some FlashExit.waitFailed
      ∧ FlashExit.waitFailed ≠ FlashExit.badState
      ∧ FlashExit.waitFailed ≠ FlashExit.noLed)
    ∧ ∃ mid, (startedScheduler.flashRoutine [{ LoopEnv.good 5 with waitRet := 22 }]).2
          = Event.lockFlash :: mid ++ [Event.unlockFlash]
        ∧ (∀ e ∈ mid, e.isFlashMutexOp = false)
        ∧ (startedScheduler.flashRoutine
              [{ LoopEnv.good 5 with waitRet := 22 }]).2.filter Event.isFlashMutexOp
            = [Event.lockFlash, Event.unlockFlash] :=
  ⟨⟨by decide, by decide, by decide⟩,
    (C26_flash_mutex_released_on_every_exit startedScheduler
      [{ LoopEnv.good 5 with waitRet := 22 }]).2.1 FlashExit.waitFailed
      (by decide) (by decide) (by decide)⟩

/-- C21 (the code at the failing input): the first timed-flash request to light 4
constructs its scheduler while `pthread_cond_init` returns 12, so that
`initLightSyncResources` returns 12; the request nevertheless returns Ok with the
scheduler started and a loop spawned on it, and a later timed-flash request spawns
a loop on the same scheduler again. The same holds when `pthread_mutex_init`
fails. -/
theorem C21_sync_failure_is_swallowed :
    initLightSyncResources
        { condattrInit := 0, condattrSetclock := 0, condInit := 12, mutexInit := 0 } = 12
      ∧ (Lights.new.setLightState
          { Env.good with
            sync := { condattrInit := 0, condattrSetclock := 0, condInit := 12,
                      mutexInit := 0 } } 4 onHeartbeat).2.1 = ScopedAStatus.ok
      ∧ ((Lights.new.setLightState
          { Env.good with
            sync := { condattrInit := 0, condattrSetclock := 0, condInit := 12,
                      mutexInit := 0 } } 4 onHeartbeat).1.config? 4).map
            (fun c => c.lightsFlash.map
              (fun lf => (lf.syncRet, lf.mState, lf.unjoined)))
          = some (some (12, LightsFlashState.STARTED, [1]))
      ∧ (((Lights.new.setLightState
          { Env.good with
            sync := { condattrInit := 0, condattrSetclock := 0, condInit := 12,
                      mutexInit := 0 } } 4 onHeartbeat).1.setLightState Env.good 4
            onHeartbeat).1.config? 4).map
            (fun c => c.lightsFlash.map
              (fun lf => (lf.syncRet, lf.mState, lf.unjoined)))
          = some (some (12, LightsFlashState.STARTED, [2]))
      ∧ (Lights.new.setLightState
          { Env.good with
            sync := { condattrInit := 0, condattrSetclock := 0, condInit := 0,
                      mutexInit := 22 } } 4 onHeartbeat).2.1 = ScopedAStatus.ok := by
  decide

theorem computeBrightness_mono (c m1 m2 : Int) (h : m1 ≤ m2) :
    computeBrightness c m1 ≤ computeBrightness c m2 := by
  rw [computeBrightness_eq_reference, computeBrightness_eq_reference]
  unfold referenceBrightness
  simp only
  split
  · exact Int.le_refl _
  · split
    · exact h
    · omega

/-- C22: for every colour `c` whose low 24 bits are a value in `[2, 2^24)` and all
maximum brightness values `m1 <= m2`, the brightness computed for `(c, m1)` is at
most the brightness computed for `(c, m2)`; both are the luminance of `c` clamped
to the maximum. -/
theorem C22_brightness_monotone_in_max (c m1 m2 : Int)
    (hc : 2 ≤ bits32 c % 2 ^ 24 ∧ bits32 c % 2 ^ 24 < 2 ^ 24) (h : m1 ≤ m2) :
    computeBrightness c m1 ≤ computeBrightness c m2
      ∧ computeBrightness c m1 = min (computeBrightness c m2) m1 := by
  refine ⟨computeBrightness_mono c m1 m2 h, ?_⟩
  rw [computeBrightness_eq_reference, computeBrightness_eq_reference]
  unfold referenceBrightness
  simp only
  rw [if_neg (by omega), if_neg (by omega), if_neg (by omega), if_neg (by omega)]
  omega

/-- Witness of C22: the orange `0xFFFFA500` with maxima 100 and 255 gives 100 and
173. -/
theorem C22_brightness_monotone_in_max_witness :
    ((2 ≤ bits32 0xFFFFA500 % 2 ^ 24 ∧ bits32 0xFFFFA500 % 2 ^ 24 < 2 ^ 24)
      ∧ (100 : Int) ≤ 255)
    ∧ computeBrightness 0xFFFFA500 100 = 100
    ∧ computeBrightness 0xFFFFA500 255 = 173
    ∧ computeBrightness 0xFFFFA500 100 ≤ computeBrightness 0xFFFFA500 255 :=
  ⟨⟨by decide, by decide⟩, by decide, by decide,
    (C22_brightness_monotone_in_max 0xFFFFA500 100 255 (by decide) (by decide)).1⟩

/-- C23: for every colour `c` and every maximum brightness `m >= 0`, the brightness
`b` computed by the block shared by `setColorValue`, `setBacklightValue` and
`set_color_value` satisfies `0 <= b <= m`; when `m` fits a C `int` the cast in the
write leaves `b` unchanged. -/
theorem C23_brightness_within_bounds (c m : Int) (hm : 0 ≤ m) :
    0 ≤ computeBrightness c m
      ∧ computeBrightness c m ≤ m
      ∧ (m < 2 ^ 31 → castInt (computeBrightness c m) = computeBrightness c m) := by
  have hb : 0 ≤ computeBrightness c m ∧ computeBrightness c m ≤ m := by
    rw [computeBrightness_eq_reference]
    unfold referenceBrightness
    simp only
    split
    · exact ⟨Int.le_refl _, hm⟩
    · split
      · exact ⟨hm, Int.le_refl _⟩
      · omega
  refine ⟨hb.1, hb.2, ?_⟩
  intro h31
  unfold castInt
  omega

/-- Witness of C23: colour 1 with maximum 255 gives 255. -/
theorem C23_brightness_within_bounds_witness :
    (0 : Int) ≤ 255
    ∧ 0 ≤ computeBrightness 1 255 ∧ computeBrightness 1 255 ≤ 255 :=
  ⟨by decide, (C23_brightness_within_bounds 1 255 (by decide)).1,
    (C23_brightness_within_bounds 1 255 (by decide)).2.1⟩

/-- C27 (the code at the failing input): on the opened legacy device, a TIMED
request with both durations 0, and one with a negative duration, fail
`check_flash_state`; `set_light_generic` calls no `pthread_create` and stores the
flash mode NONE, but returns 0, the success code. A TIMED request whose
`pthread_create` fails returns the non-zero code, and so does a static request
whose brightness write fails. -/
theorem C27_invalid_flash_state_returns_zero :
    check_flash_state 0 0 = LIGHT_ERROR_INVALID_ARGS
      ∧ (set_light_generic legacyDevice
          { color := 0xFFB500, flashMode := LIGHT_FLASH_TIMED, flashOnMS := 0,
            flashOffMS := 0, brightnessMode := 0 } DeviceResult.good 0).2.1 = 0
      ∧ (set_light_generic legacyDevice
          { color := 0xFFB500, flashMode := LIGHT_FLASH_TIMED, flashOnMS := 0,
            flashOffMS := 0, brightnessMode := 0 } DeviceResult.good 0).2.2
          = [Event.lockWrite 4, Event.unlockWrite 4]
      ∧ (set_light_generic legacyDevice
          { color := 0xFFB500, flashMode := LIGHT_FLASH_TIMED, flashOnMS := 0,
            flashOffMS := 0, brightnessMode := 0 } DeviceResult.good 0).1.state.flashMode
          = LIGHT_FLASH_NONE
      ∧ check_flash_state (-1) 100 = LIGHT_ERROR_INVALID_ARGS
      ∧ (set_light_generic legacyDevice
          { color := 0xFFB500, flashMode := LIGHT_FLASH_TIMED, flashOnMS := -1,
            flashOffMS := 100, brightnessMode := 0 } DeviceResult.good 0).2.1 = 0
      ∧ (set_light_generic legacyDevice
          { color := 0xFFB500, flashMode := LIGHT_FLASH_TIMED, flashOnMS := 100,
            flashOffMS := 100, brightnessMode := 0 } DeviceResult.good 11).2.1 = 11
      ∧ (set_light_generic legacyDevice
          { color := 0xFFB500, flashMode := LIGHT_FLASH_NONE, flashOnMS := 0,
            flashOffMS := 0, brightnessMode := 0 }
          { DeviceResult.good with writeBrightness := false } 0).2.1
          = LIGHT_ERROR_UNKNOWN := by
  decide

/-- C28 (as stated, refuted): on the opened legacy device, a request with
`flashMode = LIGHT_FLASH_HARDWARE` and durations 100 ms / 100 ms calls
`pthread_create` and, the creation succeeding, leaves a flash thread spawned. -/
theorem C28_hardware_mode_spawns_thread :
    (set_light_generic legacyDevice
        { color := 0xFFB500, flashMode := LIGHT_FLASH_HARDWARE, flashOnMS := 100,
          flashOffMS := 100, brightnessMode := 0 } DeviceResult.good 0).2.2
        = [Event.lockWrite 4, Event.create 1 0, Event.unlockWrite 4]
      ∧ (set_light_generic legacyDevice
        { color := 0xFFB500, flashMode := LIGHT_FLASH_HARDWARE, flashOnMS := 100,
          flashOffMS := 100, brightnessMode := 0 } DeviceResult.good 0).1.unjoined = [1]
      ∧ (set_light_generic legacyDevice
        { color := 0xFFB500, flashMode := LIGHT_FLASH_HARDWARE, flashOnMS := 100,
          flashOffMS := 100, brightnessMode := 0 } DeviceResult.good 0).1.state.flashMode
        = LIGHT_FLASH_HARDWARE := by
  decide

theorem stopLegacy_noCreate (dev : light_device_ext_t) :
    (stopLegacy dev).2.filter Event.isCreate = []
      ∧ (stopLegacy dev).1.created = dev.created
      ∧ (stopLegacy dev).1.type = dev.type := by
  unfold stopLegacy
  split <;> simp [Event.isCreate]

theorem set_color_value_noCreate (light_device : String) (color : Int) (dv : DeviceResult) :
    (set_color_value light_device color dv).2.filter Event.isCreate = [] := by
  unfold set_color_value
  split
  · rfl
  · cases hm : dv.maxRead <;> cases hb : dv.openBrightness <;>
      cases hw : dv.writeBrightness <;> simp [hm, hb, hw, Event.isCreate]

/-- C28 (amended): in the legacy HAL `set_light_generic` treats every flash mode
other than NONE alike: it calls `pthread_create` for the flash thread exactly when
the requested flash mode is not NONE and the durations pass `check_flash_state`,
and then a thread is spawned exactly when the creation succeeds; a request with
`flashMode = LIGHT_FLASH_HARDWARE` has the same return value, the same events and
the same threads as the request with `flashMode = LIGHT_FLASH_TIMED` and the same
other fields. -/
theorem C28_non_none_mode_spawns_thread (dev : light_device_ext_t) (st : light_state_t)
    (dv : DeviceResult) (createRet : Int) :
    ((set_light_generic dev st dv createRet).2.2.filter Event.isCreate ≠ []
        ↔ (st.flashMode ≠ LIGHT_FLASH_NONE
            ∧ check_flash_state st.flashOnMS st.flashOffMS = 0))
      ∧ ((set_light_generic dev st dv createRet).1.created = dev.created + 1
        ↔ (st.flashMode ≠ LIGHT_FLASH_NONE
            ∧ check_flash_state st.flashOnMS st.flashOffMS = 0 ∧ createRet = 0))
      ∧ (set_light_generic dev { st with flashMode := LIGHT_FLASH_HARDWARE } dv createRet).2
          = (set_light_generic dev { st with flashMode := LIGHT_FLASH_TIMED } dv createRet).2
      ∧ (set_light_generic dev { st with flashMode := LIGHT_FLASH_HARDWARE } dv
            createRet).1.unjoined
          = (set_light_generic dev { st with flashMode := LIGHT_FLASH_TIMED } dv
            createRet).1.unjoined := by
  obtain ⟨s1, s2, s3⟩ := stopLegacy_noCreate dev
  have c1 := set_color_value_noCreate (stopLegacy dev).1.light_device st.color dv
  refine ⟨?_, ?_, ?_, ?_⟩
  · unfold set_light_generic LIGHT_FLASH_NONE
    by_cases hm : st.flashMode = 0 <;>
      by_cases hv : check_flash_state st.flashOnMS st.flashOffMS = 0 <;>
      by_cases hc : createRet = 0 <;>
      simp [hm, hv, hc, s1, c1, List.filter_cons, List.filter_append, Event.isCreate]
  · unfold set_light_generic LIGHT_FLASH_NONE
    by_cases hm : st.flashMode = 0 <;>
      by_cases hv : check_flash_state st.flashOnMS st.flashOffMS = 0 <;>
      by_cases hc : createRet = 0 <;>
      simp [hm, hv, hc, s2]
  · unfold set_light_generic LIGHT_FLASH_HARDWARE LIGHT_FLASH_TIMED
    by_cases hv : check_flash_state st.flashOnMS st.flashOffMS = 0 <;>
      by_cases hc : createRet = 0 <;> simp [hv, hc]
  · unfold set_light_generic LIGHT_FLASH_HARDWARE LIGHT_FLASH_TIMED
    by_cases hv : check_flash_state st.flashOnMS st.flashOffMS = 0 <;>
      by_cases hc : createRet = 0 <;> simp [hv, hc]

/-- C30 (the code at the failing input): for the well-formed document
`<lightshal>` with the three devices "notifications", "attention" and "battery"
and the requested light "notifications" (the first device matches and two more
follow), the handlers use `stack.entry` at the indices 0, 1, 1, 2, 2, 1, 1, 0, 0 and
then, in `parse_section_end` for `</lightshal>`, at index -1: after the match
`parse_section_start` pushes nothing while `parse_section_end` keeps popping. With
the last device requested the same document is parsed within bounds. -/
theorem C30_stack_index_goes_negative :
    (parseDocument "notifications"
        (configDocument
          [[("name", "notifications"), ("device", "blue:heartbeat")],
           [("name", "attention"), ("device", "blue:heartbeat")],
           [("name", "battery"), ("device", "stub")]])).accesses
        = [0, 1, 1, 2, 2, 1, 1, 0, 0, -1]
      ∧ (parseDocument "notifications"
        (configDocument
          [[("name", "notifications"), ("device", "blue:heartbeat")],
           [("name", "attention"), ("device", "blue:heartbeat")],
           [("name", "battery"), ("device", "stub")]])).fault = some (-1)
      ∧ (parseDocument "notifications"
        (configDocument
          [[("name", "notifications"), ("device", "blue:heartbeat")],
           [("name", "attention"), ("device", "blue:heartbeat")],
           [("name", "battery"), ("device", "stub")]])).light_device_status = 1
      ∧ (parseDocument "notifications"
        (configDocument
          [[("name", "notifications"), ("device", "blue:heartbeat")],
           [("name", "attention"), ("device", "blue:heartbeat")],
           [("name", "battery"), ("device", "stub")]])).parse_error = 0
      ∧ (parseDocument "battery"
        (configDocument
          [[("name", "notifications"), ("device", "blue:heartbeat")],
           [("name", "attention"), ("device", "blue:heartbeat")],
           [("name", "battery"), ("device", "stub")]])).fault = none := by
  decide

end LightsHal
